import Mathlib

/-!
LilyGo EPD 4.7 OWM weather display: sensor fusion, history bias and sleep timing.

A shallow embedding of the sensor-fusion pipeline (`ProcessSensorDataTask`), the two
sensor driver loops (`SHT4xReadTask`, `BME280ReadTask`), the sleep-duration computation
(`InitiateSleep`), the render stage's use of the handoff queue (`DisplayWeather`,
`DisplaySensorReadingsRoom`), the update cycle controller (`WeatherUpdateTask`), the
button interrupt with `loop`, and the helpers `WindDegToOrdinalDirection`, `SumOfPrecip`
and `Convert_Readings_to_Imperial` of `LilyGo-EPD-4-7-OWM-Weather-Display.cpp`.

Conventions of the embedding:
* `float` fields are exact rationals (`ℚ`);
* C `int`/`long` values are `Int`, with C's truncating `%` rendered by `Int.tmod`;
* blocking FreeRTOS calls are rendered by their outcome, supplied as an input of the step.
-/

namespace WeatherStation

/-! ## Data model (lines 97-121 of the source) -/

/-- The `UntaggedSensorData` struct: a temperature/humidity/pressure triple. -/
structure UntaggedSensorData where
  temperature : ℚ
  humidity : ℚ
  pressure : ℚ
deriving DecidableEq

/-- The `SensorType` enum. -/
inductive SensorType where
  | SENSOR_NONE
  | SENSOR_BME280
  | SENSOR_SHT4X
deriving DecidableEq

/-- The `TaggedSensorData` struct: one sensor's reading with its source tag. -/
structure TaggedSensorData where
  tag : SensorType
  temperature : ℚ
  humidity : ℚ
  pressure : ℚ
deriving DecidableEq

/-- The three-slot array `UntaggedSensorData readingHistory[3]`. -/
structure History3 where
  slot0 : UntaggedSensorData
  slot1 : UntaggedSensorData
  slot2 : UntaggedSensorData
deriving DecidableEq

/-- The all-zero initialiser `{0, 0, 0}` of an `UntaggedSensorData`. -/
def zeroData : UntaggedSensorData := ⟨0, 0, 0⟩

/-- Array read `readingHistory[i]`; indices outside `0..2` are outside the array. -/
def History3.get (h : History3) (i : Nat) : UntaggedSensorData :=
  match i with
  | 0 => h.slot0
  | 1 => h.slot1
  | 2 => h.slot2
  | _ => zeroData

/-- Array write `readingHistory[i] = v`; indices outside `0..2` are outside the array. -/
def History3.set (h : History3) (i : Nat) (v : UntaggedSensorData) : History3 :=
  match i with
  | 0 => { h with slot0 := v }
  | 1 => { h with slot1 := v }
  | 2 => { h with slot2 := v }
  | _ => h

/-- The variables `ProcessSensorDataTask` works on: its locals declared before the
`while (1)` loop (which therefore persist from one cycle to the next) and the globals
`historyIndex`, `numReadings`, `readingHistory`, `processedResult`. -/
structure FusionState where
  bme280data : TaggedSensorData
  sht4xdata : TaggedSensorData
  receivedData : TaggedSensorData
  historicalAverage : UntaggedSensorData
  calculationData : UntaggedSensorData
  bme280Ready : Bool
  sht4xReady : Bool
  historyIndex : Nat
  numReadings : Nat
  readingHistory : History3
  processedResult : UntaggedSensorData
deriving DecidableEq

/-- The state at boot: the initialisers of lines 118-121 and 1106-1115. -/
def bootState : FusionState where
  bme280data := ⟨SensorType.SENSOR_NONE, 0, 0, 0⟩
  sht4xdata := ⟨SensorType.SENSOR_NONE, 0, 0, 0⟩
  receivedData := ⟨SensorType.SENSOR_NONE, 0, 0, 0⟩
  historicalAverage := zeroData
  calculationData := zeroData
  bme280Ready := false
  sht4xReady := false
  historyIndex := 0
  numReadings := 0
  readingHistory := ⟨zeroData, zeroData, zeroData⟩
  processedResult := zeroData

/-- What one cycle of `ProcessSensorDataTask` observes from outside: the outcomes of the
successive `xQueueReceive(sensorDataQueue, &receivedData, 100 ms)` calls until the
collection window expires (`none` is a receive that timed out), and the value of
`WxConditions[0].Pressure` at the moment of fusing. -/
structure CycleInput where
  polls : List (Option TaggedSensorData)
  wxPressure : ℚ

/-! ## `ProcessSensorDataTask` (lines 1104-1228) -/

/-- The collection loop of lines 1128-1145: while not both sensors are ready and the
window has not expired, receive from `sensorDataQueue` and file the reading by its tag. -/
def collectWindow (s : FusionState) : List (Option TaggedSensorData) → FusionState
  | [] => s
  | r :: rest =>
    if !s.bme280Ready || !s.sht4xReady then
      match r with
      | none => collectWindow s rest
      | some d =>
        let s1 := { s with receivedData := d }
        if d.tag = SensorType.SENSOR_BME280 then
          collectWindow { s1 with bme280data := d, bme280Ready := true } rest
        else if d.tag = SensorType.SENSOR_SHT4X then
          collectWindow { s1 with sht4xdata := d, sht4xReady := true } rest
        else
          collectWindow s1 rest
    else s

/-- The fusing `if / else if / else if / else` chain of lines 1147-1179. `none` is the
final `else` branch, which `continue`s the task loop. -/
def fuse (s : FusionState) (wxPressure : ℚ) : Option FusionState :=
  if s.bme280Ready && s.sht4xReady then
    some { s with
      calculationData :=
        { temperature := (s.bme280data.temperature + s.sht4xdata.temperature) / 2
          humidity := ((s.bme280data.humidity * 2) + s.sht4xdata.humidity) / 3
          pressure := s.bme280data.pressure / 100 }
      bme280Ready := false
      sht4xReady := false }
  else if s.bme280Ready && !s.sht4xReady then
    some { s with
      calculationData :=
        { temperature := s.bme280data.temperature
          humidity := s.bme280data.humidity
          pressure := s.bme280data.pressure / 100 }
      bme280Ready := false }
  else if !s.bme280Ready && s.sht4xReady then
    some { s with
      calculationData :=
        { temperature := s.sht4xdata.temperature
          humidity := s.sht4xdata.humidity
          pressure := wxPressure }
      sht4xReady := false }
  else
    none

/-- The history update of lines 1183-1185. -/
def updateHistory (s : FusionState) : FusionState :=
  { s with
    readingHistory := s.readingHistory.set s.historyIndex s.calculationData
    historyIndex := (s.historyIndex + 1) % 3
    numReadings := if s.numReadings < 3 then s.numReadings + 1 else 3 }

/-- The accumulation loop `for (int i = 0; i < numReadings; i++)` of lines 1190-1195,
adding `readingHistory[i]` onto the accumulator field by field. -/
def accumulate (h : History3) (acc : UntaggedSensorData) : List Nat → UntaggedSensorData
  | [] => acc
  | i :: is =>
    accumulate h
      { temperature := acc.temperature + (h.get i).temperature
        humidity := acc.humidity + (h.get i).humidity
        pressure := acc.pressure + (h.get i).pressure } is

/-- The "historical average" block of lines 1188-1199. The accumulator is the task-local
`historicalAverage`, with whatever value the previous cycle left in it. -/
def calcHistoricalAverage (s : FusionState) : FusionState :=
  if s.numReadings > 1 then
    let acc := accumulate s.readingHistory s.historicalAverage (List.range s.numReadings)
    { s with
      historicalAverage :=
        { temperature := acc.temperature / s.numReadings
          humidity := acc.humidity / s.numReadings
          pressure := acc.pressure / s.numReadings } }
  else s

/-- The bias block of lines 1202-1211. -/
def applyBias (s : FusionState) : FusionState :=
  if s.numReadings ≥ 3 then
    { s with
      processedResult :=
        { temperature := ((4 * s.calculationData.temperature) + s.historicalAverage.temperature) / 5
          humidity := ((4 * s.calculationData.humidity) + s.historicalAverage.humidity) / 5
          pressure := ((4 * s.calculationData.pressure) + s.historicalAverage.pressure) / 5 } }
  else
    { s with processedResult := s.calculationData }

/-- One pass through the body of the task loop. The second component is the item handed
to `xQueueSend(processedDataQueue, &processedResult, portMAX_DELAY)`, or `none` when the
pass ends in `continue` before reaching the send. -/
def processCycle (s : FusionState) (inp : CycleInput) :
    FusionState × Option UntaggedSensorData :=
  let c := collectWindow s inp.polls
  match fuse c inp.wxPressure with
  | none => (c, none)
  | some f =>
    let r := applyBias (calcHistoricalAverage (updateHistory f))
    (r, some r.processedResult)

/-- The task loop run over a sequence of cycles; returns the final state. -/
def runCycles (s : FusionState) : List CycleInput → FusionState
  | [] => s
  | inp :: rest => runCycles (processCycle s inp).1 rest

/-- The items handed to `processedDataQueue` over a sequence of cycles, oldest first. -/
def publishedLog (s : FusionState) : List CycleInput → List UntaggedSensorData
  | [] => []
  | inp :: rest =>
    match (processCycle s inp).2 with
    | none => publishedLog (processCycle s inp).1 rest
    | some p => p :: publishedLog (processCycle s inp).1 rest

/-- The fused samples (`calculationData` of each cycle that fuses) over a sequence of
cycles, oldest first; cycles that end in `continue` contribute nothing. -/
def fusedLog (s : FusionState) : List CycleInput → List UntaggedSensorData
  | [] => []
  | inp :: rest =>
    match (processCycle s inp).2 with
    | none => fusedLog (processCycle s inp).1 rest
    | some _ => (processCycle s inp).1.calculationData :: fusedLog (processCycle s inp).1 rest

/-! ## `InitiateSleep` (lines 173-195) -/

/-- The constant `const int SleepDuration = 10` (minutes). -/
def SleepDuration : Int := 10

/-- The sleep-schedule globals of lines 76-82 that `InitiateSleep` reads. -/
structure SleepConfig where
  SleepHoursEnabled : Bool
  SleepHour : Int
  WakeupHour : Int
  Delta : Int
deriving DecidableEq

/-- The values the globals are initialised with, apart from `SleepHoursEnabled`, which
the source initialises to `false` and which is passed in here. -/
def defaultSchedule (enabled : Bool) : SleepConfig :=
  { SleepHoursEnabled := enabled, SleepHour := 1, WakeupHour := 5, Delta := 30 }

/-- The wall-clock globals `CurrentHour`, `CurrentMin`, `CurrentSec` as left by
`UpdateLocalTime`. -/
structure ClockTime where
  CurrentHour : Int
  CurrentMin : Int
  CurrentSec : Int
deriving DecidableEq

/-- What `InitiateSleep` decides: which branch ran (the branch is observable through the
message it prints) and the value stored in `SleepTimer`. -/
structure SleepPlan where
  nightMode : Bool
  SleepTimer : Int
deriving DecidableEq

/-- The duration computation of lines 179-192. C's `%` truncates towards zero, which is
`Int.tmod`; `%` and `*` associate to the left. -/
def InitiateSleep (cfg : SleepConfig) (t : ClockTime) : SleepPlan :=
  if cfg.SleepHoursEnabled = true ∧
      (t.CurrentHour ≥ cfg.SleepHour ∨ t.CurrentHour < cfg.WakeupHour) then
    let currentMinutes := t.CurrentHour * 60 + t.CurrentMin
    let wakeupMinutes := cfg.WakeupHour * 60
    { nightMode := true
      SleepTimer := Int.tmod (wakeupMinutes - currentMinutes + 1440) 1440 * 60 }
  else
    { nightMode := false
      SleepTimer :=
        (SleepDuration * 60 - (Int.tmod t.CurrentMin SleepDuration * 60 + t.CurrentSec))
          + cfg.Delta }

/-! ## The sensor driver loops (lines 989-1102) -/

/-- The externally visible steps of one iteration of a sensor driver loop, in program
order. `queueSend d` is an `xQueueSend(sensorDataQueue, ...)` that returned `pdPASS`
(the reading `d` is now on the queue), `queueSendTimeout d` one that did not. -/
inductive DriverEvent where
  | takeTrigger
  | takeI2cMutex
  | startMeasurement
  | isMeasuring
  | delay
  | readResults
  | queueSend (d : TaggedSensorData)
  | queueSendTimeout (d : TaggedSensorData)
  | giveI2cMutex
  | giveSensorDataReady
  | abort
deriving DecidableEq

/-- How one iteration of a driver loop ends: it reaches the end of the loop body, an
`ESP_ERROR_CHECK` aborts, or (BME280 only) the busy-poll is still spinning when the
supplied poll outcomes run out. -/
inductive IterationEnd where
  | completed
  | aborted
  | polling
deriving DecidableEq

/-- Result of one driver iteration: the steps taken, the driver's local reading buffer
afterwards, and how the iteration ended. -/
structure DriverResult where
  trace : List DriverEvent
  data : TaggedSensorData
  ending : IterationEnd
deriving DecidableEq

/-- Outcomes of the calls one iteration of `SHT4xReadTask` makes: whether
`sht4x_start_measurement` returned `ESP_OK`, the (temperature, humidity) delivered by
`sht4x_get_results` (`none` for a non-success status), and whether the queue send
returned `pdPASS`. -/
structure Sht4xOutcome where
  startOk : Bool
  results : Option (ℚ × ℚ)
  sendOk : Bool

/-- The tail shared by both driver loops once the read has been attempted: the queue
send when the read succeeded, then the closing steps of the loop body. `closing` is
what follows the `if / else` (lines 1036-1038 and 1099-1100). -/
def publishAndClose (read : Option TaggedSensorData) (sendOk : Bool)
    (closing : List DriverEvent) : List DriverEvent :=
  match read with
  | some d =>
    (if sendOk then [DriverEvent.queueSend d] else [DriverEvent.queueSendTimeout d]) ++ closing
  | none => closing

/-- One iteration of the `while (1)` loop of `SHT4xReadTask` (lines 1005-1039);
`buf` is the task-local `sht4xdata` (tag `SENSOR_SHT4X`, pressure `0`). -/
def SHT4xReadIteration (buf : TaggedSensorData) (o : Sht4xOutcome) : DriverResult :=
  let head := [DriverEvent.takeTrigger, DriverEvent.takeI2cMutex, DriverEvent.startMeasurement]
  if o.startOk then
    let buf1 :=
      match o.results with
      | some (t, h) => { buf with temperature := t, humidity := h }
      | none => buf
    { trace := head ++ [DriverEvent.delay, DriverEvent.readResults] ++
        publishAndClose (o.results.map fun _ => buf1) o.sendOk
          [DriverEvent.delay, DriverEvent.giveI2cMutex, DriverEvent.giveSensorDataReady]
      data := buf1
      ending := IterationEnd.completed }
  else
    { trace := head ++ [DriverEvent.abort], data := buf, ending := IterationEnd.aborted }

/-- The buffer `sht4xdata` as initialised at lines 997-999 (temperature and humidity are
not initialised by the source; they are written before each send). -/
def sht4xBuffer : TaggedSensorData := ⟨SensorType.SENSOR_SHT4X, 0, 0, 0⟩

/-- Result of one `bmp280_is_measuring` call: an error status, or the busy flag. -/
inductive PollOutcome where
  | error
  | busy
  | idle
deriving DecidableEq

/-- The `do { ... } while (busy)` loop of lines 1071-1076 over the outcomes of its
successive `bmp280_is_measuring` calls. -/
def pollBusy : List PollOutcome → List DriverEvent × IterationEnd
  | [] => ([], IterationEnd.polling)
  | PollOutcome.error :: _ => ([DriverEvent.isMeasuring, DriverEvent.abort], IterationEnd.aborted)
  | PollOutcome.idle :: _ => ([DriverEvent.isMeasuring], IterationEnd.completed)
  | PollOutcome.busy :: rest =>
    ((DriverEvent.isMeasuring :: DriverEvent.delay :: (pollBusy rest).1), (pollBusy rest).2)

/-- Outcomes of the calls one iteration of `BME280ReadTask` makes: whether
`bmp280_force_measurement` returned `ESP_OK`, the successive `bmp280_is_measuring`
results, the (temperature, pressure, humidity) delivered by `bmp280_read_float`
(`none` for a non-success status), and whether the queue send returned `pdPASS`. -/
structure Bme280Outcome where
  forceOk : Bool
  polls : List PollOutcome
  results : Option (ℚ × ℚ × ℚ)
  sendOk : Bool

/-- One iteration of the `while (1)` loop of `BME280ReadTask` (lines 1059-1101);
`buf` is the task-local `bme280data` (tag `SENSOR_BME280`). -/
def BME280ReadIteration (buf : TaggedSensorData) (o : Bme280Outcome) : DriverResult :=
  let head := [DriverEvent.takeTrigger, DriverEvent.takeI2cMutex, DriverEvent.startMeasurement]
  if o.forceOk then
    match (pollBusy o.polls).2 with
    | IterationEnd.completed =>
      let buf1 :=
        match o.results with
        | some (t, p, h) => { buf with temperature := t, pressure := p, humidity := h }
        | none => buf
      { trace := head ++ (pollBusy o.polls).1 ++ [DriverEvent.readResults] ++
          publishAndClose (o.results.map fun _ => buf1) o.sendOk
            [DriverEvent.giveI2cMutex, DriverEvent.giveSensorDataReady]
        data := buf1
        ending := IterationEnd.completed }
    | e => { trace := head ++ (pollBusy o.polls).1, data := buf, ending := e }
  else
    { trace := head ++ [DriverEvent.abort], data := buf, ending := IterationEnd.aborted }

/-- The buffer `bme280data` as initialised at lines 1056-1057. -/
def bme280Buffer : TaggedSensorData := ⟨SensorType.SENSOR_BME280, 0, 0, 0⟩

/-! ## Concrete inputs used in the worked cases below -/

/-- A BME280 reading of 15 °C, 15 %, 1500 Pa. -/
def sampleBme : TaggedSensorData := ⟨SensorType.SENSOR_BME280, 15, 15, 1500⟩

/-- An SHT4X reading of 21 °C, 30 %. -/
def sampleSht : TaggedSensorData := ⟨SensorType.SENSOR_SHT4X, 21, 30, 0⟩

/-- A cycle in which only `sampleBme` arrives. -/
def bmeOnlyCycle : CycleInput := ⟨[some sampleBme], 1000⟩

/-- A cycle in which only `sampleSht` arrives, after one receive that timed out. -/
def shtOnlyCycle : CycleInput := ⟨[none, some sampleSht], 1000⟩

/-- A cycle in which both readings arrive, the SHT4X one first. -/
def bothCycle : CycleInput := ⟨[none, some sampleSht, none, some sampleBme], 1000⟩

/-- A cycle in which every receive of the window times out. -/
def emptyCycle : CycleInput := ⟨[none, none, none], 1000⟩

/-! ## Proof-side invariant -/

/-- The history ring agrees with the list `Fs` of fused samples produced so far: the count
is `min |Fs| 3`, the write index `|Fs| mod 3`, and each of the (up to three) most recent
samples `Fs[k]` sits in slot `k mod 3`. -/
def RingInv (s : FusionState) (Fs : List UntaggedSensorData) : Prop :=
  s.numReadings = min Fs.length 3 ∧ s.historyIndex = Fs.length % 3 ∧
    ∀ k, k < Fs.length → Fs.length ≤ k + 3 → Fs[k]? = some (s.readingHistory.get (k % 3))


/-! ## The handoff queue `processedDataQueue` (lines 510, 1217, 1292) -/

/-- The depth given to `xQueueCreate(10, sizeof(UntaggedSensorData))`. -/
def handoffCapacity : Nat := 10

/-- The queue `processedDataQueue`: the items waiting in it, oldest first, and the item of
the fusion task while that task is blocked in `xQueueSend(..., portMAX_DELAY)` on a full
queue. -/
structure Handoff where
  queue : List UntaggedSensorData
  blocked : Option UntaggedSensorData
deriving DecidableEq

/-- The queue as `setup` creates it. -/
def emptyHandoff : Handoff := ⟨[], none⟩

/-- The call `xQueueSend(processedDataQueue, &processedResult, portMAX_DELAY)` of line 1217:
the item is appended when there is room; otherwise the fusion task blocks holding it. A
task that is still blocked in an earlier send does not reach another one. -/
def Handoff.send (h : Handoff) (x : UntaggedSensorData) : Handoff :=
  match h.blocked with
  | some _ => h
  | none =>
    if h.queue.length < handoffCapacity then { h with queue := h.queue ++ [x] }
    else { h with blocked := some x }

/-- The call `xQueueReceive(processedDataQueue, &processedResult, 500 ms)` of line 510 when
no send arrives during the wait: `none` on an empty queue (time-out), otherwise the oldest
item; a sender blocked on the full queue then completes its send. -/
def Handoff.receive (h : Handoff) : Option UntaggedSensorData × Handoff :=
  match h.queue with
  | [] => (none, h)
  | x :: rest =>
    match h.blocked with
    | some b => (some x, ⟨rest ++ [b], none⟩)
    | none => (some x, ⟨rest, none⟩)

/-! ## The render stage (lines 424-532) -/

/-- The fonts selected by the sensor sections. -/
inductive Font where
  | OpenSans12B
  | OpenSans18B
  | OpenSans24B
deriving DecidableEq

/-- What the render stage does, in program order: the drawing calls of the sensor
sections (every `drawString` there is `LEFT`-aligned, every `drawLine` `DarkGrey`), calls
of the other layout routines, which touch neither queue, and the receive on
`processedDataQueue` with its outcome. -/
inductive RenderEvent where
  | setFont (f : Font)
  | drawString (x y : Int) (text : String)
  | drawLine (x0 y0 x1 y1 : Int)
  | layoutSection (name : String)
  | queueReceive (got : Option UntaggedSensorData)
deriving DecidableEq

/-- Whether a render step is a receive on `processedDataQueue`. -/
def RenderEvent.isReceive : RenderEvent → Bool
  | RenderEvent.queueReceive _ => true
  | _ => false

/-- The state the render stage reads and writes: the handoff queue and the global
`processedResult`, the buffer `xQueueReceive` copies into. -/
structure RenderState where
  handoff : Handoff
  processedResult : UntaggedSensorData
deriving DecidableEq

/-- Outcome of a render routine: its steps and the state it leaves. -/
structure RenderResult where
  events : List RenderEvent
  state : RenderState
deriving DecidableEq

/-- The routine `DisplaySensorReadingsGarden` (lines 496-506). -/
def DisplaySensorReadingsGarden (x y : Int) : List RenderEvent :=
  [ RenderEvent.setFont Font.OpenSans12B,
    RenderEvent.drawString x y "Czujnik ZEWN.",
    RenderEvent.setFont Font.OpenSans24B,
    RenderEvent.drawString x (y + 40) ("12.6" ++ "°"),
    RenderEvent.setFont Font.OpenSans18B,
    RenderEvent.drawString (x + 135) (y + 40) (" " ++ "85" ++ "%"),
    RenderEvent.drawString x (y + 90) ("1024" ++ " hPa") ]

/-- The routine `DisplaySensorReadingsRoom` (lines 508-532). `fmt v n` stands for the
Arduino conversion `String(v, n)` of a float to text with `n` decimals. -/
def DisplaySensorReadingsRoom (fmt : ℚ → Nat → String) (st : RenderState) (x y : Int) :
    RenderResult :=
  match st.handoff.receive with
  | (some r, h) =>
    { events :=
        [ RenderEvent.queueReceive (some r),
          RenderEvent.setFont Font.OpenSans12B,
          RenderEvent.drawString x y "Czujnik DOM",
          RenderEvent.setFont Font.OpenSans24B,
          RenderEvent.drawString x (y + 40) (fmt r.temperature 1 ++ "°"),
          RenderEvent.setFont Font.OpenSans18B,
          RenderEvent.drawString (x + 135) (y + 40) (" " ++ fmt r.humidity 0 ++ "%"),
          RenderEvent.drawString x (y + 90) (fmt r.pressure 0 ++ " hPa") ]
      state := { handoff := h, processedResult := r } }
  | (none, h) =>
    { events :=
        [ RenderEvent.queueReceive none,
          RenderEvent.setFont Font.OpenSans12B,
          RenderEvent.drawString x y "Czujnik dom",
          RenderEvent.setFont Font.OpenSans24B,
          RenderEvent.drawString x (y + 40) ("--.-" ++ "°"),
          RenderEvent.setFont Font.OpenSans18B,
          RenderEvent.drawString (x + 135) (y + 40) (" " ++ "--" ++ "%"),
          RenderEvent.drawString x (y + 90) ("----" ++ " hPa") ]
      state := { handoff := h, processedResult := st.processedResult } }

/-- The routine `DisplaySensorReadings` (lines 487-494); its `y` argument is not used. -/
def DisplaySensorReadings (fmt : ℚ → Nat → String) (st : RenderState) (x _y : Int) :
    RenderResult :=
  let room := DisplaySensorReadingsRoom fmt st (x + 245) 40
  { events :=
      [RenderEvent.drawLine 480 10 480 500, RenderEvent.drawLine 200 40 910 40] ++
        DisplaySensorReadingsGarden x 40 ++ room.events
    state := room.state }

/-- The layout `DisplayWeather_Screen0` (lines 424-437). -/
def DisplayWeather_Screen0 (fmt : ℚ → Nat → String) (st : RenderState) : RenderResult :=
  let sensors := DisplaySensorReadings fmt st 490 65
  { events :=
      [ RenderEvent.layoutSection "DisplayStatusSection",
        RenderEvent.layoutSection "DisplayGeneralInfoSection",
        RenderEvent.layoutSection "DisplayDisplayWindSection",
        RenderEvent.layoutSection "DisplayAstronomySection",
        RenderEvent.layoutSection "DisplayMainWeatherSection" ] ++
      sensors.events ++
      [ RenderEvent.layoutSection "DisplayWeatherIcon",
        RenderEvent.layoutSection "DisplayForecastSection" ]
    state := sensors.state }

/-- The layout `DisplayWeather_Screen1` (lines 439-443). -/
def DisplayWeather_Screen1 (st : RenderState) : RenderResult :=
  { events :=
      [ RenderEvent.layoutSection "DisplayStatusSection",
        RenderEvent.layoutSection "DisplayGeneralInfoSection" ]
    state := st }

/-- The layout `DisplayWeather_Screen2` (lines 445-450). -/
def DisplayWeather_Screen2 (st : RenderState) : RenderResult :=
  { events :=
      [ RenderEvent.layoutSection "DisplayStatusSection",
        RenderEvent.layoutSection "DisplayGeneralInfoSection",
        RenderEvent.layoutSection "DisplayWeatherIcon" ]
    state := st }

/-- The dispatch `DisplayWeather` (lines 453-463) over the table
`screens[] = {Screen0, Screen1, Screen2}`; a state outside `0..2` falls back to
`screens[0]`. -/
def DisplayWeather (fmt : ℚ → Nat → String) (st : RenderState) (screenState : Int) :
    RenderResult :=
  if 0 ≤ screenState ∧ screenState < 3 then
    if screenState = 0 then DisplayWeather_Screen0 fmt st
    else if screenState = 1 then DisplayWeather_Screen1 st
    else DisplayWeather_Screen2 st
  else DisplayWeather_Screen0 fmt st

/-- One update cycle as seen by the handoff queue: what the fusion engine hands to its send
in this cycle (`none` when it does not reach the send), and the value of `screenState`
when the render stage runs. -/
structure HandoffCycle where
  published : Option UntaggedSensorData
  screenState : Int

/-- The fusion engine's part of an update cycle. -/
def publishStep (st : RenderState) (p : Option UntaggedSensorData) : RenderState :=
  match p with
  | some x => { st with handoff := st.handoff.send x }
  | none => st

/-- One update cycle: the fusion engine publishes, then `DisplayWeather` runs. -/
def handoffCycle (fmt : ℚ → Nat → String) (st : RenderState) (c : HandoffCycle) :
    RenderState :=
  (DisplayWeather fmt (publishStep st c.published) c.screenState).state

/-- The number of items in `processedDataQueue` at each observation point of a run of
update cycles: after each publish and after each render, in order. -/
def queueSizes (fmt : ℚ → Nat → String) (st : RenderState) : List HandoffCycle → List Nat
  | [] => []
  | c :: rest =>
    (publishStep st c.published).handoff.queue.length ::
      (handoffCycle fmt st c).handoff.queue.length ::
        queueSizes fmt (handoffCycle fmt st c) rest

/-- The render state after `setup`. -/
def bootRender : RenderState := { handoff := emptyHandoff, processedResult := zeroData }

/-- A stand-in for `String(v, n)` used in the worked cases: it prints nothing of the
value. -/
def plainFmt : ℚ → Nat → String := fun _ _ => "#"

/-! ## `WeatherUpdateTask` (lines 1230-1278) -/

/-- The two request types passed to `obtainWeatherData`. -/
inductive DataKind where
  | weather
  | forecast
deriving DecidableEq

/-- The variables of the fetch loop of lines 1237-1246, together with the record of the
`obtainWeatherData` calls made so far (request type and returned value), oldest first. -/
structure FetchState where
  RxWeather : Bool
  RxForecast : Bool
  calls : List (DataKind × Bool)
deriving DecidableEq

/-- The values before the loop: `RxWeather = false`, `RxForecast = false`, no call made. -/
def fetchStart : FetchState := { RxWeather := false, RxForecast := false, calls := [] }

/-- The body of the fetch loop (lines 1242-1245). `fetch k` is the value returned by the
`k`-th call of `obtainWeatherData` of this iteration (counted from 0). -/
def fetchBody (fetch : Nat → Bool) (st : FetchState) : FetchState :=
  let st1 :=
    if !st.RxWeather then
      { st with
        RxWeather := fetch st.calls.length
        calls := st.calls ++ [(DataKind.weather, fetch st.calls.length)] }
    else st
  if !st1.RxForecast then
    { st1 with
      RxForecast := fetch st1.calls.length
      calls := st1.calls ++ [(DataKind.forecast, fetch st1.calls.length)] }
  else st1

/-- The loop `for (attempts = 0; attempts < 2 && (!RxWeather || !RxForecast); ++attempts)`
of line 1240, started at a given value of `attempts`. -/
def fetchLoop (fetch : Nat → Bool) (attempts : Nat) (st : FetchState) : FetchState :=
  if attempts < 2 ∧ (!st.RxWeather || !st.RxForecast) = true then
    fetchLoop fetch (attempts + 1) (fetchBody fetch st)
  else st
termination_by 2 - attempts
decreasing_by omega

/-- The externally visible steps of one iteration of `WeatherUpdateTask`. `initiateSleep`
is the call of `InitiateSleep`, `clearFramebuffer` the `memset` of line 1271. -/
inductive UpdateEvent where
  | startWiFi
  | setTime
  | obtainWeatherData (kind : DataKind) (ok : Bool)
  | giveSHT4XTrigger
  | giveBME280Trigger
  | epdPoweron
  | epdClear
  | takeDataProcessed (ok : Bool)
  | displayWeather (screenState : Int)
  | epdUpdate
  | epdPoweroffAll
  | clearFramebuffer
  | initiateSleep
  | delay
deriving DecidableEq

/-- Outcomes of the calls one iteration of `WeatherUpdateTask` makes: whether `StartWiFi`
returned `WL_CONNECTED`, whether `SetTime` returned `true`, the value returned by the
`k`-th `obtainWeatherData` call, whether `dataProcessedSem` was taken within 10 s, and the
value of `screenState` passed to `DisplayWeather`. -/
structure UpdateOutcome where
  wifiConnected : Bool
  timeSet : Bool
  fetch : Nat → Bool
  dataProcessed : Bool
  screenState : Int

/-- One iteration of the `while (1)` loop of `WeatherUpdateTask`. `SetTime` is only called
when `StartWiFi` returned `WL_CONNECTED` (short-circuit `&&`). -/
def WeatherUpdateIteration (o : UpdateOutcome) : List UpdateEvent :=
  (if o.wifiConnected then
    [UpdateEvent.startWiFi, UpdateEvent.setTime] ++
      (if o.timeSet then
        (fetchLoop o.fetch 0 fetchStart).calls.map
            (fun c => UpdateEvent.obtainWeatherData c.1 c.2) ++
          [ UpdateEvent.giveSHT4XTrigger, UpdateEvent.giveBME280Trigger,
            UpdateEvent.epdPoweron, UpdateEvent.epdClear,
            UpdateEvent.takeDataProcessed o.dataProcessed,
            UpdateEvent.displayWeather o.screenState,
            UpdateEvent.epdUpdate, UpdateEvent.epdPoweroffAll ]
      else [])
  else [UpdateEvent.startWiFi]) ++
    [UpdateEvent.clearFramebuffer, UpdateEvent.initiateSleep, UpdateEvent.delay]

/-- Whether a step of `WeatherUpdateTask` is a weather fetch, a sensor trigger, or powers
on, clears, draws or refreshes the display. -/
def UpdateEvent.isUpdateWork : UpdateEvent → Bool
  | UpdateEvent.obtainWeatherData _ _ => true
  | UpdateEvent.giveSHT4XTrigger => true
  | UpdateEvent.giveBME280Trigger => true
  | UpdateEvent.epdPoweron => true
  | UpdateEvent.epdClear => true
  | UpdateEvent.displayWeather _ => true
  | UpdateEvent.epdUpdate => true
  | _ => false

/-! ## The two drivers running concurrently on the bus -/

/-- The two sensor driver tasks. -/
inductive TaskId where
  | sht4x
  | bme280
deriving DecidableEq

/-- The mutex `i2cMutex` along an interleaving of driver steps: `xSemaphoreTake(i2cMutex,
portMAX_DELAY)` completes only while nobody holds the mutex and makes the caller its
holder; `xSemaphoreGive(i2cMutex)` by the holder frees it. The result is the holder after
the steps, or `none` when the sequence has a take completing on a held mutex, which
cannot happen. -/
def mutexRun : Option TaskId → List (TaskId × DriverEvent) → Option (Option TaskId)
  | h, [] => some h
  | h, (t, e) :: rest =>
    match e with
    | DriverEvent.takeI2cMutex => if h = none then mutexRun (some t) rest else none
    | DriverEvent.giveI2cMutex => if h = some t then mutexRun none rest else mutexRun h rest
    | _ => mutexRun h rest

/-- The steps of task `t` within an interleaving, in order. -/
def stepsOf (t : TaskId) (l : List (TaskId × DriverEvent)) : List DriverEvent :=
  (l.filter (fun p => decide (p.1 = t))).map (fun p => p.2)

/-- Whether a task holds `i2cMutex` after the given steps of its own, starting from `b`. -/
def holdsMutex : Bool → List DriverEvent → Bool
  | b, [] => b
  | _, DriverEvent.takeI2cMutex :: rest => holdsMutex true rest
  | _, DriverEvent.giveI2cMutex :: rest => holdsMutex false rest
  | b, _ :: rest => holdsMutex b rest

/-- Whether a task is inside a bus transaction after the given steps of its own, starting
from `b`: the transaction opens with the start of a conversion and closes with the read
of the result. -/
def inTransaction : Bool → List DriverEvent → Bool
  | b, [] => b
  | _, DriverEvent.startMeasurement :: rest => inTransaction true rest
  | _, DriverEvent.readResults :: rest => inTransaction false rest
  | b, _ :: rest => inTransaction b rest

/-- Along the whole of a task's steps, the task is inside a bus transaction only while it
holds the mutex. -/
def bracketed : Bool → Bool → List DriverEvent → Bool
  | hold, inTx, [] => !inTx || hold
  | hold, inTx, e :: rest =>
    (!inTx || hold) && bracketed (holdsMutex hold [e]) (inTransaction inTx [e]) rest

/-- Whether a driver step is an attempt to push onto `sensorDataQueue`. -/
def DriverEvent.isSend : DriverEvent → Bool
  | DriverEvent.queueSend _ => true
  | DriverEvent.queueSendTimeout _ => true
  | _ => false

/-! ## The button interrupt and `loop` (lines 64, 128-142, 1363-1371) -/

/-- The number of values of an `unsigned long` on the ESP32 targets (32 bits). -/
def ulongModulus : Nat := 2 ^ 32

/-- The constant `debounceDelay` of `handleButtonPress`, in milliseconds. -/
def debounceDelay : Nat := 200

/-- The unsigned subtraction `currentTime - lastPressTime` of two `unsigned long`
values (both below `2^32`), which wraps modulo `2^32`. -/
def elapsedSince (currentTime lastPressTime : Nat) : Nat :=
  (currentTime + ulongModulus - lastPressTime) % ulongModulus

/-- The globals `ButtonPressed`, `lastPressTime` and `screenState`. -/
structure ButtonState where
  ButtonPressed : Bool
  lastPressTime : Nat
  screenState : Int
deriving DecidableEq

/-- The globals as initialised: `ButtonPressed = false`, `lastPressTime = 0`,
`screenState = 0`. -/
def bootButtons : ButtonState := { ButtonPressed := false, lastPressTime := 0, screenState := 0 }

/-- The interrupt handler `handleButtonPress` (lines 132-142); `currentTime` is the value
returned by `millis()`. -/
def handleButtonPress (s : ButtonState) (currentTime : Nat) : ButtonState :=
  if elapsedSince currentTime s.lastPressTime > debounceDelay then
    { s with ButtonPressed := true, lastPressTime := currentTime }
  else s

/-- One execution of `loop()` (lines 1363-1371); C's `%` is `Int.tmod`. -/
def loop (s : ButtonState) : ButtonState :=
  if s.ButtonPressed then
    { s with ButtonPressed := false, screenState := Int.tmod (s.screenState + 1) 3 }
  else s

/-- What happens to the button globals: the interrupt fires at a given `millis()` value,
or `loop()` runs once. -/
inductive ButtonEvent where
  | press (currentTime : Nat)
  | loopRun
deriving DecidableEq

/-- The button globals after one event. -/
def buttonStep (s : ButtonState) : ButtonEvent → ButtonState
  | ButtonEvent.press t => handleButtonPress s t
  | ButtonEvent.loopRun => loop s

/-- The button globals after a sequence of events. -/
def runButtons (s : ButtonState) : List ButtonEvent → ButtonState
  | [] => s
  | e :: rest => runButtons (buttonStep s e) rest

/-- The subscript with which `DisplayWeather` indexes the table `screens[]`: `screenState`
in the first branch, `0` in the fallback branch. -/
def screenIndex (screenState : Int) : Nat :=
  if 0 ≤ screenState ∧ screenState < 3 then screenState.toNat else 0

/-- The table `screens[] = {DisplayWeather_Screen0, DisplayWeather_Screen1,
DisplayWeather_Screen2}` applied to the current state. -/
def screensTable (fmt : ℚ → Nat → String) (st : RenderState) : List RenderResult :=
  [DisplayWeather_Screen0 fmt st, DisplayWeather_Screen1 st, DisplayWeather_Screen2 st]

/-! ## Imperial conversion inside the fetch loop (lines 262-400, 895-910) -/

/-- The function `hPa_to_inHg`. -/
def hPa_to_inHg (value_hPa : ℚ) : ℚ := 0.02953 * value_hPa

/-- The function `mm_to_inches`. -/
def mm_to_inches (value_mm : ℚ) : ℚ := 0.0393701 * value_mm

/-- The three values `Convert_Readings_to_Imperial` rewrites: `WxConditions[0].Pressure`,
`WxForecast[0].Rainfall` and `WxForecast[0].Snowfall`. -/
structure WxState where
  Pressure : ℚ
  Rainfall : ℚ
  Snowfall : ℚ
deriving DecidableEq

/-- The function `Convert_Readings_to_Imperial` (lines 895-900). -/
def Convert_Readings_to_Imperial (w : WxState) : WxState :=
  { Pressure := hPa_to_inHg w.Pressure
    Rainfall := mm_to_inches w.Rainfall
    Snowfall := mm_to_inches w.Snowfall }

/-- What the server answers to one request: whether the request and the parsing of the
answer succeed, and the values the answer carries for `main.pressure` (a "weather"
answer) and for the first period's `rain.3h` and `snow.3h` (a "forecast" answer). -/
structure FetchReply where
  ok : Bool
  pressure : ℚ
  rainfall : ℚ
  snowfall : ℚ
deriving DecidableEq

/-- The effect of a successful `DecodeWeather` (lines 262-369) on the three values: a
"weather" answer stores its pressure; a "forecast" answer stores the first period's rain
and snow and then, when `Units == "I"`, calls `Convert_Readings_to_Imperial`. -/
def DecodeWeather (Units : String) (kind : DataKind) (r : FetchReply) (w : WxState) :
    WxState :=
  match kind with
  | DataKind.weather => { w with Pressure := r.pressure }
  | DataKind.forecast =>
    let w1 := { w with Rainfall := r.rainfall, Snowfall := r.snowfall }
    if Units = "I" then Convert_Readings_to_Imperial w1 else w1

/-- The function `obtainWeatherData` (lines 371-400): on a failed request or a failed
parse nothing is stored and `false` is returned. -/
def obtainWeatherData (Units : String) (kind : DataKind) (r : FetchReply) (w : WxState) :
    Bool × WxState :=
  if r.ok then (true, DecodeWeather Units kind r w) else (false, w)

/-- The variables of the fetch loop together with the three weather values. -/
structure FetchWx where
  fetch : FetchState
  wx : WxState
deriving DecidableEq

/-- The body of the fetch loop (lines 1242-1245) with the effect of each call on the
weather values; `replies k` is the server's answer to the `k`-th call of this iteration. -/
def fetchBodyWx (Units : String) (replies : Nat → FetchReply) (st : FetchWx) : FetchWx :=
  let st1 :=
    if !st.fetch.RxWeather then
      let r := obtainWeatherData Units DataKind.weather (replies st.fetch.calls.length) st.wx
      { fetch :=
          { st.fetch with
            RxWeather := r.1
            calls := st.fetch.calls ++ [(DataKind.weather, r.1)] }
        wx := r.2 }
    else st
  if !st1.fetch.RxForecast then
    let r := obtainWeatherData Units DataKind.forecast (replies st1.fetch.calls.length) st1.wx
    { fetch :=
        { st1.fetch with
          RxForecast := r.1
          calls := st1.fetch.calls ++ [(DataKind.forecast, r.1)] }
      wx := r.2 }
  else st1

/-- The fetch loop of line 1240 with the effect of each call on the weather values. -/
def fetchLoopWx (Units : String) (replies : Nat → FetchReply) (attempts : Nat)
    (st : FetchWx) : FetchWx :=
  if attempts < 2 ∧ (!st.fetch.RxWeather || !st.fetch.RxForecast) = true then
    fetchLoopWx Units replies (attempts + 1) (fetchBodyWx Units replies st)
  else st
termination_by 2 - attempts
decreasing_by omega

/-! ## `WindDegToOrdinalDirection` (lines 577-612) and `SumOfPrecip` (lines 402-410) -/

/-- The sixteen compass-point names `TXT_N` ... `TXT_NNW` of `lang.cpp`, clockwise from
north. -/
def compassNames : List String :=
  ["N", "NNE", "NE", "ENE", "E", "ESE", "SE", "SSE", "S", "SSW", "SW", "WSW", "W", "WNW",
    "NW", "NNW"]

/-- The function `WindDegToOrdinalDirection`. -/
def WindDegToOrdinalDirection (winddirection : ℚ) : String :=
  if winddirection ≥ 348.75 ∨ winddirection < 11.25 then "N"
  else if winddirection ≥ 11.25 ∧ winddirection < 33.75 then "NNE"
  else if winddirection ≥ 33.75 ∧ winddirection < 56.25 then "NE"
  else if winddirection ≥ 56.25 ∧ winddirection < 78.75 then "ENE"
  else if winddirection ≥ 78.75 ∧ winddirection < 101.25 then "E"
  else if winddirection ≥ 101.25 ∧ winddirection < 123.75 then "ESE"
  else if winddirection ≥ 123.75 ∧ winddirection < 146.25 then "SE"
  else if winddirection ≥ 146.25 ∧ winddirection < 168.75 then "SSE"
  else if winddirection ≥ 168.75 ∧ winddirection < 191.25 then "S"
  else if winddirection ≥ 191.25 ∧ winddirection < 213.75 then "SSW"
  else if winddirection ≥ 213.75 ∧ winddirection < 236.25 then "SW"
  else if winddirection ≥ 236.25 ∧ winddirection < 258.75 then "WSW"
  else if winddirection ≥ 258.75 ∧ winddirection < 281.25 then "W"
  else if winddirection ≥ 281.25 ∧ winddirection < 303.75 then "WNW"
  else if winddirection ≥ 303.75 ∧ winddirection < 326.25 then "NW"
  else if winddirection ≥ 326.25 ∧ winddirection < 348.75 then "NNW"
  else "?"

/-- The loop of `SumOfPrecip` from index `i` on, with the running `sum`: it runs while
`i <= readings`. `none` is a read of `DataArray[i]` beyond the end of the array. -/
def SumOfPrecipFrom (DataArray : List ℚ) (readings : Int) (i : Nat) (sum : ℚ) : Option ℚ :=
  if (i : Int) ≤ readings then
    match DataArray[i]? with
    | some v => SumOfPrecipFrom DataArray readings (i + 1) (sum + v)
    | none => none
  else some sum
termination_by (readings + 1 - i).toNat
decreasing_by omega

/-- The function `SumOfPrecip(DataArray, readings)`. -/
def SumOfPrecip (DataArray : List ℚ) (readings : Int) : Option ℚ :=
  SumOfPrecipFrom DataArray readings 0 0

/-- The constant `max_readings`. -/
def max_readings : Nat := 8

/-! ## Further concrete inputs used in the worked cases below -/

/-- Server answers in which the first request fails and every later one succeeds with
`main.pressure = 1000`. -/
def lateWeatherReplies : Nat → FetchReply :=
  fun k => if k = 0 then ⟨false, 0, 0, 0⟩ else ⟨true, 1000, 0, 0⟩

/-- Server answers in which every request succeeds with `main.pressure = 1000`. -/
def promptReplies : Nat → FetchReply := fun _ => ⟨true, 1000, 0, 0⟩

/-- The weather values before the first fetch since boot. -/
def bootWx : FetchWx := { fetch := fetchStart, wx := ⟨0, 0, 0⟩ }

/-- Eight precipitation readings, as many as `max_readings`. -/
def eightReadings : List ℚ := [1, 2, 3, 4, 5, 6, 7, 8]

/-! ## Lemmas on the array `readingHistory` -/

theorem History3.get_set_same (h : History3) (i : Nat) (v : UntaggedSensorData) (hi : i < 3) :
    (h.set i v).get i = v := by
  interval_cases i <;> rfl

theorem History3.get_set_ne (h : History3) (i j : Nat) (v : UntaggedSensorData) (hij : j ≠ i) :
    (h.set i v).get j = h.get j := by
  match i, j with
  | 0, 0 => exact absurd rfl hij
  | 1, 1 => exact absurd rfl hij
  | 2, 2 => exact absurd rfl hij
  | 0, 1 | 0, 2 | 1, 0 | 1, 2 | 2, 0 | 2, 1 => rfl
  | 0, _ + 3 | 1, _ + 3 | 2, _ + 3 => rfl
  | _ + 3, _ => rfl

/-! ## Lemmas on the collection loop -/

/-- The collection loop touches only `receivedData`, the two reading buffers and the two
readiness flags. -/
theorem collectWindow_frame (polls : List (Option TaggedSensorData)) (s : FusionState) :
    (collectWindow s polls).historyIndex = s.historyIndex ∧
      (collectWindow s polls).numReadings = s.numReadings ∧
      (collectWindow s polls).readingHistory = s.readingHistory ∧
      (collectWindow s polls).historicalAverage = s.historicalAverage ∧
      (collectWindow s polls).calculationData = s.calculationData ∧
      (collectWindow s polls).processedResult = s.processedResult := by
  induction polls generalizing s with
  | nil => exact ⟨rfl, rfl, rfl, rfl, rfl, rfl⟩
  | cons r rest ih =>
    unfold collectWindow
    split_ifs
    · cases r with
      | none => exact ih s
      | some d =>
        simp only []
        split_ifs <;> exact ih _
    · exact ⟨rfl, rfl, rfl, rfl, rfl, rfl⟩

/-- A BME280 buffer that is ready after the collection loop was either ready before it
(and is untouched) or holds a BME280-tagged reading received in this window. -/
theorem collectWindow_bme_mem (polls : List (Option TaggedSensorData)) (s : FusionState)
    (h : (collectWindow s polls).bme280Ready = true) :
    (s.bme280Ready = true ∧ (collectWindow s polls).bme280data = s.bme280data) ∨
      (some (collectWindow s polls).bme280data ∈ polls ∧
        (collectWindow s polls).bme280data.tag = SensorType.SENSOR_BME280) := by
  induction polls generalizing s with
  | nil => exact Or.inl ⟨h, rfl⟩
  | cons r rest ih =>
    unfold collectWindow at h ⊢
    split_ifs at h ⊢ with hc
    · cases r with
      | none =>
        rcases ih s h with h1 | h1
        · exact Or.inl h1
        · exact Or.inr ⟨List.mem_cons_of_mem _ h1.1, h1.2⟩
      | some d =>
        simp only [] at h ⊢
        split_ifs at h ⊢ with ht1 ht2
        · rcases ih _ h with h1 | h1
          · right
            simp only [] at h1
            rw [h1.2]
            exact ⟨List.mem_cons_self _ _, ht1⟩
          · exact Or.inr ⟨List.mem_cons_of_mem _ h1.1, h1.2⟩
        · rcases ih _ h with h1 | h1
          · exact Or.inl h1
          · exact Or.inr ⟨List.mem_cons_of_mem _ h1.1, h1.2⟩
        · rcases ih _ h with h1 | h1
          · exact Or.inl h1
          · exact Or.inr ⟨List.mem_cons_of_mem _ h1.1, h1.2⟩
    · exact Or.inl ⟨h, rfl⟩

/-- The same for the SHT4X buffer. -/
theorem collectWindow_sht_mem (polls : List (Option TaggedSensorData)) (s : FusionState)
    (h : (collectWindow s polls).sht4xReady = true) :
    (s.sht4xReady = true ∧ (collectWindow s polls).sht4xdata = s.sht4xdata) ∨
      (some (collectWindow s polls).sht4xdata ∈ polls ∧
        (collectWindow s polls).sht4xdata.tag = SensorType.SENSOR_SHT4X) := by
  induction polls generalizing s with
  | nil => exact Or.inl ⟨h, rfl⟩
  | cons r rest ih =>
    unfold collectWindow at h ⊢
    split_ifs at h ⊢ with hc
    · cases r with
      | none =>
        rcases ih s h with h1 | h1
        · exact Or.inl h1
        · exact Or.inr ⟨List.mem_cons_of_mem _ h1.1, h1.2⟩
      | some d =>
        simp only [] at h ⊢
        split_ifs at h ⊢ with ht1 ht2
        · rcases ih _ h with h1 | h1
          · exact Or.inl h1
          · exact Or.inr ⟨List.mem_cons_of_mem _ h1.1, h1.2⟩
        · rcases ih _ h with h1 | h1
          · right
            simp only [] at h1
            rw [h1.2]
            exact ⟨List.mem_cons_self _ _, ht2⟩
          · exact Or.inr ⟨List.mem_cons_of_mem _ h1.1, h1.2⟩
        · rcases ih _ h with h1 | h1
          · exact Or.inl h1
          · exact Or.inr ⟨List.mem_cons_of_mem _ h1.1, h1.2⟩
    · exact Or.inl ⟨h, rfl⟩

/-- A window in which no BME280- or SHT4X-tagged reading arrives leaves both readiness
flags as they were. -/
theorem collectWindow_no_reading (polls : List (Option TaggedSensorData)) (s : FusionState)
    (h : ∀ d, some d ∈ polls →
      d.tag ≠ SensorType.SENSOR_BME280 ∧ d.tag ≠ SensorType.SENSOR_SHT4X) :
    (collectWindow s polls).bme280Ready = s.bme280Ready ∧
      (collectWindow s polls).sht4xReady = s.sht4xReady := by
  induction polls generalizing s with
  | nil => exact ⟨rfl, rfl⟩
  | cons r rest ih =>
    have hrest : ∀ d, some d ∈ rest →
        d.tag ≠ SensorType.SENSOR_BME280 ∧ d.tag ≠ SensorType.SENSOR_SHT4X :=
      fun d hd => h d (List.mem_cons_of_mem _ hd)
    unfold collectWindow
    split_ifs
    · cases r with
      | none => exact ih s hrest
      | some d =>
        have hd := h d (List.mem_cons_self _ _)
        simp only [hd.1, hd.2, if_false]
        exact ih _ hrest
    · exact ⟨rfl, rfl⟩

/-! ## Lemmas on one cycle -/

/-- Whenever the fusing chain takes one of its three fusing branches it only writes
`calculationData` and clears both readiness flags. -/
theorem fuse_frame (c f : FusionState) (w : ℚ) (h : fuse c w = some f) :
    f.historyIndex = c.historyIndex ∧ f.numReadings = c.numReadings ∧
      f.readingHistory = c.readingHistory ∧ f.historicalAverage = c.historicalAverage ∧
      f.bme280Ready = false ∧ f.sht4xReady = false := by
  unfold fuse at h
  split_ifs at h with h1 h2 h3
  · cases h; exact ⟨rfl, rfl, rfl, rfl, rfl, rfl⟩
  · cases h
    refine ⟨rfl, rfl, rfl, rfl, rfl, ?_⟩
    have h2' : c.bme280Ready = true ∧ c.sht4xReady = false := by simpa using h2
    exact h2'.2
  · cases h
    refine ⟨rfl, rfl, rfl, rfl, ?_, rfl⟩
    have h3' : c.bme280Ready = false ∧ c.sht4xReady = true := by simpa using h3
    exact h3'.1

/-- The average and bias blocks leave the history ring, its index and count, the fused
sample and the readiness flags alone. -/
theorem bias_frame (s : FusionState) :
    (applyBias (calcHistoricalAverage s)).historyIndex = s.historyIndex ∧
      (applyBias (calcHistoricalAverage s)).numReadings = s.numReadings ∧
      (applyBias (calcHistoricalAverage s)).readingHistory = s.readingHistory ∧
      (applyBias (calcHistoricalAverage s)).calculationData = s.calculationData ∧
      (applyBias (calcHistoricalAverage s)).bme280Ready = s.bme280Ready ∧
      (applyBias (calcHistoricalAverage s)).sht4xReady = s.sht4xReady := by
  unfold applyBias calcHistoricalAverage
  split_ifs <;> exact ⟨rfl, rfl, rfl, rfl, rfl, rfl⟩

/-- A cycle that ends in `continue` leaves the history ring untouched. -/
theorem processCycle_skip (s : FusionState) (inp : CycleInput)
    (h : (processCycle s inp).2 = none) :
    (processCycle s inp).1.readingHistory = s.readingHistory ∧
      (processCycle s inp).1.historyIndex = s.historyIndex ∧
      (processCycle s inp).1.numReadings = s.numReadings := by
  unfold processCycle at h ⊢
  cases hf : fuse (collectWindow s inp.polls) inp.wxPressure with
  | none =>
    have := collectWindow_frame inp.polls s
    simp only [hf]
    exact ⟨this.2.2.1, this.1, this.2.1⟩
  | some f => simp [hf] at h

/-- A cycle that reaches the send has written the fused sample at the old index, advanced
the index modulo 3 and incremented the saturating count. -/
theorem processCycle_fused (s : FusionState) (inp : CycleInput) (p : UntaggedSensorData)
    (h : (processCycle s inp).2 = some p) :
    (processCycle s inp).1.readingHistory =
        s.readingHistory.set s.historyIndex (processCycle s inp).1.calculationData ∧
      (processCycle s inp).1.historyIndex = (s.historyIndex + 1) % 3 ∧
      (processCycle s inp).1.numReadings =
        (if s.numReadings < 3 then s.numReadings + 1 else 3) ∧
      p = (processCycle s inp).1.processedResult := by
  unfold processCycle at h ⊢
  cases hf : fuse (collectWindow s inp.polls) inp.wxPressure with
  | none => simp [hf] at h
  | some f =>
    have hc := collectWindow_frame inp.polls s
    have hfr := fuse_frame _ _ _ hf
    have hb := bias_frame (updateHistory f)
    simp only [hf] at h ⊢
    refine ⟨?_, ?_, ?_, ?_⟩
    · rw [hb.2.2.1, hb.2.2.2.1]
      simp only [updateHistory]
      rw [hfr.2.2.1, hfr.1, hc.2.2.1, hc.1]
    · rw [hb.1]
      simp only [updateHistory]
      rw [hfr.1, hc.1]
    · rw [hb.2.1]
      simp only [updateHistory]
      rw [hfr.2.1, hc.2.1]
    · exact (Option.some.inj h).symm

/-- Both readiness flags are clear again at the end of every cycle. -/
theorem processCycle_flags (s : FusionState) (inp : CycleInput) :
    (processCycle s inp).1.bme280Ready = false ∧ (processCycle s inp).1.sht4xReady = false := by
  unfold processCycle
  cases hf : fuse (collectWindow s inp.polls) inp.wxPressure with
  | none =>
    simp only [hf]
    unfold fuse at hf
    split_ifs at hf with h1 h2 h3
    cases hA1 : (collectWindow s inp.polls).bme280Ready <;>
      cases hB1 : (collectWindow s inp.polls).sht4xReady <;> simp_all
  | some f =>
    have hfr := fuse_frame _ _ _ hf
    have hb := bias_frame (updateHistory f)
    simp only [hf]
    rw [hb.2.2.2.2.1, hb.2.2.2.2.2]
    exact ⟨hfr.2.2.2.2.1, hfr.2.2.2.2.2⟩

/-- The fused sample of a cycle that reaches the send, in terms of what the collection
loop gathered. -/
theorem processCycle_calculationData (s : FusionState) (inp : CycleInput) (f : FusionState)
    (hf : fuse (collectWindow s inp.polls) inp.wxPressure = some f) :
    (processCycle s inp).1.calculationData = f.calculationData ∧
      (processCycle s inp).2 =
        some (applyBias (calcHistoricalAverage (updateHistory f))).processedResult := by
  unfold processCycle
  simp only [hf, and_true]
  exact (bias_frame (updateHistory f)).2.2.2.1

/-- With fewer than three readings accumulated, the bias block copies the fused sample. -/
theorem applyBias_raw (x : FusionState) (h : x.numReadings < 3) :
    (applyBias x).processedResult = (applyBias x).calculationData := by
  unfold applyBias
  split_ifs with h3
  · omega
  · rfl

theorem applyBias_numReadings (x : FusionState) :
    (applyBias x).numReadings = x.numReadings := by
  unfold applyBias
  split_ifs <;> rfl

/-- A cycle that reaches the send with a count below three publishes the fused sample. -/
theorem processCycle_raw (s : FusionState) (inp : CycleInput) (p : UntaggedSensorData)
    (hp : (processCycle s inp).2 = some p) (hlt : (processCycle s inp).1.numReadings < 3) :
    p = (processCycle s inp).1.calculationData := by
  unfold processCycle at hp hlt ⊢
  cases hf : fuse (collectWindow s inp.polls) inp.wxPressure with
  | none => simp [hf] at hp
  | some f =>
    simp only [hf] at hp hlt ⊢
    rw [applyBias_numReadings] at hlt
    rw [← Option.some.inj hp]
    exact applyBias_raw _ hlt

/-! ## Ring invariant over runs -/

theorem ringInv_step (s s1 : FusionState) (Fs : List UntaggedSensorData)
    (F : UntaggedSensorData) (h : RingInv s Fs)
    (hH : s1.readingHistory = s.readingHistory.set s.historyIndex F)
    (hI : s1.historyIndex = (s.historyIndex + 1) % 3)
    (hN : s1.numReadings = (if s.numReadings < 3 then s.numReadings + 1 else 3)) :
    RingInv s1 (Fs ++ [F]) := by
  obtain ⟨hn, hi, hs⟩ := h
  refine ⟨?_, ?_, ?_⟩
  · rw [hN, hn, List.length_append, List.length_singleton]
    split_ifs with hlt <;> omega
  · rw [hI, hi, List.length_append, List.length_singleton]
    omega
  · intro k hk1 hk2
    rw [List.length_append, List.length_singleton] at hk1 hk2
    rw [hH, hi]
    rcases Nat.lt_succ_iff_lt_or_eq.mp hk1 with hlt | heq
    · rw [List.getElem?_append_left hlt, History3.get_set_ne _ _ _ _ (by omega)]
      exact hs k hlt (by omega)
    · subst heq
      rw [History3.get_set_same _ _ _ (Nat.mod_lt _ (by norm_num))]
      simp

theorem ringInv_run (inputs : List CycleInput) (s : FusionState)
    (Fs : List UntaggedSensorData) (h : RingInv s Fs) :
    RingInv (runCycles s inputs) (Fs ++ fusedLog s inputs) := by
  induction inputs generalizing s Fs with
  | nil => simpa [runCycles, fusedLog] using h
  | cons inp rest ih =>
    unfold runCycles fusedLog
    cases hp : (processCycle s inp).2 with
    | none =>
      obtain ⟨h1, h2, h3⟩ := processCycle_skip s inp hp
      simp only []
      refine ih _ _ ⟨?_, ?_, ?_⟩
      · rw [h3]; exact h.1
      · rw [h2]; exact h.2.1
      · rw [h1]; exact h.2.2
    | some p =>
      obtain ⟨h1, h2, h3, _⟩ := processCycle_fused s inp p hp
      simp only []
      have := ih (processCycle s inp).1 (Fs ++ [(processCycle s inp).1.calculationData])
        (ringInv_step s _ Fs _ h h1 h2 h3)
      simpa using this

theorem ringInv_boot : RingInv bootState [] :=
  ⟨rfl, rfl, fun k hk _ => absurd hk (Nat.not_lt_zero k)⟩

/-- Up to the second fusing cycle the published items are the fused samples themselves. -/
theorem published_eq_fused_first_two (inputs : List CycleInput) (s : FusionState) :
    (publishedLog s inputs).take (2 - s.numReadings) =
      (fusedLog s inputs).take (2 - s.numReadings) := by
  induction inputs generalizing s with
  | nil => rfl
  | cons inp rest ih =>
    unfold publishedLog fusedLog
    cases hp : (processCycle s inp).2 with
    | none =>
      obtain ⟨_, _, h3⟩ := processCycle_skip s inp hp
      simp only []
      rw [← h3]
      exact ih _
    | some p =>
      obtain ⟨_, _, h3, h4⟩ := processCycle_fused s inp p hp
      simp only []
      by_cases hlt : s.numReadings < 2
      · have hn : (processCycle s inp).1.numReadings = s.numReadings + 1 := by
          rw [h3, if_pos (by omega)]
        have h2 : 2 - s.numReadings = (2 - (processCycle s inp).1.numReadings) + 1 := by omega
        rw [h2, List.take_succ_cons, List.take_succ_cons, ih]
        congr 1
        exact processCycle_raw s inp p hp (by omega)
      · have h0 : 2 - s.numReadings = 0 := by omega
        rw [h0]; rfl

/-- The first fusing branch. -/
theorem fuse_both (c : FusionState) (w : ℚ) (hA : c.bme280Ready = true)
    (hB : c.sht4xReady = true) :
    ∃ f, fuse c w = some f ∧ f.calculationData =
      { temperature := (c.bme280data.temperature + c.sht4xdata.temperature) / 2
        humidity := ((c.bme280data.humidity * 2) + c.sht4xdata.humidity) / 3
        pressure := c.bme280data.pressure / 100 } := by
  unfold fuse
  rw [if_pos (by simp [hA, hB])]
  exact ⟨_, rfl, rfl⟩

/-- The second fusing branch. -/
theorem fuse_bme_only (c : FusionState) (w : ℚ) (hA : c.bme280Ready = true)
    (hB : c.sht4xReady = false) :
    ∃ f, fuse c w = some f ∧ f.calculationData =
      { temperature := c.bme280data.temperature
        humidity := c.bme280data.humidity
        pressure := c.bme280data.pressure / 100 } := by
  unfold fuse
  rw [if_neg (by simp [hA, hB]), if_pos (by simp [hA, hB])]
  exact ⟨_, rfl, rfl⟩

/-- The third fusing branch. -/
theorem fuse_sht_only (c : FusionState) (w : ℚ) (hA : c.bme280Ready = false)
    (hB : c.sht4xReady = true) :
    ∃ f, fuse c w = some f ∧ f.calculationData =
      { temperature := c.sht4xdata.temperature
        humidity := c.sht4xdata.humidity
        pressure := w } := by
  unfold fuse
  rw [if_neg (by simp [hA, hB]), if_neg (by simp [hA, hB]), if_pos (by simp [hA, hB])]
  exact ⟨_, rfl, rfl⟩

/-! ## Fusion: the claims on `ProcessSensorDataTask` -/

/-- C1: in a cycle that starts with both readiness flags clear (as every cycle does) and in
whose window a BME280 reading `A` and an SHT4X reading `B` are both received, `A` and `B`
are readings of this very window and the fused sample `calculationData` has temperature
`(A.temperature + B.temperature) / 2`, humidity `(2 * A.humidity + B.humidity) / 3` and
pressure `A.pressure / 100`, over exact rationals. -/
theorem fuse_both_received (s : FusionState) (inp : CycleInput) (A B : TaggedSensorData)
    (h0 : s.bme280Ready = false) (h1 : s.sht4xReady = false)
    (hA : (collectWindow s inp.polls).bme280Ready = true ∧
      (collectWindow s inp.polls).bme280data = A)
    (hB : (collectWindow s inp.polls).sht4xReady = true ∧
      (collectWindow s inp.polls).sht4xdata = B) :
    some A ∈ inp.polls ∧ some B ∈ inp.polls ∧
      (processCycle s inp).1.calculationData =
        { temperature := (A.temperature + B.temperature) / 2
          humidity := (2 * A.humidity + B.humidity) / 3
          pressure := A.pressure / 100 } := by
  obtain ⟨hAr, hAd⟩ := hA
  obtain ⟨hBr, hBd⟩ := hB
  refine ⟨?_, ?_, ?_⟩
  · rcases collectWindow_bme_mem inp.polls s hAr with h | h
    · rw [h0] at h; exact absurd h.1 (by decide)
    · rw [← hAd]; exact h.1
  · rcases collectWindow_sht_mem inp.polls s hBr with h | h
    · rw [h1] at h; exact absurd h.1 (by decide)
    · rw [← hBd]; exact h.1
  · obtain ⟨f, hf, hc⟩ := fuse_both (collectWindow s inp.polls) inp.wxPressure hAr hBr
    rw [(processCycle_calculationData s inp f hf).1, hc, hAd, hBd, mul_comm A.humidity]

/-- Witness for C1 at boot, with the window `bothCycle`. -/
theorem fuse_both_received_witness :
    some sampleBme ∈ bothCycle.polls ∧ some sampleSht ∈ bothCycle.polls ∧
      (processCycle bootState bothCycle).1.calculationData =
        { temperature := (sampleBme.temperature + sampleSht.temperature) / 2
          humidity := (2 * sampleBme.humidity + sampleSht.humidity) / 3
          pressure := sampleBme.pressure / 100 } :=
  fuse_both_received bootState bothCycle sampleBme sampleSht rfl rfl
    (by simp [bothCycle, collectWindow, bootState, sampleBme, sampleSht])
    (by simp [bothCycle, collectWindow, bootState, sampleBme, sampleSht])

/-- C3: the first two items handed to `processedDataQueue` since boot are the raw fused
samples of the first two fusing cycles; more generally every cycle that reaches the send
with a count of 1 or 2 after the history update publishes its fused sample in every
field. -/
theorem early_cycles_publish_raw :
    (∀ inputs : List CycleInput,
      (publishedLog bootState inputs).take 2 = (fusedLog bootState inputs).take 2) ∧
    (∀ (s : FusionState) (inp : CycleInput) (p : UntaggedSensorData),
      (processCycle s inp).2 = some p →
      ((processCycle s inp).1.numReadings = 1 ∨ (processCycle s inp).1.numReadings = 2) →
      p = (processCycle s inp).1.calculationData) := by
  refine ⟨fun inputs => published_eq_fused_first_two inputs bootState, ?_⟩
  intro s inp p hp hn
  exact processCycle_raw s inp p hp (by omega)

/-- Worked case for C3: the first cycle after boot publishes its fused sample. -/
theorem early_cycles_publish_raw_witness :
    (processCycle bootState bothCycle).2 =
      some (processCycle bootState bothCycle).1.calculationData := by
  have h2 : (processCycle bootState bothCycle).2 = some ⟨18, 20, 15⟩ := by
    simp [processCycle, collectWindow, fuse, bootState, bothCycle, sampleBme, sampleSht,
      applyBias, calcHistoricalAverage, updateHistory, History3.set]
    norm_num
  have hn : (processCycle bootState bothCycle).1.numReadings = 1 := by
    simp [processCycle, collectWindow, fuse, bootState, bothCycle, sampleBme, sampleSht,
      applyBias, calcHistoricalAverage, updateHistory, History3.set]
  rw [h2, early_cycles_publish_raw.2 bootState bothCycle _ h2 (Or.inl hn)]

/-- C4: in a cycle that starts with both readiness flags clear, when only a BME280 reading
`A` is received the fused sample is `A`'s temperature and humidity with pressure
`A.pressure / 100`; when only an SHT4X reading `B` is received it is `B`'s temperature and
humidity with pressure `WxConditions[0].Pressure`. In both cases the reading is one of
this window. -/
theorem fuse_single_sensor (s : FusionState) (inp : CycleInput) (A B : TaggedSensorData)
    (h0 : s.bme280Ready = false) (h1 : s.sht4xReady = false) :
    ((collectWindow s inp.polls).bme280Ready = true ∧
        (collectWindow s inp.polls).sht4xReady = false ∧
        (collectWindow s inp.polls).bme280data = A →
      some A ∈ inp.polls ∧
        (processCycle s inp).1.calculationData =
          { temperature := A.temperature, humidity := A.humidity,
            pressure := A.pressure / 100 }) ∧
    ((collectWindow s inp.polls).bme280Ready = false ∧
        (collectWindow s inp.polls).sht4xReady = true ∧
        (collectWindow s inp.polls).sht4xdata = B →
      some B ∈ inp.polls ∧
        (processCycle s inp).1.calculationData =
          { temperature := B.temperature, humidity := B.humidity,
            pressure := inp.wxPressure }) := by
  constructor
  · rintro ⟨hAr, hBr, hAd⟩
    constructor
    · rcases collectWindow_bme_mem inp.polls s hAr with h | h
      · rw [h0] at h; exact absurd h.1 (by decide)
      · rw [← hAd]; exact h.1
    · obtain ⟨f, hf, hc⟩ := fuse_bme_only (collectWindow s inp.polls) inp.wxPressure hAr hBr
      rw [(processCycle_calculationData s inp f hf).1, hc, hAd]
  · rintro ⟨hAr, hBr, hBd⟩
    constructor
    · rcases collectWindow_sht_mem inp.polls s hBr with h | h
      · rw [h1] at h; exact absurd h.1 (by decide)
      · rw [← hBd]; exact h.1
    · obtain ⟨f, hf, hc⟩ := fuse_sht_only (collectWindow s inp.polls) inp.wxPressure hAr hBr
      rw [(processCycle_calculationData s inp f hf).1, hc, hBd]

/-- Witness for C4 at boot: the window `bmeOnlyCycle` fuses to (15, 15, 15) and the
window `shtOnlyCycle` to (21, 30, 1000). -/
theorem fuse_single_sensor_witness :
    (processCycle bootState bmeOnlyCycle).1.calculationData = ⟨15, 15, 1500 / 100⟩ ∧
      (processCycle bootState shtOnlyCycle).1.calculationData = ⟨21, 30, 1000⟩ :=
  ⟨((fuse_single_sensor bootState bmeOnlyCycle sampleBme sampleSht rfl rfl).1
      (by simp [bmeOnlyCycle, collectWindow, bootState, sampleBme])).2,
    ((fuse_single_sensor bootState shtOnlyCycle sampleBme sampleSht rfl rfl).2
      (by simp [shtOnlyCycle, collectWindow, bootState, sampleSht])).2⟩

/-- C5: a cycle that starts with both readiness flags clear and in whose window no
BME280- or SHT4X-tagged reading is received hands nothing to `processedDataQueue` and
leaves `readingHistory`, `historyIndex` and `numReadings` as they were. -/
theorem no_data_cycle_skips (s : FusionState) (inp : CycleInput)
    (h0 : s.bme280Ready = false) (h1 : s.sht4xReady = false)
    (hnone : ∀ d, some d ∈ inp.polls →
      d.tag ≠ SensorType.SENSOR_BME280 ∧ d.tag ≠ SensorType.SENSOR_SHT4X) :
    (processCycle s inp).2 = none ∧
      (processCycle s inp).1.readingHistory = s.readingHistory ∧
      (processCycle s inp).1.historyIndex = s.historyIndex ∧
      (processCycle s inp).1.numReadings = s.numReadings := by
  have hflags := collectWindow_no_reading inp.polls s hnone
  have hskip : (processCycle s inp).2 = none := by
    unfold processCycle fuse
    simp [hflags.1, hflags.2, h0, h1]
  exact ⟨hskip, processCycle_skip s inp hskip⟩

/-- Witness for C5: after one fusing cycle, a window of three timed-out receives. -/
theorem no_data_cycle_skips_witness :
    (processCycle (processCycle bootState bmeOnlyCycle).1 emptyCycle).2 = none ∧
      (processCycle (processCycle bootState bmeOnlyCycle).1 emptyCycle).1.readingHistory =
        (processCycle bootState bmeOnlyCycle).1.readingHistory ∧
      (processCycle (processCycle bootState bmeOnlyCycle).1 emptyCycle).1.historyIndex =
        (processCycle bootState bmeOnlyCycle).1.historyIndex ∧
      (processCycle (processCycle bootState bmeOnlyCycle).1 emptyCycle).1.numReadings =
        (processCycle bootState bmeOnlyCycle).1.numReadings :=
  no_data_cycle_skips (processCycle bootState bmeOnlyCycle).1 emptyCycle
    (processCycle_flags bootState bmeOnlyCycle).1 (processCycle_flags bootState bmeOnlyCycle).2
    (by simp [emptyCycle])

/-- C6: after any sequence of cycles since boot, with `N` the number of fusing cycles
among them (skipped cycles not counted) and `F` the list of their fused samples,
`numReadings = min N 3`, `historyIndex = N mod 3`, and every one of the three most recent
fused samples `F[k]` (`N - 3 ≤ k < N`) is held in slot `k mod 3` of `readingHistory`; for
`N ≥ 3` these are all three slots. -/
theorem ring_holds_last_three (inputs : List CycleInput) :
    (runCycles bootState inputs).numReadings = min (fusedLog bootState inputs).length 3 ∧
      (runCycles bootState inputs).historyIndex = (fusedLog bootState inputs).length % 3 ∧
      ∀ k, k < (fusedLog bootState inputs).length →
        (fusedLog bootState inputs).length ≤ k + 3 →
        (fusedLog bootState inputs)[k]? =
          some ((runCycles bootState inputs).readingHistory.get (k % 3)) := by
  have h := ringInv_run inputs bootState [] ringInv_boot
  simpa [RingInv] using h


/-- C2 (evaluation at the failing input): three cycles since boot, each fusing the same
BME280 reading (15 °C, 15 %, 1500 Pa). The fused samples are (15, 15, 15) three times, so
`(4 * F3 + (F1 + F2 + F3) / 3) / 5` is 15 in every field; the task publishes 16 in every
field on the third cycle, because `historicalAverage` still holds the second cycle's
average when the third cycle's sum is accumulated onto it. -/
theorem bias_cycle3_accumulates_stale_average :
    fusedLog bootState [bmeOnlyCycle, bmeOnlyCycle, bmeOnlyCycle] =
        [⟨15, 15, 15⟩, ⟨15, 15, 15⟩, ⟨15, 15, 15⟩] ∧
      publishedLog bootState [bmeOnlyCycle, bmeOnlyCycle, bmeOnlyCycle] =
        [⟨15, 15, 15⟩, ⟨15, 15, 15⟩, ⟨16, 16, 16⟩] ∧
      (runCycles bootState [bmeOnlyCycle, bmeOnlyCycle, bmeOnlyCycle]).historicalAverage =
        ⟨20, 20, 20⟩ ∧
      ((4 * 15 + (15 + 15 + 15) / 3) / 5 : ℚ) = 15 := by
  refine ⟨?_, ?_, ?_, by norm_num⟩
  · simp [fusedLog, processCycle, collectWindow, fuse, bootState, bmeOnlyCycle, sampleBme,
      applyBias, calcHistoricalAverage, updateHistory, History3.set, History3.get, accumulate,
      List.range, List.range.loop, zeroData]
    norm_num
  · simp [publishedLog, processCycle, collectWindow, fuse, bootState, bmeOnlyCycle, sampleBme,
      applyBias, calcHistoricalAverage, updateHistory, History3.set, History3.get, accumulate,
      List.range, List.range.loop, zeroData]
    norm_num
  · simp [runCycles, processCycle, collectWindow, fuse, bootState, bmeOnlyCycle, sampleBme,
      applyBias, calcHistoricalAverage, updateHistory, History3.set, History3.get, accumulate,
      List.range, List.range.loop, zeroData]
    norm_num


/-! ## Sleep duration: the claims on `InitiateSleep` -/

/-- C7: whenever the night-mode branch is taken with hour `h` in 0..23, minute `m` in
0..59 and wake hour `w` in 0..23, `SleepTimer = ((w*60 - (h*60 + m) + 1440) mod 1440) * 60`
(mathematical modulo); with wake hour 5, sleep hour 1 and current time 02:00 (any second,
any `Delta`) it is 10800. -/
theorem night_mode_sleep_timer (cfg : SleepConfig) (t : ClockTime)
    (hh : 0 ≤ t.CurrentHour ∧ t.CurrentHour ≤ 23) (hm : 0 ≤ t.CurrentMin ∧ t.CurrentMin ≤ 59)
    (hw : 0 ≤ cfg.WakeupHour ∧ cfg.WakeupHour ≤ 23)
    (hen : cfg.SleepHoursEnabled = true)
    (hwin : t.CurrentHour ≥ cfg.SleepHour ∨ t.CurrentHour < cfg.WakeupHour) :
    (InitiateSleep cfg t).nightMode = true ∧
      (InitiateSleep cfg t).SleepTimer =
        ((cfg.WakeupHour * 60 - (t.CurrentHour * 60 + t.CurrentMin) + 1440) % 1440) * 60 ∧
      (∀ sec delta : Int, (InitiateSleep ⟨true, 1, 5, delta⟩ ⟨2, 0, sec⟩).SleepTimer = 10800) := by
  refine ⟨?_, ?_, ?_⟩
  · unfold InitiateSleep
    rw [if_pos ⟨hen, hwin⟩]
  · unfold InitiateSleep
    rw [if_pos ⟨hen, hwin⟩]
    simp only []
    rw [Int.tmod_eq_emod (by omega) (by norm_num)]
  · intro sec delta
    unfold InitiateSleep
    rw [if_pos ⟨rfl, Or.inl (show (2 : Int) ≥ 1 by decide)⟩]
    show Int.tmod (5 * 60 - (2 * 60 + 0) + 1440) 1440 * 60 = 10800
    decide

/-- Witness for C7: schedule enabled with sleep hour 1 and wake hour 5, at 02:00:00. -/
theorem night_mode_sleep_timer_witness :
    (InitiateSleep (defaultSchedule true) ⟨2, 0, 0⟩).nightMode = true ∧
      (InitiateSleep (defaultSchedule true) ⟨2, 0, 0⟩).SleepTimer = 10800 :=
  ⟨(night_mode_sleep_timer (defaultSchedule true) ⟨2, 0, 0⟩ (by decide) (by decide) (by decide)
      rfl (Or.inl (by decide))).1,
    (night_mode_sleep_timer (defaultSchedule true) ⟨2, 0, 0⟩ (by decide) (by decide) (by decide)
      rfl (Or.inl (by decide))).2.1⟩

/-- C8: whenever the duty-cycle branch is taken with `SleepDuration = 10`, `Delta = 30`,
minute `m` in 0..59 and any second `s` (in particular `s` in 0..59),
`SleepTimer = (10*60 - (m mod 10)*60 - s) + 30`; for `m = 23` it is `450 - s`. -/
theorem duty_cycle_sleep_timer (cfg : SleepConfig) (t : ClockTime)
    (hm : 0 ≤ t.CurrentMin ∧ t.CurrentMin ≤ 59) (hd : cfg.Delta = 30)
    (hduty : ¬ (cfg.SleepHoursEnabled = true ∧
      (t.CurrentHour ≥ cfg.SleepHour ∨ t.CurrentHour < cfg.WakeupHour))) :
    (InitiateSleep cfg t).nightMode = false ∧
      (InitiateSleep cfg t).SleepTimer =
        (10 * 60 - (t.CurrentMin % 10) * 60 - t.CurrentSec) + 30 ∧
      (t.CurrentMin = 23 → (InitiateSleep cfg t).SleepTimer = 450 - t.CurrentSec) := by
  have hT : (InitiateSleep cfg t).SleepTimer =
      (10 * 60 - (t.CurrentMin % 10) * 60 - t.CurrentSec) + 30 := by
    unfold InitiateSleep
    rw [if_neg hduty]
    simp only [SleepDuration]
    rw [Int.tmod_eq_emod hm.1 (by norm_num), hd]
    ring
  refine ⟨?_, hT, ?_⟩
  · unfold InitiateSleep
    rw [if_neg hduty]
  · intro h23
    rw [hT, h23]
    norm_num
    ring

/-- Witness for C8: schedule disabled (the source's default), at xx:23:17. -/
theorem duty_cycle_sleep_timer_witness :
    (InitiateSleep (defaultSchedule false) ⟨12, 23, 17⟩).nightMode = false ∧
      (InitiateSleep (defaultSchedule false) ⟨12, 23, 17⟩).SleepTimer = 433 :=
  ⟨(duty_cycle_sleep_timer (defaultSchedule false) ⟨12, 23, 17⟩ (by decide) rfl
      (by decide)).1,
    (duty_cycle_sleep_timer (defaultSchedule false) ⟨12, 23, 17⟩ (by decide) rfl
      (by decide)).2.2 rfl⟩

/-- C9 (evaluation at the failing input): with night mode enabled, `SleepHour = 1`,
`WakeupHour = 5` and current time 12:00:00, which lies outside the window 01:00-05:00,
`InitiateSleep` takes the night-mode branch and sleeps 61200 s (until 05:00 next day),
whereas the duty-cycle duration would be 630 s. With these settings the branch condition
`CurrentHour >= SleepHour || CurrentHour < WakeupHour` holds at every hour of the day. -/
theorem night_window_test_ignores_non_wrapping_window :
    InitiateSleep (defaultSchedule true) ⟨12, 0, 0⟩ = ⟨true, 61200⟩ ∧
      InitiateSleep (defaultSchedule false) ⟨12, 0, 0⟩ = ⟨false, 630⟩ ∧
      ∀ t : ClockTime, (InitiateSleep (defaultSchedule true) t).nightMode = true := by
  refine ⟨by decide, by decide, ?_⟩
  intro t
  unfold InitiateSleep
  have h : (defaultSchedule true).SleepHoursEnabled = true ∧
      (t.CurrentHour ≥ (defaultSchedule true).SleepHour ∨
        t.CurrentHour < (defaultSchedule true).WakeupHour) := by
    refine ⟨rfl, ?_⟩
    show t.CurrentHour ≥ 1 ∨ t.CurrentHour < 5
    omega
  rw [if_pos h]

/-! ## Sensor drivers: the readiness signal -/

theorem pollBusy_completed_trace (polls : List PollOutcome)
    (h : (pollBusy polls).2 = IterationEnd.completed) :
    (pollBusy polls).1.count DriverEvent.giveSensorDataReady = 0 ∧
      ∀ d, DriverEvent.queueSend d ∉ (pollBusy polls).1 := by
  induction polls with
  | nil => simp [pollBusy] at h
  | cons p rest ih =>
    cases p with
    | error => simp [pollBusy] at h
    | idle => simp [pollBusy]
    | busy =>
      simp only [pollBusy] at h ⊢
      obtain ⟨h1, h2⟩ := ih h
      refine ⟨?_, ?_⟩
      · simp [List.count_cons, h1]
      · intro d hd
        simp only [List.mem_cons] at hd
        rcases hd with hd | hd | hd
        · cases hd
        · cases hd
        · exact h2 d hd

/-- C10, counterexample: an iteration of `SHT4xReadTask` in which `sht4x_get_results`
returns a non-success status gives `sensorDataReadySem` although nothing is pushed onto
`sensorDataQueue`. -/
theorem ready_given_without_push :
    DriverEvent.giveSensorDataReady ∈
        (SHT4xReadIteration sht4xBuffer ⟨true, none, true⟩).trace ∧
      ∀ d, DriverEvent.queueSend d ∉ (SHT4xReadIteration sht4xBuffer ⟨true, none, true⟩).trace := by
  simp [SHT4xReadIteration, publishAndClose]

/-- C10, amended: every iteration of `SHT4xReadTask` and of `BME280ReadTask` that reaches
the end of the loop body gives `sensorDataReadySem` exactly once, whether or not a reading
was pushed; a reading is pushed onto `sensorDataQueue` exactly when the device read
returned success and the queue send returned `pdPASS`. -/
theorem ready_given_once_per_iteration :
    (∀ (buf : TaggedSensorData) (o : Sht4xOutcome),
      (SHT4xReadIteration buf o).ending = IterationEnd.completed →
        (SHT4xReadIteration buf o).trace.count DriverEvent.giveSensorDataReady = 1 ∧
        ((∃ d, DriverEvent.queueSend d ∈ (SHT4xReadIteration buf o).trace) ↔
          (o.results.isSome = true ∧ o.sendOk = true))) ∧
    (∀ (buf : TaggedSensorData) (o : Bme280Outcome),
      (BME280ReadIteration buf o).ending = IterationEnd.completed →
        (BME280ReadIteration buf o).trace.count DriverEvent.giveSensorDataReady = 1 ∧
        ((∃ d, DriverEvent.queueSend d ∈ (BME280ReadIteration buf o).trace) ↔
          (o.results.isSome = true ∧ o.sendOk = true))) := by
  constructor
  · intro buf o h
    unfold SHT4xReadIteration at h ⊢
    cases hs : o.startOk with
    | false => simp [hs] at h
    | true =>
      cases hr : o.results with
      | none => simp [hs, hr, publishAndClose]
      | some r =>
        cases hq : o.sendOk <;> simp [hs, hr, hq, publishAndClose]
  · intro buf o h
    unfold BME280ReadIteration at h ⊢
    cases hs : o.forceOk with
    | false => simp [hs] at h
    | true =>
      cases hp : (pollBusy o.polls).2 with
      | aborted => simp [hs, hp] at h
      | polling => simp [hs, hp] at h
      | completed =>
        obtain ⟨hc, hm⟩ := pollBusy_completed_trace o.polls hp
        cases hr : o.results with
        | none => simp [hs, hp, hr, publishAndClose, hc, hm]
        | some r =>
          cases hq : o.sendOk <;> simp [hs, hp, hr, hq, publishAndClose, hc, hm]

/-- Worked case for C10: a BME280 iteration with two busy polls whose read fails still
gives the readiness signal once and pushes nothing. -/
theorem ready_given_once_per_iteration_witness :
    (BME280ReadIteration bme280Buffer
        ⟨true, [PollOutcome.busy, PollOutcome.busy, PollOutcome.idle], none, true⟩).trace.count
        DriverEvent.giveSensorDataReady = 1 ∧
      ¬ ∃ d, DriverEvent.queueSend d ∈ (BME280ReadIteration bme280Buffer
        ⟨true, [PollOutcome.busy, PollOutcome.busy, PollOutcome.idle], none, true⟩).trace := by
  have h := ready_given_once_per_iteration.2 bme280Buffer
    ⟨true, [PollOutcome.busy, PollOutcome.busy, PollOutcome.idle], none, true⟩
    (by simp [BME280ReadIteration, pollBusy])
  exact ⟨h.1, fun hex => by simpa using h.2.mp hex⟩


/-! ## The render stage and the handoff queue -/

/-- A receive on a queue that holds nothing times out and changes nothing. -/
theorem Handoff.receive_empty (h : Handoff) (hq : h.queue = []) : h.receive = (none, h) := by
  unfold Handoff.receive
  rw [hq]

/-- A receive on a queue that holds something delivers an item and leaves one item fewer,
unless a blocked sender fills the freed place. -/
theorem Handoff.receive_nonempty (h : Handoff) (hq : h.queue ≠ []) :
    ∃ r, h.receive.1 = some r ∧ some r = h.queue.head? ∧
      h.receive.2.queue.length + 1 = h.queue.length + (if h.blocked.isSome then 1 else 0) := by
  unfold Handoff.receive
  cases hl : h.queue with
  | nil => exact absurd hl hq
  | cons x rest =>
    cases hb : h.blocked with
    | none => exact ⟨x, rfl, rfl, by simp⟩
    | some b => exact ⟨x, rfl, rfl, by simp⟩

/-- The time-out branch of `DisplaySensorReadingsRoom`, on an empty queue. -/
theorem room_on_empty_queue (fmt : ℚ → Nat → String) (st : RenderState) (x y : Int)
    (hq : st.handoff.queue = []) :
    (DisplaySensorReadingsRoom fmt st x y).events =
        [ RenderEvent.queueReceive none,
          RenderEvent.setFont Font.OpenSans12B,
          RenderEvent.drawString x y "Czujnik dom",
          RenderEvent.setFont Font.OpenSans24B,
          RenderEvent.drawString x (y + 40) "--.-°",
          RenderEvent.setFont Font.OpenSans18B,
          RenderEvent.drawString (x + 135) (y + 40) " --%",
          RenderEvent.drawString x (y + 90) "---- hPa" ] ∧
      (DisplaySensorReadingsRoom fmt st x y).state = st := by
  unfold DisplaySensorReadingsRoom
  rw [Handoff.receive_empty _ hq]
  exact ⟨rfl, rfl⟩

/-- C11: whenever the receive from `processedDataQueue` times out, the routine
`DisplaySensorReadingsRoom` performs exactly the fixed placeholder drawing (label
"Czujnik dom", temperature "--.-°", humidity " --%", pressure "---- hPa"), whatever
`processedResult` holds and whatever the number formatting is, and leaves the queue and
`processedResult` as they were. -/
theorem room_placeholder_on_timeout (fmt : ℚ → Nat → String) (st : RenderState) (x y : Int)
    (htimeout : st.handoff.receive.1 = none) :
    (DisplaySensorReadingsRoom fmt st x y).events =
        [ RenderEvent.queueReceive none,
          RenderEvent.setFont Font.OpenSans12B,
          RenderEvent.drawString x y "Czujnik dom",
          RenderEvent.setFont Font.OpenSans24B,
          RenderEvent.drawString x (y + 40) "--.-°",
          RenderEvent.setFont Font.OpenSans18B,
          RenderEvent.drawString (x + 135) (y + 40) " --%",
          RenderEvent.drawString x (y + 90) "---- hPa" ] ∧
      (DisplaySensorReadingsRoom fmt st x y).state = st := by
  have hq : st.handoff.queue = [] := by
    cases hl : st.handoff.queue with
    | nil => rfl
    | cons a rest =>
      obtain ⟨r, hr, _⟩ := Handoff.receive_nonempty st.handoff (by rw [hl]; simp)
      rw [hr] at htimeout
      cases htimeout
  exact room_on_empty_queue fmt st x y hq

/-- Witness for C11: the queue as created by `setup`, with a stale `processedResult`. -/
theorem room_placeholder_on_timeout_witness :
    (DisplaySensorReadingsRoom plainFmt ⟨emptyHandoff, ⟨21, 40, 1000⟩⟩ 735 40).events =
        [ RenderEvent.queueReceive none,
          RenderEvent.setFont Font.OpenSans12B,
          RenderEvent.drawString 735 40 "Czujnik dom",
          RenderEvent.setFont Font.OpenSans24B,
          RenderEvent.drawString 735 (40 + 40) "--.-°",
          RenderEvent.setFont Font.OpenSans18B,
          RenderEvent.drawString (735 + 135) (40 + 40) " --%",
          RenderEvent.drawString 735 (40 + 90) "---- hPa" ] :=
  (room_placeholder_on_timeout plainFmt ⟨emptyHandoff, ⟨21, 40, 1000⟩⟩ 735 40 rfl).1


/-- What `DisplaySensorReadingsRoom` does to the state: one receive. -/
theorem room_state_handoff (fmt : ℚ → Nat → String) (st : RenderState) (x y : Int) :
    (DisplaySensorReadingsRoom fmt st x y).state.handoff = st.handoff.receive.2 ∧
      (DisplaySensorReadingsRoom fmt st x y).events.countP RenderEvent.isReceive = 1 := by
  unfold DisplaySensorReadingsRoom
  rcases hr : st.handoff.receive with ⟨_ | r, h⟩
  · exact ⟨rfl, rfl⟩
  · exact ⟨rfl, rfl⟩

/-- The layout of screen 0 performs the one receive of `DisplaySensorReadingsRoom`. -/
theorem screen0_receives_once (fmt : ℚ → Nat → String) (st : RenderState) :
    (DisplayWeather_Screen0 fmt st).state = (DisplaySensorReadingsRoom fmt st 735 40).state ∧
      (DisplayWeather_Screen0 fmt st).events.countP RenderEvent.isReceive = 1 := by
  refine ⟨rfl, ?_⟩
  unfold DisplayWeather_Screen0 DisplaySensorReadings
  simp only [List.countP_append, DisplaySensorReadingsGarden]
  have h := (room_state_handoff fmt st (490 + 245) 40).2
  rw [h]
  rfl

/-- Every value of `screenState` other than 1 and 2 selects the layout of screen 0. -/
theorem displayWeather_screen0 (fmt : ℚ → Nat → String) (st : RenderState) (ss : Int)
    (h : ¬ (ss = 1 ∨ ss = 2)) : DisplayWeather fmt st ss = DisplayWeather_Screen0 fmt st := by
  unfold DisplayWeather
  split_ifs with h1 h2 h3
  · rfl
  · exact absurd (Or.inl h3) h
  · exact absurd (Or.inr (by omega)) h
  · rfl

/-- The values 1 and 2 of `screenState` select layouts that leave the state alone and
perform no receive. -/
theorem displayWeather_other_screens (fmt : ℚ → Nat → String) (st : RenderState) (ss : Int)
    (h : ss = 1 ∨ ss = 2) :
    (DisplayWeather fmt st ss).state = st ∧
      (DisplayWeather fmt st ss).events.countP RenderEvent.isReceive = 0 := by
  rcases h with h | h <;> subst h <;> exact ⟨rfl, rfl⟩

/-- C12 (evaluation at the failing input): with `screenState = 1` and one reading waiting
in `processedDataQueue`, `DisplayWeather` performs no receive and the reading stays in the
queue, whereas the same call with `screenState = 0` receives once and empties the queue.
The layouts of screens 1 and 2 never drain the queue that the fusion task keeps filling. -/
theorem screen1_leaves_queue_alone :
    (DisplayWeather plainFmt ⟨⟨[⟨21, 40, 1000⟩], none⟩, zeroData⟩ 1).events.countP
        RenderEvent.isReceive = 0 ∧
      (DisplayWeather plainFmt ⟨⟨[⟨21, 40, 1000⟩], none⟩, zeroData⟩ 1).state.handoff.queue =
        [⟨21, 40, 1000⟩] ∧
      (DisplayWeather plainFmt ⟨⟨[⟨21, 40, 1000⟩], none⟩, zeroData⟩ 0).events.countP
        RenderEvent.isReceive = 1 ∧
      (DisplayWeather plainFmt ⟨⟨[⟨21, 40, 1000⟩], none⟩, zeroData⟩ 0).state.handoff.queue =
        [] :=
  ⟨rfl, rfl, rfl, rfl⟩

/-- The receives of `DisplayWeather`, by screen: one call performs exactly one receive on
`processedDataQueue` when `screenState` selects screen 0 (the value 0 or any value outside
`0..2`): it then takes the oldest reading into `processedResult` when the queue is
non-empty and draws the time-out placeholder when it is empty. With `screenState` 1 or 2
it performs no receive and leaves the queue as it was. -/
theorem displayWeather_receive_by_screen (fmt : ℚ → Nat → String) (st : RenderState)
    (ss : Int) :
    (¬ (ss = 1 ∨ ss = 2) →
      (DisplayWeather fmt st ss).events.countP RenderEvent.isReceive = 1 ∧
        (DisplayWeather fmt st ss).state.handoff = st.handoff.receive.2 ∧
        (∀ x rest, st.handoff.queue = x :: rest →
          (DisplayWeather fmt st ss).state.processedResult = x ∧
            (st.handoff.blocked = none →
              (DisplayWeather fmt st ss).state.handoff.queue = rest)) ∧
        (st.handoff.queue = [] →
          (DisplayWeather fmt st ss).state = st ∧
            RenderEvent.drawString 735 80 "--.-°" ∈ (DisplayWeather fmt st ss).events ∧
            RenderEvent.drawString 870 80 " --%" ∈ (DisplayWeather fmt st ss).events ∧
            RenderEvent.drawString 735 130 "---- hPa" ∈ (DisplayWeather fmt st ss).events)) ∧
    ((ss = 1 ∨ ss = 2) →
      (DisplayWeather fmt st ss).events.countP RenderEvent.isReceive = 0 ∧
        (DisplayWeather fmt st ss).state = st) := by
  constructor
  · intro h
    rw [displayWeather_screen0 fmt st ss h]
    refine ⟨(screen0_receives_once fmt st).2, ?_, ?_, ?_⟩
    · rw [(screen0_receives_once fmt st).1]
      exact (room_state_handoff fmt st 735 40).1
    · intro x rest hq
      rw [(screen0_receives_once fmt st).1]
      unfold DisplaySensorReadingsRoom Handoff.receive
      rw [hq]
      cases hb : st.handoff.blocked with
      | none => exact ⟨rfl, fun _ => rfl⟩
      | some b => exact ⟨rfl, fun hn => by cases hn⟩
    · intro hq
      have hroom := room_on_empty_queue fmt st 735 40 hq
      refine ⟨?_, ?_, ?_, ?_⟩
      · rw [(screen0_receives_once fmt st).1]
        exact hroom.2
      all_goals
        unfold DisplayWeather_Screen0 DisplaySensorReadings
        simp only [show (490 : Int) + 245 = 735 by norm_num, hroom.1]
        simp
  · intro h
    exact ⟨(displayWeather_other_screens fmt st ss h).2,
      (displayWeather_other_screens fmt st ss h).1⟩

/-- Worked case: with `screenState = 0` the waiting reading is taken. -/
theorem displayWeather_receive_by_screen_witness :
    (DisplayWeather plainFmt ⟨⟨[⟨21, 40, 1000⟩], none⟩, zeroData⟩ 0).events.countP
        RenderEvent.isReceive = 1 ∧
      (DisplayWeather plainFmt ⟨⟨[⟨21, 40, 1000⟩], none⟩, zeroData⟩ 0).state =
        ⟨emptyHandoff, ⟨21, 40, 1000⟩⟩ := by
  have h := (displayWeather_receive_by_screen plainFmt
    ⟨⟨[⟨21, 40, 1000⟩], none⟩, zeroData⟩ 0).1 (by decide)
  refine ⟨h.1, ?_⟩
  have h2 := h.2.2.1 ⟨21, 40, 1000⟩ [] rfl
  have h3 := h2.2 rfl
  have h4 := h.2.1
  cases hs : (DisplayWeather plainFmt ⟨⟨[⟨21, 40, 1000⟩], none⟩, zeroData⟩ 0).state with
  | mk hd pr =>
    rw [hs] at h2 h4
    simp only at h2 h4
    rw [h2.1, h4]
    rfl


/-- A send never makes the queue longer than its capacity. -/
theorem Handoff.send_le_capacity (h : Handoff) (x : UntaggedSensorData)
    (hc : h.queue.length ≤ handoffCapacity) : (h.send x).queue.length ≤ handoffCapacity := by
  unfold Handoff.send
  cases hb : h.blocked with
  | some b => exact hc
  | none =>
    simp only []
    split_ifs with hlt
    · simp only [List.length_append, List.length_singleton]
      omega
    · exact hc

/-- A receive never makes the queue longer than its capacity. -/
theorem Handoff.receive_le_capacity (h : Handoff) (hc : h.queue.length ≤ handoffCapacity) :
    h.receive.2.queue.length ≤ handoffCapacity := by
  obtain ⟨q, b⟩ := h
  cases q with
  | nil => exact hc
  | cons x rest =>
    cases b with
    | none =>
      simp only [Handoff.receive, List.length_cons] at hc ⊢
      omega
    | some b =>
      simp only [Handoff.receive, List.length_cons, List.length_append,
        List.length_nil] at hc ⊢
      omega

/-- One update cycle on screen 0 that starts with the queue empty ends with it empty, and
holds at most one reading in between. -/
theorem handoffCycle_screen0 (fmt : ℚ → Nat → String) (st : RenderState) (c : HandoffCycle)
    (hs : ¬ (c.screenState = 1 ∨ c.screenState = 2)) (he : st.handoff = emptyHandoff) :
    (publishStep st c.published).handoff.queue.length ≤ 1 ∧
      (handoffCycle fmt st c).handoff = emptyHandoff := by
  unfold handoffCycle
  rw [displayWeather_screen0 fmt _ _ hs, (screen0_receives_once fmt _).1,
    (room_state_handoff fmt _ 735 40).1]
  unfold publishStep
  cases hp : c.published with
  | none =>
    simp only []
    rw [he]
    exact ⟨by decide, rfl⟩
  | some x =>
    simp only []
    rw [he]
    exact ⟨by simp [Handoff.send, emptyHandoff, handoffCapacity], rfl⟩

/-- One update cycle keeps the queue within its capacity. -/
theorem handoffCycle_le_capacity (fmt : ℚ → Nat → String) (st : RenderState)
    (c : HandoffCycle) (hc : st.handoff.queue.length ≤ handoffCapacity) :
    (publishStep st c.published).handoff.queue.length ≤ handoffCapacity ∧
      (handoffCycle fmt st c).handoff.queue.length ≤ handoffCapacity := by
  have hp : (publishStep st c.published).handoff.queue.length ≤ handoffCapacity := by
    unfold publishStep
    cases c.published with
    | none => exact hc
    | some x => exact Handoff.send_le_capacity _ x hc
  refine ⟨hp, ?_⟩
  unfold handoffCycle
  by_cases hs : c.screenState = 1 ∨ c.screenState = 2
  · rw [(displayWeather_other_screens fmt _ _ hs).1]
    exact hp
  · rw [displayWeather_screen0 fmt _ _ hs, (screen0_receives_once fmt _).1,
      (room_state_handoff fmt _ 735 40).1]
    exact Handoff.receive_le_capacity _ hp

theorem queueSizes_screen0 (fmt : ℚ → Nat → String) (cycles : List HandoffCycle)
    (st : RenderState) (he : st.handoff = emptyHandoff)
    (hs : ∀ c ∈ cycles, ¬ (c.screenState = 1 ∨ c.screenState = 2)) :
    ∀ n ∈ queueSizes fmt st cycles, n ≤ 1 := by
  induction cycles generalizing st with
  | nil => intro n hn; simp [queueSizes] at hn
  | cons c rest ih =>
    have hc := handoffCycle_screen0 fmt st c (hs c (List.mem_cons_self _ _)) he
    intro n hn
    simp only [queueSizes, List.mem_cons] at hn
    rcases hn with hn | hn | hn
    · rw [hn]; exact hc.1
    · rw [hn, hc.2]; decide
    · exact ih _ hc.2 (fun c1 h1 => hs c1 (List.mem_cons_of_mem _ h1)) n hn

theorem queueSizes_le_capacity (fmt : ℚ → Nat → String) (cycles : List HandoffCycle)
    (st : RenderState) (hc : st.handoff.queue.length ≤ handoffCapacity) :
    ∀ n ∈ queueSizes fmt st cycles, n ≤ handoffCapacity := by
  induction cycles generalizing st with
  | nil => intro n hn; simp [queueSizes] at hn
  | cons c rest ih =>
    have h := handoffCycle_le_capacity fmt st c hc
    intro n hn
    simp only [queueSizes, List.mem_cons] at hn
    rcases hn with hn | hn | hn
    · rw [hn]; exact h.1
    · rw [hn]; exact h.2
    · exact ih _ h.2 n hn

/-- C13 (evaluation at the failing input): two update cycles rendered with
`screenState = 1`, each with a published reading; after the second publish
`processedDataQueue` holds two readings. A third cycle, rendered with `screenState = 0`
after publishing (23, 42, 1002), then draws from (21, 40, 1000), the reading of the first
cycle, and leaves the two later readings in the queue. -/
theorem queue_holds_two_on_screen1 :
    queueSizes plainFmt bootRender
        [⟨some ⟨21, 40, 1000⟩, 1⟩, ⟨some ⟨22, 41, 1001⟩, 1⟩] = [1, 1, 2, 2] ∧
      (handoffCycle plainFmt
        (handoffCycle plainFmt (handoffCycle plainFmt bootRender ⟨some ⟨21, 40, 1000⟩, 1⟩)
          ⟨some ⟨22, 41, 1001⟩, 1⟩)
        ⟨some ⟨23, 42, 1002⟩, 0⟩) =
        ⟨⟨[⟨22, 41, 1001⟩, ⟨23, 42, 1002⟩], none⟩, ⟨21, 40, 1000⟩⟩ :=
  ⟨rfl, rfl⟩

/-- The size of the queue over runs: over any sequence of update cycles since `setup` in
which every render runs with a `screenState` that selects screen 0 (the value 0 or any value outside `0..2`),
`processedDataQueue` never holds more than one reading, neither after a publish nor after
a render. Over any sequence of update cycles whatsoever it never holds more than its
capacity of 10. -/
theorem queue_at_most_one_on_screen0 (fmt : ℚ → Nat → String) (cycles : List HandoffCycle) :
    ((∀ c ∈ cycles, ¬ (c.screenState = 1 ∨ c.screenState = 2)) →
      ∀ n ∈ queueSizes fmt bootRender cycles, n ≤ 1) ∧
    (∀ n ∈ queueSizes fmt bootRender cycles, n ≤ 10) :=
  ⟨queueSizes_screen0 fmt cycles bootRender rfl,
    queueSizes_le_capacity fmt cycles bootRender (by decide)⟩

/-- Worked case: three cycles on screen 0, the second without a publish. -/
theorem queue_at_most_one_on_screen0_witness :
    queueSizes plainFmt bootRender
        [⟨some ⟨21, 40, 1000⟩, 0⟩, ⟨none, 0⟩, ⟨some ⟨22, 41, 1001⟩, 7⟩] = [1, 0, 0, 0, 1, 0] ∧
      ∀ n ∈ queueSizes plainFmt bootRender
        [⟨some ⟨21, 40, 1000⟩, 0⟩, ⟨none, 0⟩, ⟨some ⟨22, 41, 1001⟩, 7⟩], n ≤ 1 :=
  ⟨rfl, (queue_at_most_one_on_screen0 plainFmt
    [⟨some ⟨21, 40, 1000⟩, 0⟩, ⟨none, 0⟩, ⟨some ⟨22, 41, 1001⟩, 7⟩]).1 (by decide)⟩


/-! ## The update cycle controller -/

/-- C14: in one iteration of `WeatherUpdateTask`, if `StartWiFi` does not return
`WL_CONNECTED` or `SetTime` returns false, then no weather fetch is attempted, neither
sensor trigger is given, the display is not powered on, cleared, drawn or refreshed, and
`InitiateSleep` is called exactly once; `StartWiFi` is called once and `SetTime` at most
once (only after a successful `StartWiFi`), so the task retries nothing. -/
theorem no_update_without_network (o : UpdateOutcome)
    (hfail : o.wifiConnected = false ∨ o.timeSet = false) :
    (∀ e ∈ WeatherUpdateIteration o, e.isUpdateWork = false) ∧
      (WeatherUpdateIteration o).count UpdateEvent.initiateSleep = 1 ∧
      (WeatherUpdateIteration o).count UpdateEvent.startWiFi = 1 ∧
      (WeatherUpdateIteration o).count UpdateEvent.setTime =
        (if o.wifiConnected then 1 else 0) ∧
      WeatherUpdateIteration o =
        (if o.wifiConnected then [UpdateEvent.startWiFi, UpdateEvent.setTime]
          else [UpdateEvent.startWiFi]) ++
        [UpdateEvent.clearFramebuffer, UpdateEvent.initiateSleep, UpdateEvent.delay] := by
  unfold WeatherUpdateIteration
  cases hw : o.wifiConnected with
  | false => simp [UpdateEvent.isUpdateWork]
  | true =>
    have ht : o.timeSet = false := by
      rcases hfail with h | h
      · rw [hw] at h; cases h
      · exact h
    simp [ht, UpdateEvent.isUpdateWork]

/-- Witness for C14: WiFi connects but the time cannot be set. -/
theorem no_update_without_network_witness :
    WeatherUpdateIteration ⟨true, false, fun _ => true, true, 0⟩ =
      [UpdateEvent.startWiFi, UpdateEvent.setTime, UpdateEvent.clearFramebuffer,
        UpdateEvent.initiateSleep, UpdateEvent.delay] :=
  (no_update_without_network ⟨true, false, fun _ => true, true, 0⟩ (Or.inr rfl)).2.2.2.2

/-- The requests the fetch loop makes, by the outcomes of its first four calls. -/
theorem fetchLoop_calls (fetch : Nat → Bool) :
    (fetchLoop fetch 0 fetchStart).calls =
      (if fetch 0 then
        (if fetch 1 then [(DataKind.weather, true), (DataKind.forecast, true)]
          else [(DataKind.weather, true), (DataKind.forecast, false),
            (DataKind.forecast, fetch 2)])
      else
        (if fetch 1 then [(DataKind.weather, false), (DataKind.forecast, true),
            (DataKind.weather, fetch 2)]
          else [(DataKind.weather, false), (DataKind.forecast, false),
            (DataKind.weather, fetch 2), (DataKind.forecast, fetch 3)])) := by
  cases h0 : fetch 0 <;> cases h1 : fetch 1 <;> cases h2 : fetch 2 <;> cases h3 : fetch 3 <;>
    simp [fetchLoop, fetchBody, fetchStart, h0, h1, h2, h3]

/-- C15: in one iteration of `WeatherUpdateTask` that reaches the fetch loop, for every
sequence of outcomes of `obtainWeatherData`, the requests of the iteration are those of the
loop; each of "weather" and "forecast" is requested at least once and at most twice; no
kind is requested again after a request of that kind succeeded; and once both have
succeeded nothing more is requested (in particular, two successes in the first pass end
the loop after two requests). -/
theorem fetch_retries_bounded (o : UpdateOutcome)
    (hw : o.wifiConnected = true) (ht : o.timeSet = true) :
    WeatherUpdateIteration o =
        [UpdateEvent.startWiFi, UpdateEvent.setTime] ++
          (fetchLoop o.fetch 0 fetchStart).calls.map
            (fun c => UpdateEvent.obtainWeatherData c.1 c.2) ++
          [ UpdateEvent.giveSHT4XTrigger, UpdateEvent.giveBME280Trigger,
            UpdateEvent.epdPoweron, UpdateEvent.epdClear,
            UpdateEvent.takeDataProcessed o.dataProcessed,
            UpdateEvent.displayWeather o.screenState,
            UpdateEvent.epdUpdate, UpdateEvent.epdPoweroffAll,
            UpdateEvent.clearFramebuffer, UpdateEvent.initiateSleep, UpdateEvent.delay ] ∧
      (1 ≤ (fetchLoop o.fetch 0 fetchStart).calls.countP (fun c => c.1 = DataKind.weather) ∧
        (fetchLoop o.fetch 0 fetchStart).calls.countP (fun c => c.1 = DataKind.weather) ≤ 2) ∧
      (1 ≤ (fetchLoop o.fetch 0 fetchStart).calls.countP (fun c => c.1 = DataKind.forecast) ∧
        (fetchLoop o.fetch 0 fetchStart).calls.countP (fun c => c.1 = DataKind.forecast) ≤ 2) ∧
      (fetchLoop o.fetch 0 fetchStart).calls.Pairwise
        (fun a b => a.2 = true → b.1 ≠ a.1) ∧
      (o.fetch 0 = true → o.fetch 1 = true →
        (fetchLoop o.fetch 0 fetchStart).calls =
          [(DataKind.weather, true), (DataKind.forecast, true)]) := by
  refine ⟨?_, ?_⟩
  · unfold WeatherUpdateIteration
    simp [hw, ht]
  · rw [fetchLoop_calls]
    cases h0 : o.fetch 0 <;> cases h1 : o.fetch 1 <;> cases h2 : o.fetch 2 <;>
      cases h3 : o.fetch 3 <;> simp [List.countP_cons]

/-- Witness for C15: the weather request fails once, then succeeds; the forecast request
succeeds at once and is not repeated. -/
theorem fetch_retries_bounded_witness :
    (fetchLoop (fun k => decide (k ≠ 0)) 0 fetchStart).calls =
        [(DataKind.weather, false), (DataKind.forecast, true), (DataKind.weather, true)] ∧
      (fetchLoop (fun k => decide (k ≠ 0)) 0 fetchStart).calls.Pairwise
        (fun a b => a.2 = true → b.1 ≠ a.1) :=
  ⟨by rw [fetchLoop_calls]; rfl,
    (fetch_retries_bounded ⟨true, true, fun k => decide (k ≠ 0), true, 0⟩ rfl rfl).2.2.2.1⟩


/-! ## The bus mutex under concurrent drivers -/

theorem holdsMutex_cons (b : Bool) (e : DriverEvent) (rest : List DriverEvent) :
    holdsMutex b (e :: rest) = holdsMutex (holdsMutex b [e]) rest := by
  cases e <;> rfl

theorem inTransaction_cons (b : Bool) (e : DriverEvent) (rest : List DriverEvent) :
    inTransaction b (e :: rest) = inTransaction (inTransaction b [e]) rest := by
  cases e <;> rfl

/-- A bracketed sequence of steps is bracketed at each of its initial segments. -/
theorem bracketed_initial (tr : List DriverEvent) (hold inTx : Bool)
    (h : bracketed hold inTx tr = true) (p : List DriverEvent) (hp : p <+: tr)
    (hin : inTransaction inTx p = true) : holdsMutex hold p = true := by
  induction tr generalizing hold inTx p with
  | nil =>
    have : p = [] := List.prefix_nil.mp hp
    subst this
    simp only [bracketed, inTransaction, holdsMutex] at h hin ⊢
    rw [hin] at h
    simpa using h
  | cons e rest ih =>
    cases p with
    | nil =>
      simp only [bracketed, inTransaction, holdsMutex, Bool.and_eq_true] at h hin ⊢
      rw [hin] at h
      simpa using h.1
    | cons e1 p1 =>
      obtain ⟨he, hp1⟩ := List.cons_prefix_cons.mp hp
      subst he
      simp only [bracketed, Bool.and_eq_true] at h
      rw [holdsMutex_cons]
      rw [inTransaction_cons] at hin
      exact ih _ _ h.2 p1 hp1 hin

theorem bracketed_append (a b : List DriverEvent) (hold inTx : Bool) :
    bracketed hold inTx (a ++ b) =
      (bracketed hold inTx a && bracketed (holdsMutex hold a) (inTransaction inTx a) b) := by
  induction a generalizing hold inTx with
  | nil =>
    cases b with
    | nil => simp [bracketed, holdsMutex, inTransaction]
    | cons e rest => simp [bracketed, holdsMutex, inTransaction]
  | cons e rest ih =>
    show ((!inTx || hold) &&
        bracketed (holdsMutex hold [e]) (inTransaction inTx [e]) (rest ++ b)) =
      ((!inTx || hold) && bracketed (holdsMutex hold [e]) (inTransaction inTx [e]) rest &&
        bracketed (holdsMutex hold (e :: rest)) (inTransaction inTx (e :: rest)) b)
    rw [ih, holdsMutex_cons hold e rest, inTransaction_cons inTx e rest, Bool.and_assoc]

/-- The busy-poll changes neither the holding of the mutex nor the transaction. -/
theorem pollBusy_neutral (polls : List PollOutcome) (hold inTx : Bool) :
    holdsMutex hold (pollBusy polls).1 = hold ∧ inTransaction inTx (pollBusy polls).1 = inTx ∧
      bracketed hold inTx (pollBusy polls).1 = (!inTx || hold) := by
  induction polls with
  | nil => exact ⟨rfl, rfl, rfl⟩
  | cons p rest ih =>
    cases p with
    | error => refine ⟨rfl, rfl, ?_⟩; cases inTx <;> cases hold <;> rfl
    | idle => refine ⟨rfl, rfl, ?_⟩; cases inTx <;> cases hold <;> rfl
    | busy =>
      simp only [pollBusy]
      refine ⟨ih.1, ih.2.1, ?_⟩
      simp only [bracketed, holdsMutex, inTransaction, ih.2.2]
      cases inTx <;> cases hold <;> rfl

/-- In `SHT4xReadTask` the bus transaction lies inside the holding of the mutex. -/
theorem sht4x_bracketed (buf : TaggedSensorData) (o : Sht4xOutcome) :
    bracketed false false (SHT4xReadIteration buf o).trace = true := by
  unfold SHT4xReadIteration
  cases o.startOk with
  | false => rfl
  | true =>
    cases o.results with
    | none => rfl
    | some r => cases o.sendOk <;> rfl

/-- In `BME280ReadTask` the bus transaction lies inside the holding of the mutex. -/
theorem bme280_bracketed (buf : TaggedSensorData) (o : Bme280Outcome) :
    bracketed false false (BME280ReadIteration buf o).trace = true := by
  unfold BME280ReadIteration
  have hp := pollBusy_neutral o.polls true true
  have h1 : holdsMutex false
      [DriverEvent.takeTrigger, DriverEvent.takeI2cMutex, DriverEvent.startMeasurement] =
      true := rfl
  have h2 : inTransaction false
      [DriverEvent.takeTrigger, DriverEvent.takeI2cMutex, DriverEvent.startMeasurement] =
      true := rfl
  have h3 : bracketed false false
      [DriverEvent.takeTrigger, DriverEvent.takeI2cMutex, DriverEvent.startMeasurement] =
      true := rfl
  cases o.forceOk with
  | false => rfl
  | true =>
    simp only [if_true]
    cases he : (pollBusy o.polls).2 with
    | aborted =>
      simp only [bracketed_append, h1, h2, h3, hp.2.2]
      rfl
    | polling =>
      simp only [bracketed_append, h1, h2, h3, hp.2.2]
      rfl
    | completed =>
      simp only [List.append_assoc, bracketed_append, h1, h2, h3, hp.1, hp.2.1, hp.2.2]
      cases o.results with
      | none => rfl
      | some r => cases o.sendOk <;> rfl

/-- Under the mutex discipline, a task holds `i2cMutex` by its own steps exactly when it
is the holder. -/
theorem mutexRun_holder (pre : List (TaskId × DriverEvent)) (h h1 : Option TaskId)
    (t : TaskId) (hrun : mutexRun h pre = some h1) :
    holdsMutex (decide (h = some t)) (stepsOf t pre) = decide (h1 = some t) := by
  induction pre generalizing h with
  | nil =>
    simp only [mutexRun, Option.some.injEq] at hrun
    subst hrun
    rfl
  | cons p rest ih =>
    obtain ⟨u, e⟩ := p
    by_cases hu : u = t
    · subst hu
      have hs : stepsOf u ((u, e) :: rest) = e :: stepsOf u rest := by
        simp [stepsOf]
      rw [hs]
      cases e <;> simp only [mutexRun] at hrun <;>
        first
        | (rw [holdsMutex_cons]; exact ih _ hrun)
        | skip
      · split_ifs at hrun with hn
        have := ih _ hrun
        simpa [holdsMutex] using this
      · split_ifs at hrun with hn
        · have := ih _ hrun
          simpa [holdsMutex] using this
        · have := ih _ hrun
          simp only [holdsMutex]
          rw [← this]
          simp [hn]
    · have hs : stepsOf t ((u, e) :: rest) = stepsOf t rest := by
        simp [stepsOf, hu]
      rw [hs]
      cases e <;> simp only [mutexRun] at hrun <;>
        first
        | exact ih _ hrun
        | skip
      · split_ifs at hrun with hn
        have := ih _ hrun
        subst hn
        simpa [Ne.symm hu, hu] using this
      · split_ifs at hrun with hn
        · have := ih _ hrun
          subst hn
          simpa [Ne.symm hu, hu] using this
        · exact ih _ hrun


/-- C16: take any interleaving of the steps of one iteration of `SHT4xReadTask` and one
iteration of `BME280ReadTask` (for any outcomes of their device calls) that respects the
mutex, and any point of it: the two drivers are never both inside a bus transaction
(from the start of a conversion to the read of its result) at that point. -/
theorem bus_transactions_never_overlap (buf1 buf2 : TaggedSensorData) (o1 : Sht4xOutcome)
    (o2 : Bme280Outcome) (pre : List (TaskId × DriverEvent))
    (h1 : stepsOf TaskId.sht4x pre <+: (SHT4xReadIteration buf1 o1).trace)
    (h2 : stepsOf TaskId.bme280 pre <+: (BME280ReadIteration buf2 o2).trace)
    (hm : mutexRun none pre ≠ none) :
    ¬ (inTransaction false (stepsOf TaskId.sht4x pre) = true ∧
      inTransaction false (stepsOf TaskId.bme280 pre) = true) := by
  rintro ⟨hs, hb⟩
  cases hr : mutexRun none pre with
  | none => exact hm hr
  | some holder =>
    have hs1 := bracketed_initial _ _ _ (sht4x_bracketed buf1 o1) _ h1 hs
    have hb1 := bracketed_initial _ _ _ (bme280_bracketed buf2 o2) _ h2 hb
    have hs2 := mutexRun_holder pre none holder TaskId.sht4x hr
    have hb2 := mutexRun_holder pre none holder TaskId.bme280 hr
    simp only [decide_False, reduceCtorEq] at hs2 hb2
    rw [hs1] at hs2
    rw [hb1] at hb2
    have e1 : holder = some TaskId.sht4x := of_decide_eq_true hs2.symm
    have e2 : holder = some TaskId.bme280 := of_decide_eq_true hb2.symm
    rw [e1] at e2
    cases e2

/-- Witness for C16: both drivers are triggered, the SHT4X driver wins the mutex and has
started its conversion while the BME280 driver waits for the mutex. -/
theorem bus_transactions_never_overlap_witness :
    ¬ (inTransaction false (stepsOf TaskId.sht4x
          [(TaskId.sht4x, DriverEvent.takeTrigger), (TaskId.bme280, DriverEvent.takeTrigger),
            (TaskId.sht4x, DriverEvent.takeI2cMutex),
            (TaskId.sht4x, DriverEvent.startMeasurement)]) = true ∧
      inTransaction false (stepsOf TaskId.bme280
          [(TaskId.sht4x, DriverEvent.takeTrigger), (TaskId.bme280, DriverEvent.takeTrigger),
            (TaskId.sht4x, DriverEvent.takeI2cMutex),
            (TaskId.sht4x, DriverEvent.startMeasurement)]) = true) :=
  bus_transactions_never_overlap sht4xBuffer bme280Buffer ⟨true, some (21, 30), true⟩
    ⟨true, [PollOutcome.idle], some (15, 1500, 15), true⟩
    [(TaskId.sht4x, DriverEvent.takeTrigger), (TaskId.bme280, DriverEvent.takeTrigger),
      (TaskId.sht4x, DriverEvent.takeI2cMutex), (TaskId.sht4x, DriverEvent.startMeasurement)]
    (by simp [stepsOf, SHT4xReadIteration])
    (by simp [stepsOf, BME280ReadIteration, pollBusy])
    (by simp [mutexRun])

/-! ## Order of the queue send and the release of the bus -/

theorem holdsMutex_append (b : Bool) (a c : List DriverEvent) :
    holdsMutex b (a ++ c) = holdsMutex (holdsMutex b a) c := by
  induction a generalizing b with
  | nil => rfl
  | cons e rest ih =>
    rw [List.cons_append, holdsMutex_cons, ih, ← holdsMutex_cons]

/-- The busy-poll makes no attempt to push onto `sensorDataQueue`. -/
theorem pollBusy_no_send (polls : List PollOutcome) :
    ∀ x ∈ (pollBusy polls).1, x.isSend = false := by
  induction polls with
  | nil => intro x hx; simp [pollBusy] at hx
  | cons p rest ih =>
    intro x hx
    cases p with
    | error =>
      simp only [pollBusy, List.mem_cons, List.mem_singleton, List.not_mem_nil, or_false] at hx
      rcases hx with hx | hx <;> rw [hx] <;> rfl
    | idle =>
      simp only [pollBusy, List.mem_singleton] at hx
      rw [hx]; rfl
    | busy =>
      simp only [pollBusy, List.mem_cons] at hx
      rcases hx with hx | hx | hx
      · rw [hx]; rfl
      · rw [hx]; rfl
      · exact ih x hx

/-- C20, counterexample: in an iteration of `SHT4xReadTask` whose read and send succeed,
the reading is pushed onto `sensorDataQueue` while `i2cMutex` is held; the mutex is given
only two steps later. -/
theorem send_precedes_mutex_release :
    (SHT4xReadIteration sht4xBuffer ⟨true, some (21, 30), true⟩).trace =
        [ DriverEvent.takeTrigger, DriverEvent.takeI2cMutex, DriverEvent.startMeasurement,
          DriverEvent.delay, DriverEvent.readResults,
          DriverEvent.queueSend ⟨SensorType.SENSOR_SHT4X, 21, 30, 0⟩,
          DriverEvent.delay, DriverEvent.giveI2cMutex, DriverEvent.giveSensorDataReady ] ∧
      holdsMutex false
        [ DriverEvent.takeTrigger, DriverEvent.takeI2cMutex, DriverEvent.startMeasurement,
          DriverEvent.delay, DriverEvent.readResults ] = true := by
  constructor
  · simp [SHT4xReadIteration, publishAndClose, sht4xBuffer]
  · rfl

/-- C20, amended: in each loop iteration of `SHT4xReadTask` and of `BME280ReadTask` whose
device read succeeds, the one attempt to push the reading onto `sensorDataQueue` is made
while `i2cMutex` is held, and the mutex is given after it, followed only by the giving of
`sensorDataReadySem`. -/
theorem send_while_holding_bus :
    (∀ (buf : TaggedSensorData) (o : Sht4xOutcome),
      (SHT4xReadIteration buf o).ending = IterationEnd.completed → o.results.isSome = true →
      ∃ pre e, (SHT4xReadIteration buf o).trace =
          pre ++ [e, DriverEvent.delay, DriverEvent.giveI2cMutex,
            DriverEvent.giveSensorDataReady] ∧
        e.isSend = true ∧ holdsMutex false pre = true ∧ ∀ x ∈ pre, x.isSend = false) ∧
    (∀ (buf : TaggedSensorData) (o : Bme280Outcome),
      (BME280ReadIteration buf o).ending = IterationEnd.completed → o.results.isSome = true →
      ∃ pre e, (BME280ReadIteration buf o).trace =
          pre ++ [e, DriverEvent.giveI2cMutex, DriverEvent.giveSensorDataReady] ∧
        e.isSend = true ∧ holdsMutex false pre = true ∧ ∀ x ∈ pre, x.isSend = false) := by
  constructor
  · intro buf o hend hres
    unfold SHT4xReadIteration at hend ⊢
    cases hs : o.startOk with
    | false => simp [hs] at hend
    | true =>
      cases hr : o.results with
      | none => simp [hr] at hres
      | some r =>
        refine ⟨[DriverEvent.takeTrigger, DriverEvent.takeI2cMutex,
          DriverEvent.startMeasurement, DriverEvent.delay, DriverEvent.readResults], ?_⟩
        cases hq : o.sendOk
        · exact ⟨DriverEvent.queueSendTimeout { buf with temperature := r.1, humidity := r.2 },
            by simp [publishAndClose], rfl, rfl, by simp [DriverEvent.isSend]⟩
        · exact ⟨DriverEvent.queueSend { buf with temperature := r.1, humidity := r.2 },
            by simp [publishAndClose], rfl, rfl, by simp [DriverEvent.isSend]⟩
  · intro buf o hend hres
    unfold BME280ReadIteration at hend ⊢
    cases hs : o.forceOk with
    | false => simp [hs] at hend
    | true =>
      cases hp : (pollBusy o.polls).2 with
      | aborted => simp [hs, hp] at hend
      | polling => simp [hs, hp] at hend
      | completed =>
        cases hr : o.results with
        | none => simp [hr] at hres
        | some r =>
          have hneutral := pollBusy_neutral o.polls true false
          refine ⟨[DriverEvent.takeTrigger, DriverEvent.takeI2cMutex,
            DriverEvent.startMeasurement] ++ (pollBusy o.polls).1 ++
            [DriverEvent.readResults], ?_⟩
          have hhold : holdsMutex false
              ([DriverEvent.takeTrigger, DriverEvent.takeI2cMutex,
                DriverEvent.startMeasurement] ++ (pollBusy o.polls).1 ++
                [DriverEvent.readResults]) = true := by
            rw [holdsMutex_append, holdsMutex_append]
            show holdsMutex (holdsMutex true (pollBusy o.polls).1) [DriverEvent.readResults] =
              true
            rw [hneutral.1]
            rfl
          have hnosend : ∀ x ∈ [DriverEvent.takeTrigger, DriverEvent.takeI2cMutex,
                DriverEvent.startMeasurement] ++ (pollBusy o.polls).1 ++
                [DriverEvent.readResults], x.isSend = false := by
            intro x hx
            simp only [List.mem_append, List.mem_cons, List.mem_singleton,
              List.not_mem_nil, or_false] at hx
            rcases hx with ((hx | hx | hx) | hx) | hx
            · rw [hx]; rfl
            · rw [hx]; rfl
            · rw [hx]; rfl
            · exact pollBusy_no_send o.polls x hx
            · rw [hx]; rfl
          cases hq : o.sendOk
          · exact ⟨DriverEvent.queueSendTimeout
                { buf with temperature := r.1, pressure := r.2.1, humidity := r.2.2 },
              by simp [publishAndClose], rfl, hhold, hnosend⟩
          · exact ⟨DriverEvent.queueSend
                { buf with temperature := r.1, pressure := r.2.1, humidity := r.2.2 },
              by simp [publishAndClose], rfl, hhold, hnosend⟩


/-- Worked case for C20: a BME280 iteration with one busy poll whose send times out. -/
theorem send_while_holding_bus_witness :
    ∃ pre e, (BME280ReadIteration bme280Buffer
          ⟨true, [PollOutcome.busy, PollOutcome.idle], some (15, 1500, 15), false⟩).trace =
        pre ++ [e, DriverEvent.giveI2cMutex, DriverEvent.giveSensorDataReady] ∧
      e.isSend = true ∧ holdsMutex false pre = true ∧ ∀ x ∈ pre, x.isSend = false :=
  send_while_holding_bus.2 bme280Buffer
    ⟨true, [PollOutcome.busy, PollOutcome.idle], some (15, 1500, 15), false⟩
    (by simp [BME280ReadIteration, pollBusy]) rfl

/-! ## The historical average -/

/-- C17 (evaluation at the failing input): three cycles since boot, each fusing the same
SHT4X-only reading (21 °C, 30 %, fallback pressure 1000). After the second cycle the
historical average is the plain mean (21, 30, 1000) of the two valid slots. After the
third cycle all three slots hold (21, 30, 1000), whose plain mean is (21, 30, 1000), yet
`historicalAverage` is (28, 40, 4000/3): the third cycle's sum was accumulated onto the
average left by the second cycle. -/
theorem historical_average_keeps_previous_value :
    (runCycles bootState [shtOnlyCycle, shtOnlyCycle]).numReadings = 2 ∧
      (runCycles bootState [shtOnlyCycle, shtOnlyCycle]).historicalAverage =
        ⟨21, 30, 1000⟩ ∧
      (runCycles bootState [shtOnlyCycle, shtOnlyCycle, shtOnlyCycle]).numReadings = 3 ∧
      (runCycles bootState [shtOnlyCycle, shtOnlyCycle, shtOnlyCycle]).readingHistory =
        ⟨⟨21, 30, 1000⟩, ⟨21, 30, 1000⟩, ⟨21, 30, 1000⟩⟩ ∧
      (runCycles bootState [shtOnlyCycle, shtOnlyCycle, shtOnlyCycle]).historicalAverage =
        ⟨28, 40, 4000 / 3⟩ := by
  refine ⟨?_, ?_, ?_, ?_, ?_⟩
  · simp [runCycles, processCycle, collectWindow, fuse, bootState, shtOnlyCycle, sampleSht,
      applyBias, calcHistoricalAverage, updateHistory]
  · simp [runCycles, processCycle, collectWindow, fuse, bootState, shtOnlyCycle, sampleSht,
      applyBias, calcHistoricalAverage, updateHistory, History3.set, History3.get, accumulate,
      List.range, List.range.loop, zeroData]
  · simp [runCycles, processCycle, collectWindow, fuse, bootState, shtOnlyCycle, sampleSht,
      applyBias, calcHistoricalAverage, updateHistory]
  · simp [runCycles, processCycle, collectWindow, fuse, bootState, shtOnlyCycle, sampleSht,
      applyBias, calcHistoricalAverage, updateHistory, History3.set, zeroData]
  · simp [runCycles, processCycle, collectWindow, fuse, bootState, shtOnlyCycle, sampleSht,
      applyBias, calcHistoricalAverage, updateHistory, History3.set, History3.get, accumulate,
      List.range, List.range.loop, zeroData]
    norm_num

/-! ## Sleep duration: seconds and alignment -/

/-- C18, counterexample: night mode with sleep hour 1 and wake hour 5 at 02:00:30. The
night-mode branch is taken and `SleepTimer` is 10800, whereas 05:00:00 is
`(5*3600 - (2*3600 + 0*60 + 30)) mod 86400 = 10770` seconds away. -/
theorem night_timer_ignores_seconds :
    (InitiateSleep (defaultSchedule true) ⟨2, 0, 30⟩).nightMode = true ∧
      (InitiateSleep (defaultSchedule true) ⟨2, 0, 30⟩).SleepTimer = 10800 ∧
      ((5 * 3600 - (2 * 3600 + 0 * 60 + 30)) % 86400 : Int) = 10770 := by
  decide

/-- C18, amended: whenever the night-mode branch is taken at h:m:s (h in 0..23, m in
0..59, wake hour in 0..23), `SleepTimer` is the number of seconds from h:m:00, the current
time with its seconds dropped, until the next `WakeupHour`:00:00, that is
`(WakeupHour*3600 - (h*3600 + m*60)) mod 86400`, also across midnight. It does not depend
on `s`, and for `s = 0` it is `(WakeupHour*3600 - (h*3600 + m*60 + s)) mod 86400`. -/
theorem night_timer_to_the_minute (cfg : SleepConfig) (t : ClockTime)
    (hh : 0 ≤ t.CurrentHour ∧ t.CurrentHour ≤ 23) (hm : 0 ≤ t.CurrentMin ∧ t.CurrentMin ≤ 59)
    (hw : 0 ≤ cfg.WakeupHour ∧ cfg.WakeupHour ≤ 23)
    (hen : cfg.SleepHoursEnabled = true)
    (hwin : t.CurrentHour ≥ cfg.SleepHour ∨ t.CurrentHour < cfg.WakeupHour) :
    (InitiateSleep cfg t).SleepTimer =
        (cfg.WakeupHour * 3600 - (t.CurrentHour * 3600 + t.CurrentMin * 60)) % 86400 ∧
      (∀ sec : Int, (InitiateSleep cfg { t with CurrentSec := sec }).SleepTimer =
        (InitiateSleep cfg t).SleepTimer) ∧
      (t.CurrentSec = 0 → (InitiateSleep cfg t).SleepTimer =
        (cfg.WakeupHour * 3600 -
          (t.CurrentHour * 3600 + t.CurrentMin * 60 + t.CurrentSec)) % 86400) := by
  have hT : (InitiateSleep cfg t).SleepTimer =
      (cfg.WakeupHour * 3600 - (t.CurrentHour * 3600 + t.CurrentMin * 60)) % 86400 := by
    unfold InitiateSleep
    rw [if_pos ⟨hen, hwin⟩]
    simp only []
    rw [Int.tmod_eq_emod (by omega) (by norm_num)]
    omega
  refine ⟨hT, ?_, ?_⟩
  · intro sec
    unfold InitiateSleep
    rw [if_pos ⟨hen, hwin⟩, if_pos ⟨hen, hwin⟩]
  · intro hs
    rw [hT, hs, add_zero]

/-- Witness for C18: sleep hour 23, wake hour 5, at 23:30:45 the timer is the 19800 s
from 23:30:00 to 05:00:00. -/
theorem night_timer_to_the_minute_witness :
    (InitiateSleep ⟨true, 23, 5, 30⟩ ⟨23, 30, 45⟩).SleepTimer = 19800 :=
  (night_timer_to_the_minute ⟨true, 23, 5, 30⟩ ⟨23, 30, 45⟩ (by decide) (by decide)
    (by decide) rfl (Or.inl (by decide))).1.trans (by decide)

/-- C19: whenever the duty-cycle branch is taken with minute `m` in 0..59 and second `s`
in 0..59, `m*60 + s + SleepTimer - Delta` is a multiple of `SleepDuration*60 = 600` and
`0 < SleepTimer - Delta ≤ 600`: the wake instant is `Delta` seconds after the next
10-minute mark. With `Delta = 30`, `SleepTimer` is strictly positive. -/
theorem duty_cycle_wakes_on_boundary (cfg : SleepConfig) (t : ClockTime)
    (hm : 0 ≤ t.CurrentMin ∧ t.CurrentMin ≤ 59) (hs : 0 ≤ t.CurrentSec ∧ t.CurrentSec ≤ 59)
    (hduty : ¬ (cfg.SleepHoursEnabled = true ∧
      (t.CurrentHour ≥ cfg.SleepHour ∨ t.CurrentHour < cfg.WakeupHour))) :
    (SleepDuration * 60) ∣
        (t.CurrentMin * 60 + t.CurrentSec + (InitiateSleep cfg t).SleepTimer - cfg.Delta) ∧
      SleepDuration * 60 = 600 ∧
      0 < (InitiateSleep cfg t).SleepTimer - cfg.Delta ∧
      (InitiateSleep cfg t).SleepTimer - cfg.Delta ≤ 600 ∧
      (cfg.Delta = 30 → 0 < (InitiateSleep cfg t).SleepTimer) := by
  have hT : (InitiateSleep cfg t).SleepTimer =
      (600 - ((t.CurrentMin % 10) * 60 + t.CurrentSec)) + cfg.Delta := by
    unfold InitiateSleep
    rw [if_neg hduty]
    simp only [SleepDuration]
    rw [Int.tmod_eq_emod hm.1 (by norm_num)]
    norm_num
  rw [hT]
  refine ⟨?_, by decide, ?_, ?_, ?_⟩
  · show (10 : Int) * 60 ∣ _
    omega
  · omega
  · omega
  · intro hd
    omega

/-- Witness for C19: schedule disabled, at 12:23:17 the timer is 433 = 403 + 30 and
23*60 + 17 + 403 = 1800. -/
theorem duty_cycle_wakes_on_boundary_witness :
    (SleepDuration * 60) ∣
        ((23 : Int) * 60 + 17 + (InitiateSleep (defaultSchedule false) ⟨12, 23, 17⟩).SleepTimer -
          (defaultSchedule false).Delta) ∧
      0 < (InitiateSleep (defaultSchedule false) ⟨12, 23, 17⟩).SleepTimer :=
  ⟨(duty_cycle_wakes_on_boundary (defaultSchedule false) ⟨12, 23, 17⟩ (by decide) (by decide)
      (by decide)).1,
    (duty_cycle_wakes_on_boundary (defaultSchedule false) ⟨12, 23, 17⟩ (by decide) (by decide)
      (by decide)).2.2.2.2 rfl⟩


/-! ## Frame of the history update -/

/-- C21: in the history update of `ProcessSensorDataTask`, with `i` the value of
`historyIndex` before the update (`i` in 0..2), only slot `readingHistory[i]` is written,
and it becomes the fused sample of the cycle; the other slots are unchanged;
`historyIndex` becomes `(i + 1) mod 3` and `numReadings` becomes `min (numReadings + 1) 3`.
The same holds for the whole of a cycle that reaches the send. -/
theorem history_update_writes_one_slot (s : FusionState) (inp : CycleInput)
    (p : UntaggedSensorData) (hi : s.historyIndex < 3) :
    ((updateHistory s).readingHistory.get s.historyIndex = s.calculationData ∧
      (∀ j, j ≠ s.historyIndex →
        (updateHistory s).readingHistory.get j = s.readingHistory.get j) ∧
      (updateHistory s).historyIndex = (s.historyIndex + 1) % 3 ∧
      (updateHistory s).numReadings = min (s.numReadings + 1) 3) ∧
    ((processCycle s inp).2 = some p →
      (processCycle s inp).1.readingHistory.get s.historyIndex =
        (processCycle s inp).1.calculationData ∧
      (∀ j, j ≠ s.historyIndex →
        (processCycle s inp).1.readingHistory.get j = s.readingHistory.get j) ∧
      (processCycle s inp).1.historyIndex = (s.historyIndex + 1) % 3 ∧
      (processCycle s inp).1.numReadings = min (s.numReadings + 1) 3) := by
  have hmin : ∀ n : Nat, (if n < 3 then n + 1 else 3) = min (n + 1) 3 := by
    intro n
    split_ifs with h <;> omega
  constructor
  · refine ⟨History3.get_set_same _ _ _ hi, fun j hj => History3.get_set_ne _ _ _ _ hj, rfl, ?_⟩
    exact hmin s.numReadings
  · intro hp
    obtain ⟨h1, h2, h3, _⟩ := processCycle_fused s inp p hp
    refine ⟨?_, ?_, h2, ?_⟩
    · rw [h1]; exact History3.get_set_same _ _ _ hi
    · intro j hj
      rw [h1]; exact History3.get_set_ne _ _ _ _ hj
    · rw [h3]; exact hmin s.numReadings

/-- Witness for C21: the second fusing cycle since boot writes slot 1 only. -/
theorem history_update_writes_one_slot_witness :
    (processCycle (processCycle bootState bmeOnlyCycle).1 shtOnlyCycle).1.readingHistory.get 1 =
        (processCycle (processCycle bootState bmeOnlyCycle).1 shtOnlyCycle).1.calculationData ∧
      (processCycle (processCycle bootState bmeOnlyCycle).1 shtOnlyCycle).1.readingHistory.get 0 =
        (processCycle bootState bmeOnlyCycle).1.readingHistory.get 0 := by
  have hidx : (processCycle bootState bmeOnlyCycle).1.historyIndex = 1 := by
    simp [processCycle, collectWindow, fuse, bootState, bmeOnlyCycle, sampleBme,
      applyBias, calcHistoricalAverage, updateHistory]
  have hp : (processCycle (processCycle bootState bmeOnlyCycle).1 shtOnlyCycle).2 =
      some ⟨21, 30, 1000⟩ := by
    simp [processCycle, collectWindow, fuse, bootState, bmeOnlyCycle, shtOnlyCycle, sampleBme,
      sampleSht, applyBias, calcHistoricalAverage, updateHistory, History3.set, History3.get,
      accumulate, List.range, List.range.loop, zeroData]
  have h := (history_update_writes_one_slot (processCycle bootState bmeOnlyCycle).1
    shtOnlyCycle ⟨21, 30, 1000⟩ (by rw [hidx]; decide)).2 hp
  rw [hidx] at h
  exact ⟨h.1, h.2.1 0 (by decide)⟩

/-! ## The published value against the history window -/

/-- C22 (evaluation at the failing input): three cycles since boot, each fusing the same
pair of readings into (18, 20, 15). After the third cycle `numReadings = 3` and all three
history slots hold (18, 20, 15), so minimum and maximum of every field over the slots
coincide with the fused value; the published result is (96/5, 64/3, 16), above the
maximum in every field, because the historical average was accumulated onto the one of
the previous cycle. -/
theorem bias_leaves_history_range :
    (runCycles bootState [bothCycle, bothCycle, bothCycle]).numReadings = 3 ∧
      (runCycles bootState [bothCycle, bothCycle, bothCycle]).readingHistory =
        ⟨⟨18, 20, 15⟩, ⟨18, 20, 15⟩, ⟨18, 20, 15⟩⟩ ∧
      publishedLog bootState [bothCycle, bothCycle, bothCycle] =
        [⟨18, 20, 15⟩, ⟨18, 20, 15⟩, ⟨96 / 5, 64 / 3, 16⟩] := by
  refine ⟨?_, ?_, ?_⟩
  · simp [runCycles, processCycle, collectWindow, fuse, bootState, bothCycle, sampleBme,
      sampleSht, applyBias, calcHistoricalAverage, updateHistory]
  · simp [runCycles, processCycle, collectWindow, fuse, bootState, bothCycle, sampleBme,
      sampleSht, applyBias, calcHistoricalAverage, updateHistory, History3.set, zeroData]
    norm_num
  · simp [publishedLog, processCycle, collectWindow, fuse, bootState, bothCycle, sampleBme,
      sampleSht, applyBias, calcHistoricalAverage, updateHistory, History3.set, History3.get,
      accumulate, List.range, List.range.loop, zeroData]
    norm_num


/-! ## The bus mutex within one driver iteration -/

/-- The busy-poll neither takes nor gives `i2cMutex`. -/
theorem pollBusy_no_mutex (polls : List PollOutcome) :
    (pollBusy polls).1.count DriverEvent.takeI2cMutex = 0 ∧
      (pollBusy polls).1.count DriverEvent.giveI2cMutex = 0 := by
  induction polls with
  | nil => exact ⟨rfl, rfl⟩
  | cons p rest ih =>
    cases p with
    | error => exact ⟨rfl, rfl⟩
    | idle => exact ⟨rfl, rfl⟩
    | busy =>
      simp only [pollBusy]
      refine ⟨?_, ?_⟩
      · simp [List.count_cons, ih.1]
      · simp [List.count_cons, ih.2]

/-- Iterations that reach the end of the loop body: in every such iteration of
`SHT4xReadTask` and of `BME280ReadTask`, whatever the outcomes of the read and of the
queue send, `i2cMutex` is taken exactly once and given exactly once, the give after the
take, and the task does not hold the mutex at the end of the iteration. -/
theorem mutex_once_of_completed :
    (∀ (buf : TaggedSensorData) (o : Sht4xOutcome),
      (SHT4xReadIteration buf o).ending = IterationEnd.completed →
        (SHT4xReadIteration buf o).trace.count DriverEvent.takeI2cMutex = 1 ∧
        (SHT4xReadIteration buf o).trace.count DriverEvent.giveI2cMutex = 1 ∧
        (∃ a b c, (SHT4xReadIteration buf o).trace =
          a ++ DriverEvent.takeI2cMutex :: b ++ DriverEvent.giveI2cMutex :: c) ∧
        holdsMutex false (SHT4xReadIteration buf o).trace = false) ∧
    (∀ (buf : TaggedSensorData) (o : Bme280Outcome),
      (BME280ReadIteration buf o).ending = IterationEnd.completed →
        (BME280ReadIteration buf o).trace.count DriverEvent.takeI2cMutex = 1 ∧
        (BME280ReadIteration buf o).trace.count DriverEvent.giveI2cMutex = 1 ∧
        (∃ a b c, (BME280ReadIteration buf o).trace =
          a ++ DriverEvent.takeI2cMutex :: b ++ DriverEvent.giveI2cMutex :: c) ∧
        holdsMutex false (BME280ReadIteration buf o).trace = false) := by
  constructor
  · intro buf o h
    unfold SHT4xReadIteration at h ⊢
    cases hs : o.startOk with
    | false => simp [hs] at h
    | true =>
      cases hr : o.results with
      | none =>
        refine ⟨by simp [publishAndClose], by simp [publishAndClose], ?_, rfl⟩
        exact ⟨[DriverEvent.takeTrigger],
          [DriverEvent.startMeasurement, DriverEvent.delay, DriverEvent.readResults,
            DriverEvent.delay],
          [DriverEvent.giveSensorDataReady], by simp [publishAndClose]⟩
      | some r =>
        cases hq : o.sendOk
        · refine ⟨by simp [publishAndClose], by simp [publishAndClose], ?_, rfl⟩
          exact ⟨[DriverEvent.takeTrigger],
            [DriverEvent.startMeasurement, DriverEvent.delay, DriverEvent.readResults,
              DriverEvent.queueSendTimeout { buf with temperature := r.1, humidity := r.2 },
              DriverEvent.delay],
            [DriverEvent.giveSensorDataReady], by simp [publishAndClose]⟩
        · refine ⟨by simp [publishAndClose], by simp [publishAndClose], ?_, rfl⟩
          exact ⟨[DriverEvent.takeTrigger],
            [DriverEvent.startMeasurement, DriverEvent.delay, DriverEvent.readResults,
              DriverEvent.queueSend { buf with temperature := r.1, humidity := r.2 },
              DriverEvent.delay],
            [DriverEvent.giveSensorDataReady], by simp [publishAndClose]⟩
  · intro buf o h
    unfold BME280ReadIteration at h ⊢
    cases hs : o.forceOk with
    | false => simp [hs] at h
    | true =>
      cases hp : (pollBusy o.polls).2 with
      | aborted => simp [hs, hp] at h
      | polling => simp [hs, hp] at h
      | completed =>
        obtain ⟨hc1, hc2⟩ := pollBusy_no_mutex o.polls
        have hn := (pollBusy_neutral o.polls true false).1
        cases hr : o.results with
        | none =>
          refine ⟨by simp [publishAndClose, hc1], by simp [publishAndClose, hc2], ?_, ?_⟩
          · exact ⟨[DriverEvent.takeTrigger],
              DriverEvent.startMeasurement :: (pollBusy o.polls).1 ++ [DriverEvent.readResults],
              [DriverEvent.giveSensorDataReady], by simp [publishAndClose]⟩
          · simp only [publishAndClose, Option.map_none', List.append_assoc, if_true]
            rw [holdsMutex_append, holdsMutex_append]
            show holdsMutex (holdsMutex true (pollBusy o.polls).1) _ = false
            rw [hn]
            rfl
        | some r =>
          cases hq : o.sendOk
          · refine ⟨by simp [publishAndClose, hc1], by simp [publishAndClose, hc2], ?_, ?_⟩
            · exact ⟨[DriverEvent.takeTrigger],
                DriverEvent.startMeasurement :: (pollBusy o.polls).1 ++
                  [DriverEvent.readResults, DriverEvent.queueSendTimeout
                    { buf with temperature := r.1, pressure := r.2.1, humidity := r.2.2 }],
                [DriverEvent.giveSensorDataReady], by simp [publishAndClose]⟩
            · simp only [publishAndClose, Option.map_some', List.append_assoc, if_true]
              rw [holdsMutex_append, holdsMutex_append]
              show holdsMutex (holdsMutex true (pollBusy o.polls).1) _ = false
              rw [hn]
              rfl
          · refine ⟨by simp [publishAndClose, hc1], by simp [publishAndClose, hc2], ?_, ?_⟩
            · exact ⟨[DriverEvent.takeTrigger],
                DriverEvent.startMeasurement :: (pollBusy o.polls).1 ++
                  [DriverEvent.readResults, DriverEvent.queueSend
                    { buf with temperature := r.1, pressure := r.2.1, humidity := r.2.2 }],
                [DriverEvent.giveSensorDataReady], by simp [publishAndClose]⟩
            · simp only [publishAndClose, Option.map_some', List.append_assoc, if_true]
              rw [holdsMutex_append, holdsMutex_append]
              show holdsMutex (holdsMutex true (pollBusy o.polls).1) _ = false
              rw [hn]
              rfl

/-- Worked case: a BME280 iteration with one busy poll and a failed read. -/
theorem mutex_once_of_completed_bme280_read_failure :
    (BME280ReadIteration bme280Buffer
        ⟨true, [PollOutcome.busy, PollOutcome.idle], none, true⟩).trace.count
        DriverEvent.takeI2cMutex = 1 ∧
      (BME280ReadIteration bme280Buffer
        ⟨true, [PollOutcome.busy, PollOutcome.idle], none, true⟩).trace.count
        DriverEvent.giveI2cMutex = 1 ∧
      holdsMutex false (BME280ReadIteration bme280Buffer
        ⟨true, [PollOutcome.busy, PollOutcome.idle], none, true⟩).trace = false := by
  have h := mutex_once_of_completed.2 bme280Buffer
    ⟨true, [PollOutcome.busy, PollOutcome.idle], none, true⟩
    (by simp [BME280ReadIteration, pollBusy])
  exact ⟨h.1, h.2.1, h.2.2.2⟩


/-! ## Night-mode timer: ranges -/

/-- C25: in the night-mode branch, for hour `h` in 0..23, minute `m` in 0..59 and wake
hour in 0..23, the operand `WakeupHour*60 - (h*60 + m) + 1440` of `%` is strictly
positive, so the truncating remainder of C is the mathematical modulo; `SleepTimer` is a
multiple of 60 with `0 ≤ SleepTimer ≤ 86340`; and `SleepTimer * 1000000` lies within the
range of a 64-bit signed integer. -/
theorem night_timer_in_range (cfg : SleepConfig) (t : ClockTime)
    (hh : 0 ≤ t.CurrentHour ∧ t.CurrentHour ≤ 23) (hm : 0 ≤ t.CurrentMin ∧ t.CurrentMin ≤ 59)
    (hw : 0 ≤ cfg.WakeupHour ∧ cfg.WakeupHour ≤ 23)
    (hen : cfg.SleepHoursEnabled = true)
    (hwin : t.CurrentHour ≥ cfg.SleepHour ∨ t.CurrentHour < cfg.WakeupHour) :
    0 < cfg.WakeupHour * 60 - (t.CurrentHour * 60 + t.CurrentMin) + 1440 ∧
      Int.tmod (cfg.WakeupHour * 60 - (t.CurrentHour * 60 + t.CurrentMin) + 1440) 1440 =
        (cfg.WakeupHour * 60 - (t.CurrentHour * 60 + t.CurrentMin) + 1440) % 1440 ∧
      60 ∣ (InitiateSleep cfg t).SleepTimer ∧
      0 ≤ (InitiateSleep cfg t).SleepTimer ∧
      (InitiateSleep cfg t).SleepTimer ≤ 86340 ∧
      -(2 ^ 63) ≤ (InitiateSleep cfg t).SleepTimer * 1000000 ∧
      (InitiateSleep cfg t).SleepTimer * 1000000 < 2 ^ 63 := by
  have hpos : 0 < cfg.WakeupHour * 60 - (t.CurrentHour * 60 + t.CurrentMin) + 1440 := by
    omega
  have hmod := Int.tmod_eq_emod (Int.le_of_lt hpos) (show (0 : Int) ≤ 1440 by norm_num)
  have hT : (InitiateSleep cfg t).SleepTimer =
      ((cfg.WakeupHour * 60 - (t.CurrentHour * 60 + t.CurrentMin) + 1440) % 1440) * 60 := by
    unfold InitiateSleep
    rw [if_pos ⟨hen, hwin⟩]
    simp only []
    rw [hmod]
  refine ⟨hpos, hmod, ?_, ?_, ?_, ?_, ?_⟩
  · rw [hT]; exact Dvd.intro_left _ rfl
  · rw [hT]; omega
  · rw [hT]; omega
  · rw [hT]; omega
  · rw [hT]; omega

/-- Witness for C25: sleep hour 23, wake hour 23, at 23:01 the timer takes its largest
value, 86340 s. -/
theorem night_timer_in_range_witness :
    (InitiateSleep ⟨true, 23, 23, 30⟩ ⟨23, 1, 0⟩).SleepTimer = 86340 ∧
      (InitiateSleep ⟨true, 23, 23, 30⟩ ⟨23, 1, 0⟩).SleepTimer * 1000000 < 2 ^ 63 :=
  ⟨by decide,
    (night_timer_in_range ⟨true, 23, 23, 30⟩ ⟨23, 1, 0⟩ (by decide) (by decide) (by decide)
      rfl (Or.inl (by decide))).2.2.2.2.2.2⟩

/-! ## The button: debounce and screen state -/

/-- The wrapped unsigned difference is the integer difference modulo `2^32`. -/
theorem elapsedSince_eq (t l : Nat) (hl : l < 2 ^ 32) :
    (elapsedSince t l : Int) = ((t : Int) - (l : Int)) % 2 ^ 32 := by
  unfold elapsedSince ulongModulus
  omega

/-- C26: for every current time `t` and stored `lastPressTime` `l` (32-bit unsigned
milliseconds), `handleButtonPress` sets `ButtonPressed` to true and `lastPressTime` to `t`
if `(t - l) mod 2^32 > 200`, and otherwise leaves both unchanged (`screenState` is never
touched). Consequently, of two successive presses at times `t` and `t2` with
`(t2 - t) mod 2^32 ≤ 200`, whether or not the counter wrapped in between, at most one
passes the debounce test. -/
theorem debounce_by_wrapped_difference (s : ButtonState) (t t2 : Nat)
    (hl : s.lastPressTime < 2 ^ 32) (ht : t < 2 ^ 32) :
    (((t : Int) - (s.lastPressTime : Int)) % 2 ^ 32 > 200 →
      handleButtonPress s t = { s with ButtonPressed := true, lastPressTime := t }) ∧
    (¬ ((t : Int) - (s.lastPressTime : Int)) % 2 ^ 32 > 200 → handleButtonPress s t = s) ∧
    (((t2 : Int) - (t : Int)) % 2 ^ 32 ≤ 200 →
      ¬ (elapsedSince t s.lastPressTime > debounceDelay ∧
        elapsedSince t2 (handleButtonPress s t).lastPressTime > debounceDelay)) := by
  have he := elapsedSince_eq t s.lastPressTime hl
  refine ⟨?_, ?_, ?_⟩
  · intro h
    unfold handleButtonPress debounceDelay
    rw [if_pos (by omega)]
  · intro h
    unfold handleButtonPress debounceDelay
    rw [if_neg (by omega)]
  · rintro h ⟨h1, h2⟩
    unfold handleButtonPress at h2
    rw [if_pos h1] at h2
    have he2 := elapsedSince_eq t2 t ht
    simp only [debounceDelay] at h2
    omega

/-- Witness for C26: a press 100 ms after an accepted press that happened 50 ms before
the millisecond counter wrapped is rejected. -/
theorem debounce_by_wrapped_difference_witness :
    handleButtonPress ⟨false, 1000, 0⟩ 4294967246 = ⟨true, 4294967246, 0⟩ ∧
      handleButtonPress ⟨true, 4294967246, 0⟩ 50 = ⟨true, 4294967246, 0⟩ :=
  ⟨(debounce_by_wrapped_difference ⟨false, 1000, 0⟩ 4294967246 50 (by decide)
      (by decide)).1 (by decide),
    (debounce_by_wrapped_difference ⟨true, 4294967246, 0⟩ 50 50 (by decide)
      (by decide)).2.1 (by decide)⟩

/-- One event keeps `screenState` within 0..2. -/
theorem buttonStep_screenState (s : ButtonState) (e : ButtonEvent)
    (h : 0 ≤ s.screenState ∧ s.screenState < 3) :
    0 ≤ (buttonStep s e).screenState ∧ (buttonStep s e).screenState < 3 := by
  cases e with
  | press t =>
    simp only [buttonStep, handleButtonPress]
    split_ifs <;> exact h
  | loopRun =>
    simp only [buttonStep, loop]
    split_ifs
    · simp only []
      rw [Int.tmod_eq_emod (by omega) (by norm_num)]
      omega
    · exact h

theorem runButtons_screenState (events : List ButtonEvent) (s : ButtonState)
    (h : 0 ≤ s.screenState ∧ s.screenState < 3) :
    0 ≤ (runButtons s events).screenState ∧ (runButtons s events).screenState < 3 := by
  induction events generalizing s with
  | nil => exact h
  | cons e rest ih => exact ih _ (buttonStep_screenState s e h)

/-- C27: `screenState` starts at 0; every execution of `loop()` either leaves it unchanged
(no press pending) or, from a value in 0..2, replaces it by `(screenState + 1) mod 3`
(press pending); the interrupt handler
does not touch it; hence after any sequence of button interrupts and `loop()` runs it is
in 0..2 and `DisplayWeather` takes its first branch. For any integer outside 0..2
`DisplayWeather` renders screen 0, and the subscript applied to the three-entry table
`screens[]` is always below 3. -/
theorem screen_state_stays_in_range :
    bootButtons.screenState = 0 ∧
    (∀ s : ButtonState, s.ButtonPressed = false → loop s = s) ∧
    (∀ s : ButtonState, s.ButtonPressed = true → 0 ≤ s.screenState ∧ s.screenState < 3 →
      (loop s).screenState = (s.screenState + 1) % 3 ∧ (loop s).ButtonPressed = false) ∧
    (∀ (s : ButtonState) (t : Nat), (handleButtonPress s t).screenState = s.screenState) ∧
    (∀ events : List ButtonEvent,
      0 ≤ (runButtons bootButtons events).screenState ∧
        (runButtons bootButtons events).screenState < 3) ∧
    (∀ (fmt : ℚ → Nat → String) (st : RenderState) (ss : Int), ¬ (0 ≤ ss ∧ ss < 3) →
      DisplayWeather fmt st ss = DisplayWeather_Screen0 fmt st) ∧
    (∀ (fmt : ℚ → Nat → String) (st : RenderState) (ss : Int),
      screenIndex ss < (screensTable fmt st).length ∧
        (screensTable fmt st)[screenIndex ss]? = some (DisplayWeather fmt st ss)) := by
  refine ⟨rfl, ?_, ?_, ?_, ?_, ?_, ?_⟩
  · intro s hb
    unfold loop
    rw [if_neg (by simp [hb])]
  · intro s hb h
    unfold loop
    rw [if_pos hb]
    exact ⟨Int.tmod_eq_emod (by omega) (by norm_num), rfl⟩
  · intro s t
    unfold handleButtonPress
    split_ifs <;> rfl
  · intro events
    exact runButtons_screenState events bootButtons ⟨by decide, by decide⟩
  · intro fmt st ss h
    unfold DisplayWeather
    rw [if_neg h]
  · intro fmt st ss
    unfold screenIndex DisplayWeather screensTable
    by_cases h : 0 ≤ ss ∧ ss < 3
    · rw [if_pos h, if_pos h]
      have h3 : ss = 0 ∨ ss = 1 ∨ ss = 2 := by omega
      rcases h3 with h3 | h3 | h3 <;> subst h3 <;> exact ⟨by simp, rfl⟩
    · rw [if_neg h, if_neg h]
      exact ⟨by simp, rfl⟩

/-- Worked case for C27: four accepted presses, each followed by a `loop()` run, take
`screenState` through 1, 2, 0 to 1. -/
theorem screen_state_stays_in_range_witness :
    (runButtons bootButtons
      [ButtonEvent.press 1000, ButtonEvent.loopRun, ButtonEvent.press 2000, ButtonEvent.loopRun,
        ButtonEvent.press 3000, ButtonEvent.loopRun, ButtonEvent.press 4000,
        ButtonEvent.loopRun]).screenState = 1 ∧
      (runButtons bootButtons
        [ButtonEvent.press 1000, ButtonEvent.loopRun, ButtonEvent.press 2000,
          ButtonEvent.loopRun, ButtonEvent.press 3000, ButtonEvent.loopRun,
          ButtonEvent.press 4000, ButtonEvent.loopRun]).screenState < 3 :=
  ⟨by decide, (screen_state_stays_in_range.2.2.2.2.1 _).2⟩


/-! ## Imperial pressure after the fetch loop -/

/-- C24 (evaluation at the failing input): `Units == "I"`, first fetch since boot; the
"weather" request fails in the first pass, the "forecast" request succeeds, and the
"weather" request succeeds in the second pass with pressure 1000 hPa. Both kinds have
succeeded, yet `WxConditions[0].Pressure` is left at 1000, not at
`hPa_to_inHg 1000 = 29.53`: the conversion runs inside the decoding of the forecast, which
here precedes the decoding of the weather. When both succeed in the first pass the value
is 29.53. -/
theorem imperial_pressure_depends_on_order :
    (fetchLoopWx "I" lateWeatherReplies 0 bootWx).fetch.calls =
        [(DataKind.weather, false), (DataKind.forecast, true), (DataKind.weather, true)] ∧
      (fetchLoopWx "I" lateWeatherReplies 0 bootWx).wx.Pressure = 1000 ∧
      hPa_to_inHg 1000 = 2953 / 100 ∧
      (fetchLoopWx "I" promptReplies 0 bootWx).fetch.calls =
        [(DataKind.weather, true), (DataKind.forecast, true)] ∧
      (fetchLoopWx "I" promptReplies 0 bootWx).wx.Pressure = 2953 / 100 := by
  refine ⟨?_, ?_, ?_, ?_, ?_⟩
  · simp [fetchLoopWx, fetchBodyWx, obtainWeatherData, DecodeWeather, lateWeatherReplies,
      bootWx, fetchStart]
  · simp [fetchLoopWx, fetchBodyWx, obtainWeatherData, DecodeWeather, lateWeatherReplies,
      bootWx, fetchStart, Convert_Readings_to_Imperial]
  · norm_num [hPa_to_inHg]
  · simp [fetchLoopWx, fetchBodyWx, obtainWeatherData, DecodeWeather, promptReplies,
      bootWx, fetchStart]
  · simp [fetchLoopWx, fetchBodyWx, obtainWeatherData, DecodeWeather, promptReplies,
      bootWx, fetchStart, Convert_Readings_to_Imperial, hPa_to_inHg]
    norm_num

/-! ## The garden section -/

/-- C28: `DisplaySensorReadingsGarden` called with the same `(x, y)` issues the same
sequence of draw calls whatever the program state: the fixed label and the constants
"12.6°", " 85%" and "1024 hPa". Inside `DisplaySensorReadings` these calls are the same for
any two states of the queue and of `processedResult` and any number formatting. -/
theorem garden_section_is_constant (fmt1 fmt2 : ℚ → Nat → String) (st1 st2 : RenderState)
    (x y : Int) :
    DisplaySensorReadingsGarden x y =
        [ RenderEvent.setFont Font.OpenSans12B,
          RenderEvent.drawString x y "Czujnik ZEWN.",
          RenderEvent.setFont Font.OpenSans24B,
          RenderEvent.drawString x (y + 40) "12.6°",
          RenderEvent.setFont Font.OpenSans18B,
          RenderEvent.drawString (x + 135) (y + 40) " 85%",
          RenderEvent.drawString x (y + 90) "1024 hPa" ] ∧
      (DisplaySensorReadings fmt1 st1 x y).events.take 9 =
        [RenderEvent.drawLine 480 10 480 500, RenderEvent.drawLine 200 40 910 40] ++
          DisplaySensorReadingsGarden x 40 ∧
      (DisplaySensorReadings fmt1 st1 x y).events.take 9 =
        (DisplaySensorReadings fmt2 st2 x y).events.take 9 := by
  have h : ∀ (fmt : ℚ → Nat → String) (st : RenderState),
      (DisplaySensorReadings fmt st x y).events.take 9 =
        [RenderEvent.drawLine 480 10 480 500, RenderEvent.drawLine 200 40 910 40] ++
          DisplaySensorReadingsGarden x 40 := by
    intro fmt st
    simp [DisplaySensorReadings, DisplaySensorReadingsGarden]
  exact ⟨rfl, h fmt1 st1, (h fmt1 st1).trans (h fmt2 st2).symm⟩

/-! ## `SumOfPrecip` -/

/-- C30 (evaluation at the failing input): `SumOfPrecip` called on an array of 8 elements
with `readings = 8 = max_readings` reads `DataArray[8]`, one past the end of the array
(the loop runs while `i <= readings`). When the memory after the array holds a further
value, here 100, that value is included: the result is 136, not the sum 36 of the 8
readings. -/
theorem sum_of_precip_reads_past_end :
    eightReadings.length = max_readings ∧
      SumOfPrecip eightReadings max_readings = none ∧
      SumOfPrecip (eightReadings ++ [100]) max_readings = some 136 ∧
      eightReadings.sum = 36 := by
  refine ⟨rfl, ?_, ?_, ?_⟩
  · simp [SumOfPrecip, SumOfPrecipFrom, eightReadings, max_readings]
  · simp [SumOfPrecip, SumOfPrecipFrom, eightReadings, max_readings]
    norm_num
  · simp [eightReadings]
    norm_num


/-! ## `WindDegToOrdinalDirection` -/

/-- The function never reaches its final `return "?"`: its value is one of the sixteen
compass-point names. -/
theorem windDeg_total (d : ℚ) : WindDegToOrdinalDirection d ∈ compassNames := by
  by_cases c0 : d ≥ 348.75 ∨ d < 11.25
  · simp only [WindDegToOrdinalDirection, if_pos c0]
    decide
  have e0 : (11.25 : ℚ) ≤ d := by
    by_contra hc
    exact c0 (Or.inr (lt_of_not_le hc))
  have hN : ¬ (348.75 : ℚ) ≤ d := fun h => c0 (Or.inl h)
  by_cases c1 : d ≥ 11.25 ∧ d < 33.75
  · simp only [WindDegToOrdinalDirection, if_neg c0, if_pos c1]
    decide
  have e1 : (33.75 : ℚ) ≤ d := by
    by_contra hc
    exact c1 ⟨e0, lt_of_not_le hc⟩
  by_cases c2 : d ≥ 33.75 ∧ d < 56.25
  · simp only [WindDegToOrdinalDirection, if_neg c0, if_neg c1, if_pos c2]
    decide
  have e2 : (56.25 : ℚ) ≤ d := by
    by_contra hc
    exact c2 ⟨e1, lt_of_not_le hc⟩
  by_cases c3 : d ≥ 56.25 ∧ d < 78.75
  · simp only [WindDegToOrdinalDirection, if_neg c0, if_neg c1, if_neg c2, if_pos c3]
    decide
  have e3 : (78.75 : ℚ) ≤ d := by
    by_contra hc
    exact c3 ⟨e2, lt_of_not_le hc⟩
  by_cases c4 : d ≥ 78.75 ∧ d < 101.25
  · simp only [WindDegToOrdinalDirection, if_neg c0, if_neg c1, if_neg c2, if_neg c3, if_pos c4]
    decide
  have e4 : (101.25 : ℚ) ≤ d := by
    by_contra hc
    exact c4 ⟨e3, lt_of_not_le hc⟩
  by_cases c5 : d ≥ 101.25 ∧ d < 123.75
  · simp only [WindDegToOrdinalDirection, if_neg c0, if_neg c1, if_neg c2, if_neg c3, if_neg c4, if_pos c5]
    decide
  have e5 : (123.75 : ℚ) ≤ d := by
    by_contra hc
    exact c5 ⟨e4, lt_of_not_le hc⟩
  by_cases c6 : d ≥ 123.75 ∧ d < 146.25
  · simp only [WindDegToOrdinalDirection, if_neg c0, if_neg c1, if_neg c2, if_neg c3, if_neg c4, if_neg c5, if_pos c6]
    decide
  have e6 : (146.25 : ℚ) ≤ d := by
    by_contra hc
    exact c6 ⟨e5, lt_of_not_le hc⟩
  by_cases c7 : d ≥ 146.25 ∧ d < 168.75
  · simp only [WindDegToOrdinalDirection, if_neg c0, if_neg c1, if_neg c2, if_neg c3, if_neg c4, if_neg c5, if_neg c6, if_pos c7]
    decide
  have e7 : (168.75 : ℚ) ≤ d := by
    by_contra hc
    exact c7 ⟨e6, lt_of_not_le hc⟩
  by_cases c8 : d ≥ 168.75 ∧ d < 191.25
  · simp only [WindDegToOrdinalDirection, if_neg c0, if_neg c1, if_neg c2, if_neg c3, if_neg c4, if_neg c5, if_neg c6, if_neg c7, if_pos c8]
    decide
  have e8 : (191.25 : ℚ) ≤ d := by
    by_contra hc
    exact c8 ⟨e7, lt_of_not_le hc⟩
  by_cases c9 : d ≥ 191.25 ∧ d < 213.75
  · simp only [WindDegToOrdinalDirection, if_neg c0, if_neg c1, if_neg c2, if_neg c3, if_neg c4, if_neg c5, if_neg c6, if_neg c7, if_neg c8, if_pos c9]
    decide
  have e9 : (213.75 : ℚ) ≤ d := by
    by_contra hc
    exact c9 ⟨e8, lt_of_not_le hc⟩
  by_cases c10 : d ≥ 213.75 ∧ d < 236.25
  · simp only [WindDegToOrdinalDirection, if_neg c0, if_neg c1, if_neg c2, if_neg c3, if_neg c4, if_neg c5, if_neg c6, if_neg c7, if_neg c8, if_neg c9, if_pos c10]
    decide
  have e10 : (236.25 : ℚ) ≤ d := by
    by_contra hc
    exact c10 ⟨e9, lt_of_not_le hc⟩
  by_cases c11 : d ≥ 236.25 ∧ d < 258.75
  · simp only [WindDegToOrdinalDirection, if_neg c0, if_neg c1, if_neg c2, if_neg c3, if_neg c4, if_neg c5, if_neg c6, if_neg c7, if_neg c8, if_neg c9, if_neg c10, if_pos c11]
    decide
  have e11 : (258.75 : ℚ) ≤ d := by
    by_contra hc
    exact c11 ⟨e10, lt_of_not_le hc⟩
  by_cases c12 : d ≥ 258.75 ∧ d < 281.25
  · simp only [WindDegToOrdinalDirection, if_neg c0, if_neg c1, if_neg c2, if_neg c3, if_neg c4, if_neg c5, if_neg c6, if_neg c7, if_neg c8, if_neg c9, if_neg c10, if_neg c11, if_pos c12]
    decide
  have e12 : (281.25 : ℚ) ≤ d := by
    by_contra hc
    exact c12 ⟨e11, lt_of_not_le hc⟩
  by_cases c13 : d ≥ 281.25 ∧ d < 303.75
  · simp only [WindDegToOrdinalDirection, if_neg c0, if_neg c1, if_neg c2, if_neg c3, if_neg c4, if_neg c5, if_neg c6, if_neg c7, if_neg c8, if_neg c9, if_neg c10, if_neg c11, if_neg c12, if_pos c13]
    decide
  have e13 : (303.75 : ℚ) ≤ d := by
    by_contra hc
    exact c13 ⟨e12, lt_of_not_le hc⟩
  by_cases c14 : d ≥ 303.75 ∧ d < 326.25
  · simp only [WindDegToOrdinalDirection, if_neg c0, if_neg c1, if_neg c2, if_neg c3, if_neg c4, if_neg c5, if_neg c6, if_neg c7, if_neg c8, if_neg c9, if_neg c10, if_neg c11, if_neg c12, if_neg c13, if_pos c14]
    decide
  have e14 : (326.25 : ℚ) ≤ d := by
    by_contra hc
    exact c14 ⟨e13, lt_of_not_le hc⟩
  by_cases c15 : d ≥ 326.25 ∧ d < 348.75
  · simp only [WindDegToOrdinalDirection, if_neg c0, if_neg c1, if_neg c2, if_neg c3, if_neg c4, if_neg c5, if_neg c6, if_neg c7, if_neg c8, if_neg c9, if_neg c10, if_neg c11, if_neg c12, if_neg c13, if_neg c14, if_pos c15]
    decide
  exact absurd (le_of_not_lt (fun h => c15 ⟨e14, h⟩)) hN

/-- The value on the sector of north, which wraps around 360. -/
theorem windDeg_north (d : ℚ) (h : (348.75 : ℚ) ≤ d ∨ d < (11.25 : ℚ)) :
    WindDegToOrdinalDirection d = "N" := by
  have c0 : d ≥ 348.75 ∨ d < 11.25 := h
  simp only [WindDegToOrdinalDirection, if_pos c0]

/-- The value on the sector from 11.25 up to 33.75 degrees. -/
theorem windDeg_NNE (d : ℚ) (hlo : (11.25 : ℚ) ≤ d) (hhi : d < (33.75 : ℚ)) :
    WindDegToOrdinalDirection d = "NNE" := by
  have c0 : ¬ (d ≥ 348.75 ∨ d < 11.25) := by rintro (h | h) <;> linarith
  have c1 : d ≥ 11.25 ∧ d < 33.75 := ⟨hlo, hhi⟩
  simp only [WindDegToOrdinalDirection, if_neg c0, if_pos c1]

/-- The value on the sector from 33.75 up to 56.25 degrees. -/
theorem windDeg_NE (d : ℚ) (hlo : (33.75 : ℚ) ≤ d) (hhi : d < (56.25 : ℚ)) :
    WindDegToOrdinalDirection d = "NE" := by
  have c0 : ¬ (d ≥ 348.75 ∨ d < 11.25) := by rintro (h | h) <;> linarith
  have c1 : ¬ (d ≥ 11.25 ∧ d < 33.75) := by rintro ⟨h1, h2⟩; linarith
  have c2 : d ≥ 33.75 ∧ d < 56.25 := ⟨hlo, hhi⟩
  simp only [WindDegToOrdinalDirection, if_neg c0, if_neg c1, if_pos c2]

/-- The value on the sector from 56.25 up to 78.75 degrees. -/
theorem windDeg_ENE (d : ℚ) (hlo : (56.25 : ℚ) ≤ d) (hhi : d < (78.75 : ℚ)) :
    WindDegToOrdinalDirection d = "ENE" := by
  have c0 : ¬ (d ≥ 348.75 ∨ d < 11.25) := by rintro (h | h) <;> linarith
  have c1 : ¬ (d ≥ 11.25 ∧ d < 33.75) := by rintro ⟨h1, h2⟩; linarith
  have c2 : ¬ (d ≥ 33.75 ∧ d < 56.25) := by rintro ⟨h1, h2⟩; linarith
  have c3 : d ≥ 56.25 ∧ d < 78.75 := ⟨hlo, hhi⟩
  simp only [WindDegToOrdinalDirection, if_neg c0, if_neg c1, if_neg c2, if_pos c3]

/-- The value on the sector from 78.75 up to 101.25 degrees. -/
theorem windDeg_E (d : ℚ) (hlo : (78.75 : ℚ) ≤ d) (hhi : d < (101.25 : ℚ)) :
    WindDegToOrdinalDirection d = "E" := by
  have c0 : ¬ (d ≥ 348.75 ∨ d < 11.25) := by rintro (h | h) <;> linarith
  have c1 : ¬ (d ≥ 11.25 ∧ d < 33.75) := by rintro ⟨h1, h2⟩; linarith
  have c2 : ¬ (d ≥ 33.75 ∧ d < 56.25) := by rintro ⟨h1, h2⟩; linarith
  have c3 : ¬ (d ≥ 56.25 ∧ d < 78.75) := by rintro ⟨h1, h2⟩; linarith
  have c4 : d ≥ 78.75 ∧ d < 101.25 := ⟨hlo, hhi⟩
  simp only [WindDegToOrdinalDirection, if_neg c0, if_neg c1, if_neg c2, if_neg c3, if_pos c4]

/-- The value on the sector from 101.25 up to 123.75 degrees. -/
theorem windDeg_ESE (d : ℚ) (hlo : (101.25 : ℚ) ≤ d) (hhi : d < (123.75 : ℚ)) :
    WindDegToOrdinalDirection d = "ESE" := by
  have c0 : ¬ (d ≥ 348.75 ∨ d < 11.25) := by rintro (h | h) <;> linarith
  have c1 : ¬ (d ≥ 11.25 ∧ d < 33.75) := by rintro ⟨h1, h2⟩; linarith
  have c2 : ¬ (d ≥ 33.75 ∧ d < 56.25) := by rintro ⟨h1, h2⟩; linarith
  have c3 : ¬ (d ≥ 56.25 ∧ d < 78.75) := by rintro ⟨h1, h2⟩; linarith
  have c4 : ¬ (d ≥ 78.75 ∧ d < 101.25) := by rintro ⟨h1, h2⟩; linarith
  have c5 : d ≥ 101.25 ∧ d < 123.75 := ⟨hlo, hhi⟩
  simp only [WindDegToOrdinalDirection, if_neg c0, if_neg c1, if_neg c2, if_neg c3, if_neg c4, if_pos c5]

/-- The value on the sector from 123.75 up to 146.25 degrees. -/
theorem windDeg_SE (d : ℚ) (hlo : (123.75 : ℚ) ≤ d) (hhi : d < (146.25 : ℚ)) :
    WindDegToOrdinalDirection d = "SE" := by
  have c0 : ¬ (d ≥ 348.75 ∨ d < 11.25) := by rintro (h | h) <;> linarith
  have c1 : ¬ (d ≥ 11.25 ∧ d < 33.75) := by rintro ⟨h1, h2⟩; linarith
  have c2 : ¬ (d ≥ 33.75 ∧ d < 56.25) := by rintro ⟨h1, h2⟩; linarith
  have c3 : ¬ (d ≥ 56.25 ∧ d < 78.75) := by rintro ⟨h1, h2⟩; linarith
  have c4 : ¬ (d ≥ 78.75 ∧ d < 101.25) := by rintro ⟨h1, h2⟩; linarith
  have c5 : ¬ (d ≥ 101.25 ∧ d < 123.75) := by rintro ⟨h1, h2⟩; linarith
  have c6 : d ≥ 123.75 ∧ d < 146.25 := ⟨hlo, hhi⟩
  simp only [WindDegToOrdinalDirection, if_neg c0, if_neg c1, if_neg c2, if_neg c3, if_neg c4, if_neg c5, if_pos c6]

/-- The value on the sector from 146.25 up to 168.75 degrees. -/
theorem windDeg_SSE (d : ℚ) (hlo : (146.25 : ℚ) ≤ d) (hhi : d < (168.75 : ℚ)) :
    WindDegToOrdinalDirection d = "SSE" := by
  have c0 : ¬ (d ≥ 348.75 ∨ d < 11.25) := by rintro (h | h) <;> linarith
  have c1 : ¬ (d ≥ 11.25 ∧ d < 33.75) := by rintro ⟨h1, h2⟩; linarith
  have c2 : ¬ (d ≥ 33.75 ∧ d < 56.25) := by rintro ⟨h1, h2⟩; linarith
  have c3 : ¬ (d ≥ 56.25 ∧ d < 78.75) := by rintro ⟨h1, h2⟩; linarith
  have c4 : ¬ (d ≥ 78.75 ∧ d < 101.25) := by rintro ⟨h1, h2⟩; linarith
  have c5 : ¬ (d ≥ 101.25 ∧ d < 123.75) := by rintro ⟨h1, h2⟩; linarith
  have c6 : ¬ (d ≥ 123.75 ∧ d < 146.25) := by rintro ⟨h1, h2⟩; linarith
  have c7 : d ≥ 146.25 ∧ d < 168.75 := ⟨hlo, hhi⟩
  simp only [WindDegToOrdinalDirection, if_neg c0, if_neg c1, if_neg c2, if_neg c3, if_neg c4, if_neg c5, if_neg c6, if_pos c7]

/-- The value on the sector from 168.75 up to 191.25 degrees. -/
theorem windDeg_S (d : ℚ) (hlo : (168.75 : ℚ) ≤ d) (hhi : d < (191.25 : ℚ)) :
    WindDegToOrdinalDirection d = "S" := by
  have c0 : ¬ (d ≥ 348.75 ∨ d < 11.25) := by rintro (h | h) <;> linarith
  have c1 : ¬ (d ≥ 11.25 ∧ d < 33.75) := by rintro ⟨h1, h2⟩; linarith
  have c2 : ¬ (d ≥ 33.75 ∧ d < 56.25) := by rintro ⟨h1, h2⟩; linarith
  have c3 : ¬ (d ≥ 56.25 ∧ d < 78.75) := by rintro ⟨h1, h2⟩; linarith
  have c4 : ¬ (d ≥ 78.75 ∧ d < 101.25) := by rintro ⟨h1, h2⟩; linarith
  have c5 : ¬ (d ≥ 101.25 ∧ d < 123.75) := by rintro ⟨h1, h2⟩; linarith
  have c6 : ¬ (d ≥ 123.75 ∧ d < 146.25) := by rintro ⟨h1, h2⟩; linarith
  have c7 : ¬ (d ≥ 146.25 ∧ d < 168.75) := by rintro ⟨h1, h2⟩; linarith
  have c8 : d ≥ 168.75 ∧ d < 191.25 := ⟨hlo, hhi⟩
  simp only [WindDegToOrdinalDirection, if_neg c0, if_neg c1, if_neg c2, if_neg c3, if_neg c4, if_neg c5, if_neg c6, if_neg c7, if_pos c8]

/-- The value on the sector from 191.25 up to 213.75 degrees. -/
theorem windDeg_SSW (d : ℚ) (hlo : (191.25 : ℚ) ≤ d) (hhi : d < (213.75 : ℚ)) :
    WindDegToOrdinalDirection d = "SSW" := by
  have c0 : ¬ (d ≥ 348.75 ∨ d < 11.25) := by rintro (h | h) <;> linarith
  have c1 : ¬ (d ≥ 11.25 ∧ d < 33.75) := by rintro ⟨h1, h2⟩; linarith
  have c2 : ¬ (d ≥ 33.75 ∧ d < 56.25) := by rintro ⟨h1, h2⟩; linarith
  have c3 : ¬ (d ≥ 56.25 ∧ d < 78.75) := by rintro ⟨h1, h2⟩; linarith
  have c4 : ¬ (d ≥ 78.75 ∧ d < 101.25) := by rintro ⟨h1, h2⟩; linarith
  have c5 : ¬ (d ≥ 101.25 ∧ d < 123.75) := by rintro ⟨h1, h2⟩; linarith
  have c6 : ¬ (d ≥ 123.75 ∧ d < 146.25) := by rintro ⟨h1, h2⟩; linarith
  have c7 : ¬ (d ≥ 146.25 ∧ d < 168.75) := by rintro ⟨h1, h2⟩; linarith
  have c8 : ¬ (d ≥ 168.75 ∧ d < 191.25) := by rintro ⟨h1, h2⟩; linarith
  have c9 : d ≥ 191.25 ∧ d < 213.75 := ⟨hlo, hhi⟩
  simp only [WindDegToOrdinalDirection, if_neg c0, if_neg c1, if_neg c2, if_neg c3, if_neg c4, if_neg c5, if_neg c6, if_neg c7, if_neg c8, if_pos c9]

/-- The value on the sector from 213.75 up to 236.25 degrees. -/
theorem windDeg_SW (d : ℚ) (hlo : (213.75 : ℚ) ≤ d) (hhi : d < (236.25 : ℚ)) :
    WindDegToOrdinalDirection d = "SW" := by
  have c0 : ¬ (d ≥ 348.75 ∨ d < 11.25) := by rintro (h | h) <;> linarith
  have c1 : ¬ (d ≥ 11.25 ∧ d < 33.75) := by rintro ⟨h1, h2⟩; linarith
  have c2 : ¬ (d ≥ 33.75 ∧ d < 56.25) := by rintro ⟨h1, h2⟩; linarith
  have c3 : ¬ (d ≥ 56.25 ∧ d < 78.75) := by rintro ⟨h1, h2⟩; linarith
  have c4 : ¬ (d ≥ 78.75 ∧ d < 101.25) := by rintro ⟨h1, h2⟩; linarith
  have c5 : ¬ (d ≥ 101.25 ∧ d < 123.75) := by rintro ⟨h1, h2⟩; linarith
  have c6 : ¬ (d ≥ 123.75 ∧ d < 146.25) := by rintro ⟨h1, h2⟩; linarith
  have c7 : ¬ (d ≥ 146.25 ∧ d < 168.75) := by rintro ⟨h1, h2⟩; linarith
  have c8 : ¬ (d ≥ 168.75 ∧ d < 191.25) := by rintro ⟨h1, h2⟩; linarith
  have c9 : ¬ (d ≥ 191.25 ∧ d < 213.75) := by rintro ⟨h1, h2⟩; linarith
  have c10 : d ≥ 213.75 ∧ d < 236.25 := ⟨hlo, hhi⟩
  simp only [WindDegToOrdinalDirection, if_neg c0, if_neg c1, if_neg c2, if_neg c3, if_neg c4, if_neg c5, if_neg c6, if_neg c7, if_neg c8, if_neg c9, if_pos c10]

/-- The value on the sector from 236.25 up to 258.75 degrees. -/
theorem windDeg_WSW (d : ℚ) (hlo : (236.25 : ℚ) ≤ d) (hhi : d < (258.75 : ℚ)) :
    WindDegToOrdinalDirection d = "WSW" := by
  have c0 : ¬ (d ≥ 348.75 ∨ d < 11.25) := by rintro (h | h) <;> linarith
  have c1 : ¬ (d ≥ 11.25 ∧ d < 33.75) := by rintro ⟨h1, h2⟩; linarith
  have c2 : ¬ (d ≥ 33.75 ∧ d < 56.25) := by rintro ⟨h1, h2⟩; linarith
  have c3 : ¬ (d ≥ 56.25 ∧ d < 78.75) := by rintro ⟨h1, h2⟩; linarith
  have c4 : ¬ (d ≥ 78.75 ∧ d < 101.25) := by rintro ⟨h1, h2⟩; linarith
  have c5 : ¬ (d ≥ 101.25 ∧ d < 123.75) := by rintro ⟨h1, h2⟩; linarith
  have c6 : ¬ (d ≥ 123.75 ∧ d < 146.25) := by rintro ⟨h1, h2⟩; linarith
  have c7 : ¬ (d ≥ 146.25 ∧ d < 168.75) := by rintro ⟨h1, h2⟩; linarith
  have c8 : ¬ (d ≥ 168.75 ∧ d < 191.25) := by rintro ⟨h1, h2⟩; linarith
  have c9 : ¬ (d ≥ 191.25 ∧ d < 213.75) := by rintro ⟨h1, h2⟩; linarith
  have c10 : ¬ (d ≥ 213.75 ∧ d < 236.25) := by rintro ⟨h1, h2⟩; linarith
  have c11 : d ≥ 236.25 ∧ d < 258.75 := ⟨hlo, hhi⟩
  simp only [WindDegToOrdinalDirection, if_neg c0, if_neg c1, if_neg c2, if_neg c3, if_neg c4, if_neg c5, if_neg c6, if_neg c7, if_neg c8, if_neg c9, if_neg c10, if_pos c11]

/-- The value on the sector from 258.75 up to 281.25 degrees. -/
theorem windDeg_W (d : ℚ) (hlo : (258.75 : ℚ) ≤ d) (hhi : d < (281.25 : ℚ)) :
    WindDegToOrdinalDirection d = "W" := by
  have c0 : ¬ (d ≥ 348.75 ∨ d < 11.25) := by rintro (h | h) <;> linarith
  have c1 : ¬ (d ≥ 11.25 ∧ d < 33.75) := by rintro ⟨h1, h2⟩; linarith
  have c2 : ¬ (d ≥ 33.75 ∧ d < 56.25) := by rintro ⟨h1, h2⟩; linarith
  have c3 : ¬ (d ≥ 56.25 ∧ d < 78.75) := by rintro ⟨h1, h2⟩; linarith
  have c4 : ¬ (d ≥ 78.75 ∧ d < 101.25) := by rintro ⟨h1, h2⟩; linarith
  have c5 : ¬ (d ≥ 101.25 ∧ d < 123.75) := by rintro ⟨h1, h2⟩; linarith
  have c6 : ¬ (d ≥ 123.75 ∧ d < 146.25) := by rintro ⟨h1, h2⟩; linarith
  have c7 : ¬ (d ≥ 146.25 ∧ d < 168.75) := by rintro ⟨h1, h2⟩; linarith
  have c8 : ¬ (d ≥ 168.75 ∧ d < 191.25) := by rintro ⟨h1, h2⟩; linarith
  have c9 : ¬ (d ≥ 191.25 ∧ d < 213.75) := by rintro ⟨h1, h2⟩; linarith
  have c10 : ¬ (d ≥ 213.75 ∧ d < 236.25) := by rintro ⟨h1, h2⟩; linarith
  have c11 : ¬ (d ≥ 236.25 ∧ d < 258.75) := by rintro ⟨h1, h2⟩; linarith
  have c12 : d ≥ 258.75 ∧ d < 281.25 := ⟨hlo, hhi⟩
  simp only [WindDegToOrdinalDirection, if_neg c0, if_neg c1, if_neg c2, if_neg c3, if_neg c4, if_neg c5, if_neg c6, if_neg c7, if_neg c8, if_neg c9, if_neg c10, if_neg c11, if_pos c12]

/-- The value on the sector from 281.25 up to 303.75 degrees. -/
theorem windDeg_WNW (d : ℚ) (hlo : (281.25 : ℚ) ≤ d) (hhi : d < (303.75 : ℚ)) :
    WindDegToOrdinalDirection d = "WNW" := by
  have c0 : ¬ (d ≥ 348.75 ∨ d < 11.25) := by rintro (h | h) <;> linarith
  have c1 : ¬ (d ≥ 11.25 ∧ d < 33.75) := by rintro ⟨h1, h2⟩; linarith
  have c2 : ¬ (d ≥ 33.75 ∧ d < 56.25) := by rintro ⟨h1, h2⟩; linarith
  have c3 : ¬ (d ≥ 56.25 ∧ d < 78.75) := by rintro ⟨h1, h2⟩; linarith
  have c4 : ¬ (d ≥ 78.75 ∧ d < 101.25) := by rintro ⟨h1, h2⟩; linarith
  have c5 : ¬ (d ≥ 101.25 ∧ d < 123.75) := by rintro ⟨h1, h2⟩; linarith
  have c6 : ¬ (d ≥ 123.75 ∧ d < 146.25) := by rintro ⟨h1, h2⟩; linarith
  have c7 : ¬ (d ≥ 146.25 ∧ d < 168.75) := by rintro ⟨h1, h2⟩; linarith
  have c8 : ¬ (d ≥ 168.75 ∧ d < 191.25) := by rintro ⟨h1, h2⟩; linarith
  have c9 : ¬ (d ≥ 191.25 ∧ d < 213.75) := by rintro ⟨h1, h2⟩; linarith
  have c10 : ¬ (d ≥ 213.75 ∧ d < 236.25) := by rintro ⟨h1, h2⟩; linarith
  have c11 : ¬ (d ≥ 236.25 ∧ d < 258.75) := by rintro ⟨h1, h2⟩; linarith
  have c12 : ¬ (d ≥ 258.75 ∧ d < 281.25) := by rintro ⟨h1, h2⟩; linarith
  have c13 : d ≥ 281.25 ∧ d < 303.75 := ⟨hlo, hhi⟩
  simp only [WindDegToOrdinalDirection, if_neg c0, if_neg c1, if_neg c2, if_neg c3, if_neg c4, if_neg c5, if_neg c6, if_neg c7, if_neg c8, if_neg c9, if_neg c10, if_neg c11, if_neg c12, if_pos c13]

/-- The value on the sector from 303.75 up to 326.25 degrees. -/
theorem windDeg_NW (d : ℚ) (hlo : (303.75 : ℚ) ≤ d) (hhi : d < (326.25 : ℚ)) :
    WindDegToOrdinalDirection d = "NW" := by
  have c0 : ¬ (d ≥ 348.75 ∨ d < 11.25) := by rintro (h | h) <;> linarith
  have c1 : ¬ (d ≥ 11.25 ∧ d < 33.75) := by rintro ⟨h1, h2⟩; linarith
  have c2 : ¬ (d ≥ 33.75 ∧ d < 56.25) := by rintro ⟨h1, h2⟩; linarith
  have c3 : ¬ (d ≥ 56.25 ∧ d < 78.75) := by rintro ⟨h1, h2⟩; linarith
  have c4 : ¬ (d ≥ 78.75 ∧ d < 101.25) := by rintro ⟨h1, h2⟩; linarith
  have c5 : ¬ (d ≥ 101.25 ∧ d < 123.75) := by rintro ⟨h1, h2⟩; linarith
  have c6 : ¬ (d ≥ 123.75 ∧ d < 146.25) := by rintro ⟨h1, h2⟩; linarith
  have c7 : ¬ (d ≥ 146.25 ∧ d < 168.75) := by rintro ⟨h1, h2⟩; linarith
  have c8 : ¬ (d ≥ 168.75 ∧ d < 191.25) := by rintro ⟨h1, h2⟩; linarith
  have c9 : ¬ (d ≥ 191.25 ∧ d < 213.75) := by rintro ⟨h1, h2⟩; linarith
  have c10 : ¬ (d ≥ 213.75 ∧ d < 236.25) := by rintro ⟨h1, h2⟩; linarith
  have c11 : ¬ (d ≥ 236.25 ∧ d < 258.75) := by rintro ⟨h1, h2⟩; linarith
  have c12 : ¬ (d ≥ 258.75 ∧ d < 281.25) := by rintro ⟨h1, h2⟩; linarith
  have c13 : ¬ (d ≥ 281.25 ∧ d < 303.75) := by rintro ⟨h1, h2⟩; linarith
  have c14 : d ≥ 303.75 ∧ d < 326.25 := ⟨hlo, hhi⟩
  simp only [WindDegToOrdinalDirection, if_neg c0, if_neg c1, if_neg c2, if_neg c3, if_neg c4, if_neg c5, if_neg c6, if_neg c7, if_neg c8, if_neg c9, if_neg c10, if_neg c11, if_neg c12, if_neg c13, if_pos c14]

/-- The value on the sector from 326.25 up to 348.75 degrees. -/
theorem windDeg_NNW (d : ℚ) (hlo : (326.25 : ℚ) ≤ d) (hhi : d < (348.75 : ℚ)) :
    WindDegToOrdinalDirection d = "NNW" := by
  have c0 : ¬ (d ≥ 348.75 ∨ d < 11.25) := by rintro (h | h) <;> linarith
  have c1 : ¬ (d ≥ 11.25 ∧ d < 33.75) := by rintro ⟨h1, h2⟩; linarith
  have c2 : ¬ (d ≥ 33.75 ∧ d < 56.25) := by rintro ⟨h1, h2⟩; linarith
  have c3 : ¬ (d ≥ 56.25 ∧ d < 78.75) := by rintro ⟨h1, h2⟩; linarith
  have c4 : ¬ (d ≥ 78.75 ∧ d < 101.25) := by rintro ⟨h1, h2⟩; linarith
  have c5 : ¬ (d ≥ 101.25 ∧ d < 123.75) := by rintro ⟨h1, h2⟩; linarith
  have c6 : ¬ (d ≥ 123.75 ∧ d < 146.25) := by rintro ⟨h1, h2⟩; linarith
  have c7 : ¬ (d ≥ 146.25 ∧ d < 168.75) := by rintro ⟨h1, h2⟩; linarith
  have c8 : ¬ (d ≥ 168.75 ∧ d < 191.25) := by rintro ⟨h1, h2⟩; linarith
  have c9 : ¬ (d ≥ 191.25 ∧ d < 213.75) := by rintro ⟨h1, h2⟩; linarith
  have c10 : ¬ (d ≥ 213.75 ∧ d < 236.25) := by rintro ⟨h1, h2⟩; linarith
  have c11 : ¬ (d ≥ 236.25 ∧ d < 258.75) := by rintro ⟨h1, h2⟩; linarith
  have c12 : ¬ (d ≥ 258.75 ∧ d < 281.25) := by rintro ⟨h1, h2⟩; linarith
  have c13 : ¬ (d ≥ 281.25 ∧ d < 303.75) := by rintro ⟨h1, h2⟩; linarith
  have c14 : ¬ (d ≥ 303.75 ∧ d < 326.25) := by rintro ⟨h1, h2⟩; linarith
  have c15 : d ≥ 326.25 ∧ d < 348.75 := ⟨hlo, hhi⟩
  simp only [WindDegToOrdinalDirection, if_neg c0, if_neg c1, if_neg c2, if_neg c3, if_neg c4, if_neg c5, if_neg c6, if_neg c7, if_neg c8, if_neg c9, if_neg c10, if_neg c11, if_neg c12, if_neg c13, if_neg c14, if_pos c15]

/-- The value of the function on the `k`-th sector of 22.5 degrees centred on `22.5 * k`,
for directions below 360; the sector of north wraps around 360. -/
theorem windDeg_sector (k : Nat) (hk : k < 16) (d : ℚ) (h360 : d < 360)
    (hsec : (22.5 * (k : ℚ) - 11.25 ≤ d ∧ d < 22.5 * (k : ℚ) + 11.25) ∨
      (22.5 * (k : ℚ) - 11.25 ≤ d - 360 ∧ d - 360 < 22.5 * (k : ℚ) + 11.25)) :
    some (WindDegToOrdinalDirection d) = compassNames[k]? := by
  interval_cases k
  · simp only [Nat.cast_zero] at hsec
    rw [windDeg_north d (by
      rcases hsec with h | h
      · exact Or.inr (by linarith [h.2])
      · exact Or.inl (by linarith [h.1]))]
    rfl
  · simp only [Nat.cast_one] at hsec
    rw [windDeg_NNE d (by rcases hsec with h | h <;> linarith [h.1])
      (by rcases hsec with h | h <;> linarith [h.1, h.2])]
    rfl
  · simp only [Nat.cast_ofNat] at hsec
    rw [windDeg_NE d (by rcases hsec with h | h <;> linarith [h.1])
      (by rcases hsec with h | h <;> linarith [h.1, h.2])]
    rfl
  · simp only [Nat.cast_ofNat] at hsec
    rw [windDeg_ENE d (by rcases hsec with h | h <;> linarith [h.1])
      (by rcases hsec with h | h <;> linarith [h.1, h.2])]
    rfl
  · simp only [Nat.cast_ofNat] at hsec
    rw [windDeg_E d (by rcases hsec with h | h <;> linarith [h.1])
      (by rcases hsec with h | h <;> linarith [h.1, h.2])]
    rfl
  · simp only [Nat.cast_ofNat] at hsec
    rw [windDeg_ESE d (by rcases hsec with h | h <;> linarith [h.1])
      (by rcases hsec with h | h <;> linarith [h.1, h.2])]
    rfl
  · simp only [Nat.cast_ofNat] at hsec
    rw [windDeg_SE d (by rcases hsec with h | h <;> linarith [h.1])
      (by rcases hsec with h | h <;> linarith [h.1, h.2])]
    rfl
  · simp only [Nat.cast_ofNat] at hsec
    rw [windDeg_SSE d (by rcases hsec with h | h <;> linarith [h.1])
      (by rcases hsec with h | h <;> linarith [h.1, h.2])]
    rfl
  · simp only [Nat.cast_ofNat] at hsec
    rw [windDeg_S d (by rcases hsec with h | h <;> linarith [h.1])
      (by rcases hsec with h | h <;> linarith [h.1, h.2])]
    rfl
  · simp only [Nat.cast_ofNat] at hsec
    rw [windDeg_SSW d (by rcases hsec with h | h <;> linarith [h.1])
      (by rcases hsec with h | h <;> linarith [h.1, h.2])]
    rfl
  · simp only [Nat.cast_ofNat] at hsec
    rw [windDeg_SW d (by rcases hsec with h | h <;> linarith [h.1])
      (by rcases hsec with h | h <;> linarith [h.1, h.2])]
    rfl
  · simp only [Nat.cast_ofNat] at hsec
    rw [windDeg_WSW d (by rcases hsec with h | h <;> linarith [h.1])
      (by rcases hsec with h | h <;> linarith [h.1, h.2])]
    rfl
  · simp only [Nat.cast_ofNat] at hsec
    rw [windDeg_W d (by rcases hsec with h | h <;> linarith [h.1])
      (by rcases hsec with h | h <;> linarith [h.1, h.2])]
    rfl
  · simp only [Nat.cast_ofNat] at hsec
    rw [windDeg_WNW d (by rcases hsec with h | h <;> linarith [h.1])
      (by rcases hsec with h | h <;> linarith [h.1, h.2])]
    rfl
  · simp only [Nat.cast_ofNat] at hsec
    rw [windDeg_NW d (by rcases hsec with h | h <;> linarith [h.1])
      (by rcases hsec with h | h <;> linarith [h.1, h.2])]
    rfl
  · simp only [Nat.cast_ofNat] at hsec
    rw [windDeg_NNW d (by rcases hsec with h | h <;> linarith [h.1])
      (by rcases hsec with h | h <;> linarith [h.1, h.2])]
    rfl

/-- C29: over exact directions, `WindDegToOrdinalDirection` always returns one of the
sixteen compass-point names and never "?"; and for every `k` in 0..15 and every `d` in
`[0, 360)` with `22.5*k - 11.25 ≤ d < 22.5*k + 11.25`, the sector taken modulo 360, it
returns the `k`-th name in the order N, NNE, NE, ENE, E, ESE, SE, SSE, S, SSW, SW, WSW, W,
WNW, NW, NNW. -/
theorem wind_direction_sectors :
    (∀ d : ℚ, WindDegToOrdinalDirection d ∈ compassNames ∧
      WindDegToOrdinalDirection d ≠ "?") ∧
    (∀ (k : Nat) (d : ℚ), k < 16 → 0 ≤ d → d < 360 →
      ((22.5 * (k : ℚ) - 11.25 ≤ d ∧ d < 22.5 * (k : ℚ) + 11.25) ∨
        (22.5 * (k : ℚ) - 11.25 ≤ d - 360 ∧ d - 360 < 22.5 * (k : ℚ) + 11.25)) →
      some (WindDegToOrdinalDirection d) = compassNames[k]?) := by
  refine ⟨fun d => ⟨windDeg_total d, ?_⟩, fun k d hk _ h360 hsec =>
    windDeg_sector k hk d h360 hsec⟩
  intro hq
  have hm := windDeg_total d
  rw [hq] at hm
  simp [compassNames] at hm

/-- Worked case for C29: 350 degrees lies in the wrapped sector of north, 100 degrees in
the sector of east. -/
theorem wind_direction_sectors_witness :
    some (WindDegToOrdinalDirection 350) = some "N" ∧
      some (WindDegToOrdinalDirection 100) = some "E" :=
  ⟨wind_direction_sectors.2 0 350 (by decide) (by norm_num) (by norm_num)
      (Or.inr (by norm_num)),
    wind_direction_sectors.2 4 100 (by decide) (by norm_num) (by norm_num)
      (Or.inl (by norm_num))⟩


/-! ## The bus mutex and the end of a driver iteration -/

end WeatherStation
